import Mathlib

/-!
NSX-T infrastructure tasks

A shallow embedding of `pkg/vsphere/infrastructure/task/tasks.go`: the ten
resource tasks that reconcile the NSX-T objects of a cluster against the
persisted `NSXTInfraState`.

* Go pointers are `Option`s; dereferencing a nil pointer is the result `panic`.
* The remote catalogue is an abstract world `σ` with one transition function per
  client method; every call issued is appended to the log of the connection.
* The `for` loop of the paginated lookups and the self-recursion of `Ensure`
  take a fuel argument; `none` means the fuel ran out before the code returned.
-/

set_option linter.dupNamespace false

namespace Vsphere

/-! ## Data model -/

/-- Remote identifier and hierarchical path (`api.Reference`). -/
structure Reference where
  ID : String
  Path : String
deriving DecidableEq

/-- The state document (`api.NSXTInfraState`): one optional slot per resource. -/
structure NSXTInfraState where
  SegmentName : Option String
  SNATIPAddress : Option String
  Tier0GatewayRef : Option Reference
  EdgeClusterRef : Option Reference
  TransportZoneRef : Option Reference
  SNATIPPoolRef : Option Reference
  Tier1GatewayRef : Option Reference
  LocaleServiceRef : Option Reference
  SegmentRef : Option Reference
  SNATIPAddressAllocRef : Option Reference
  SNATRuleRef : Option Reference
deriving DecidableEq

/-- Key/value tag of the catalogue (`model.Tag`). -/
structure Tag where
  Scope : Option String
  Tag : Option String
deriving DecidableEq

/-- The desired state (`vinfra.NSXTInfraSpec`). The methods `FullClusterName()` and
`CreateTags()` are declared outside this file; they are pure functions of the
spec, so the model carries their results. -/
structure NSXTInfraSpec where
  FullClusterName : String
  CreateTags : List Tag
  WorkersNetwork : String
  Tier0GatewayName : String
  EdgeClusterName : String
  TransportZoneName : String
  SNATIPPoolName : String
deriving DecidableEq

/-- The fields the lookups read of a listed shared object (`model.Tier0`,
`model.PolicyEdgeCluster`, `model.PolicyTransportZone`, `model.IpAddressPool`). -/
structure PolicyResource where
  DisplayName : Option String
  Id : Option String
  Path : Option String
deriving DecidableEq

/-- One page of a listing (`model.*ListResult`). -/
structure ListResult where
  Results : List PolicyResource
  Cursor : Option String
  ResultCount : Option Int
deriving DecidableEq

/-- The fields of `model.Tier1` the task writes or reads. -/
structure Tier1 where
  DisplayName : Option String
  Description : Option String
  FailoverMode : Option String
  Tags : List Tag
  RouteAdvertisementTypes : List String
  Tier0Path : Option String
  Id : Option String
  Path : Option String
deriving DecidableEq

/-- The fields of `model.LocaleServices` the task writes or reads. -/
structure LocaleServices where
  DisplayName : Option String
  Description : Option String
  EdgeClusterPath : Option String
  Tags : List Tag
  Id : Option String
  Path : Option String
deriving DecidableEq

/-- One subnet of a segment (`model.SegmentSubnet`). -/
structure SegmentSubnet where
  GatewayAddress : Option String
deriving DecidableEq

/-- The fields of `model.Segment` the task writes or reads. -/
structure Segment where
  DisplayName : Option String
  Description : Option String
  ConnectivityPath : Option String
  TransportZonePath : Option String
  Tags : List Tag
  Subnets : List SegmentSubnet
  Id : Option String
  Path : Option String
deriving DecidableEq

/-- The fields of `model.IpAddressAllocation` the task writes or reads. -/
structure IpAddressAllocation where
  DisplayName : Option String
  Description : Option String
  Tags : List Tag
  Id : Option String
  Path : Option String
deriving DecidableEq

/-- The fields of `model.PolicyNatRule` the task writes or reads. -/
structure PolicyNatRule where
  DisplayName : Option String
  Description : Option String
  Action : String
  Enabled : Option Bool
  Logging : Option Bool
  SequenceNumber : Option Int
  Tags : List Tag
  SourceNetwork : Option String
  TranslatedNetwork : Option String
  DestinationNetwork : Option String
  Id : Option String
  Path : Option String
deriving DecidableEq

/-! ## Errors and results -/

/-- Modelled from the spec: the error value of the catalogue client, which is
declared in the vendored SDK. "Not-found is a distinguishable error kind". -/
inductive ApiError where
  | notFound (msg : String)
  | other (msg : String)
deriving DecidableEq

/-- Modelled from the spec: the helper `isNotFoundError` is declared outside
this file; it recognises the not-found error kind. -/
def isNotFoundError : ApiError → Bool
  | .notFound _ => true
  | .other _ => false

/-- The error a task hands to its caller. `reading`, `updating` and `creating`
stand for the results of the helpers `readingErr`, `updatingErr` and
`creatingErr` at a catalogue error; `api` is an error value passed on as it
is; `errorf` is `fmt.Errorf`; `wrapf` is `errors.Wrapf`. -/
inductive TaskError where
  | api (e : ApiError)
  | errorf (msg : String)
  | wrapf (cause : String) (msg : String)
  | reading (e : ApiError)
  | updating (e : ApiError)
  | creating (e : ApiError)
deriving DecidableEq

/-- The outcome labels `actionFound`, `actionCreated`, `actionUpdated` and
`actionUnchanged`. -/
inductive Action where
  | actionFound
  | actionCreated
  | actionUpdated
  | actionUnchanged
deriving DecidableEq

export Action (actionFound actionCreated actionUpdated actionUnchanged)

/-- What a Go call `(value, error)` ends in: a value with a nil error, an
error, or a runtime panic (nil pointer dereference). Every `return` of
`tasks.go` that carries an error carries the zero value with it (`""` from
`Ensure`, `false` from `EnsureDeleted`), so `error` stands for that pair. -/
inductive Result (α : Type) where
  | ok (a : α)
  | error (e : TaskError)
  | panic
deriving DecidableEq

/-! ## The catalogue -/

/-- One call to the catalogue client, with its arguments. -/
inductive Call where
  | tier0sList (cursor : Option String)
  | edgeClustersList (site enforcementPoint : String)
  | transportZonesList (site enforcementPoint : String)
  | ipPoolsList (cursor : Option String)
  | tier1sGet (id : String)
  | tier1sPatch (id : String) (obj : Tier1)
  | tier1sUpdate (id : String) (obj : Tier1)
  | tier1sDelete (id : String)
  | localeServicesGet (tier1Id id : String)
  | localeServicesPatch (tier1Id id : String) (obj : LocaleServices)
  | localeServicesDelete (tier1Id id : String)
  | segmentsGet (id : String)
  | segmentsPatch (id : String) (obj : Segment)
  | segmentsUpdate (id : String) (obj : Segment)
  | segmentsDelete (id : String)
  | ipAllocationsGet (poolId id : String)
  | ipAllocationsUpdate (poolId id : String) (obj : IpAddressAllocation)
  | ipAllocationsDelete (poolId id : String)
  | natRulesGet (tier1Id natId id : String)
  | natRulesPatch (tier1Id natId id : String) (obj : PolicyNatRule)
  | natRulesUpdate (tier1Id natId id : String) (obj : PolicyNatRule)
  | natRulesDelete (tier1Id natId id : String)
  | realizedIPAddress (path : String)
deriving DecidableEq

/-- Whether the call is a `Patch`. -/
def Call.isPatch : Call → Bool
  | .tier1sPatch _ _ => true
  | .localeServicesPatch _ _ _ => true
  | .segmentsPatch _ _ => true
  | .natRulesPatch _ _ _ _ => true
  | _ => false

/-- Whether the call is an `Update` (create-or-replace). -/
def Call.isUpdate : Call → Bool
  | .tier1sUpdate _ _ => true
  | .segmentsUpdate _ _ => true
  | .ipAllocationsUpdate _ _ _ => true
  | .natRulesUpdate _ _ _ _ => true
  | _ => false

/-- Whether the call is a `Delete`. -/
def Call.isDelete : Call → Bool
  | .tier1sDelete _ => true
  | .localeServicesDelete _ _ => true
  | .segmentsDelete _ => true
  | .ipAllocationsDelete _ _ => true
  | .natRulesDelete _ _ _ => true
  | _ => false

/-- Whether the call writes to the catalogue. -/
def Call.isWrite (c : Call) : Bool :=
  c.isPatch || c.isUpdate || c.isDelete

/-- Package-level helpers and constants that `tasks.go` uses and that are
declared in other files of the package: they are parameters of the model. -/
structure Helpers where
  description : String
  defaultSite : String
  policyEnforcementPoint : String
  defaultPolicyLocaleServiceID : String
  equalTags : List Tag → List Tag → Bool
  cidrHostAndPrefix : String → Nat → Except String String
  nicerVAPIError : ApiError → ApiError

/-- The `EnsurerContext`: the helpers, and behind `ctx.Connector()` the remote
catalogue as a world `σ` with one transition per client method. The random
sources `generateID` and `RandomString` and the polling helper
`getRealizedIPAddress` read the world too. -/
structure EnsurerContext (σ : Type) extends Helpers where
  tier0sList : σ → Option String → Except ApiError ListResult × σ
  edgeClustersList : σ → String → String → Except ApiError ListResult × σ
  transportZonesList : σ → String → String → Except ApiError ListResult × σ
  ipPoolsList : σ → Option String → Except ApiError ListResult × σ
  tier1sGet : σ → String → Except ApiError Tier1 × σ
  tier1sPatch : σ → String → Tier1 → Option ApiError × σ
  tier1sUpdate : σ → String → Tier1 → Except ApiError Tier1 × σ
  tier1sDelete : σ → String → Option ApiError × σ
  localeServicesGet : σ → String → String → Except ApiError LocaleServices × σ
  localeServicesPatch : σ → String → String → LocaleServices → Option ApiError × σ
  localeServicesDelete : σ → String → String → Option ApiError × σ
  segmentsGet : σ → String → Except ApiError Segment × σ
  segmentsPatch : σ → String → Segment → Option ApiError × σ
  segmentsUpdate : σ → String → Segment → Except ApiError Segment × σ
  segmentsDelete : σ → String → Option ApiError × σ
  ipAllocationsGet : σ → String → String → Except ApiError IpAddressAllocation × σ
  ipAllocationsUpdate : σ → String → String → IpAddressAllocation →
    Except ApiError IpAddressAllocation × σ
  ipAllocationsDelete : σ → String → String → Option ApiError × σ
  natRulesGet : σ → String → String → String → Except ApiError PolicyNatRule × σ
  natRulesPatch : σ → String → String → String → PolicyNatRule → Option ApiError × σ
  natRulesUpdate : σ → String → String → String → PolicyNatRule →
    Except ApiError PolicyNatRule × σ
  natRulesDelete : σ → String → String → String → Option ApiError × σ
  getRealizedIPAddress : σ → String → Except ApiError (Option String) × σ
  generateID : σ → String → String × σ
  RandomString : σ → Nat → String × σ

/-- The connection: the world of the catalogue and the calls issued so far. -/
structure Conn (σ : Type) where
  world : σ
  calls : List Call

/-- Issue a call: log it and move to the world the catalogue answers with. -/
def Conn.invoke {σ α : Type} (conn : Conn σ) (call : Call) (answer : α × σ) : α × Conn σ :=
  (answer.1, { world := answer.2, calls := conn.calls ++ [call] })

/-- Draw from a random source: the world moves, no catalogue call is logged. -/
def Conn.draw {σ α : Type} (conn : Conn σ) (answer : α × σ) : α × Conn σ :=
  (answer.1, { world := answer.2, calls := conn.calls })

/-- What a task operation leaves behind: its result, the state document (it is
mutated in place, so it is observable after an error or a panic too) and the
connection. -/
structure Run (σ α : Type) where
  result : Result α
  state : NSXTInfraState
  conn : Conn σ

/-! ## Constants of the vendored SDK -/

/-- Modelled from the spec: `model.Tier1_FAILOVER_MODE_PREEMPTIVE`. -/
def Tier1_FAILOVER_MODE_PREEMPTIVE : String := "PREEMPTIVE"

/-- Modelled from the spec: `model.Tier1_ROUTE_ADVERTISEMENT_TYPES_STATIC_ROUTES`. -/
def Tier1_ROUTE_ADVERTISEMENT_TYPES_STATIC_ROUTES : String := "TIER1_STATIC_ROUTES"

/-- Modelled from the spec: `model.Tier1_ROUTE_ADVERTISEMENT_TYPES_NAT`. -/
def Tier1_ROUTE_ADVERTISEMENT_TYPES_NAT : String := "TIER1_NAT"

/-- Modelled from the spec: `model.Tier1_ROUTE_ADVERTISEMENT_TYPES_LB_VIP`. -/
def Tier1_ROUTE_ADVERTISEMENT_TYPES_LB_VIP : String := "TIER1_LB_VIP"

/-- Modelled from the spec: `model.Tier1_ROUTE_ADVERTISEMENT_TYPES_LB_SNAT`. -/
def Tier1_ROUTE_ADVERTISEMENT_TYPES_LB_SNAT : String := "TIER1_LB_SNAT"

/-- Modelled from the spec: `model.PolicyNatRule_ACTION_SNAT`. -/
def PolicyNatRule_ACTION_SNAT : String := "SNAT"

/-- Modelled from the spec: `model.PolicyNat_NAT_TYPE_USER`. -/
def PolicyNat_NAT_TYPE_USER : String := "USER"

/-! ## Small helpers -/

/-- Modelled from the spec: the helper `equalStrings` is declared outside this
file; list fields compare "via exact sequence equality". -/
def equalStrings (a b : List String) : Bool :=
  decide (a = b)

/-- The Go condition `old == nil || *old != want` on a pointer field. -/
def differs {α : Type} [DecidableEq α] (old : Option α) (want : α) : Bool :=
  match old with
  | none => true
  | some v => decide (v ≠ want)

/-- Go `strings.HasPrefix`. -/
def HasPrefix (s pfx : String) : Bool :=
  pfx.data.isPrefixOf s.data

/-! ## Lookup tasks -/

/-- What the `for _, item := range result.Results` loop of a lookup ends in. -/
inductive Scan where
  | found (ref : Reference)
  | absent
  | panic
deriving DecidableEq

/-- The item loop of the four lookups: the first item whose display name is
`name` gives the reference; reading a nil `DisplayName`, `Id` or `Path`
panics. -/
def scanItems (name : String) : List PolicyResource → Scan
  | [] => .absent
  | item :: rest =>
    match item.DisplayName with
    | none => .panic
    | some displayName =>
      if displayName = name then
        match item.Id, item.Path with
        | some id, some path => .found { ID := id, Path := path }
        | _, _ => .panic
      else scanItems name rest

/-- The paginated loop shared, word for word, by `lookupTier0GatewayTask.Ensure`
and `lookupSNATIPPoolTask.Ensure`; `list` is the client's `List`, `setRef` the
assignment to the task's slot. The loop variables are `cursor`, `total` and
`count`. -/
def pagedLookup {σ : Type} (list : σ → Option String → Except ApiError ListResult × σ)
    (mkCall : Option String → Call) (nicerVAPIError : ApiError → ApiError)
    (setRef : NSXTInfraState → Reference → NSXTInfraState) (name : String) :
    Nat → Option String → Int → Int → NSXTInfraState → Conn σ → Option (Run σ Action)
  | 0, _, _, _, _, _ => none
  | fuel + 1, cursor, total, count, state, conn =>
    match conn.invoke (mkCall cursor) (list conn.world cursor) with
    | (.error err, conn1) =>
      some { result := .error (.api (nicerVAPIError err)), state := state, conn := conn1 }
    | (.ok result, conn1) =>
      match scanItems name result.Results with
      | .found ref => some { result := .ok actionFound, state := setRef state ref, conn := conn1 }
      | .panic => some { result := .panic, state := state, conn := conn1 }
      | .absent =>
        match (if cursor = none then result.ResultCount else some total) with
        | none => some { result := .panic, state := state, conn := conn1 }
        | some total1 =>
          let count1 := count + (result.Results.length : Int)
          if count1 ≥ total1 then
            some { result := .error (.errorf ("not found: " ++ name)), state := state,
                   conn := conn1 }
          else pagedLookup list mkCall nicerVAPIError setRef name fuel result.Cursor total1
            count1 state conn1

/-- The single-page lookup shared by `lookupEdgeClusterTask.Ensure` and
`lookupTransportZoneTask.Ensure`. -/
def singleLookup {σ : Type} (answer : Except ApiError ListResult × Conn σ)
    (nicerVAPIError : ApiError → ApiError)
    (setRef : NSXTInfraState → Reference → NSXTInfraState) (name : String)
    (state : NSXTInfraState) : Run σ Action :=
  match answer with
  | (.error err, conn1) =>
    { result := .error (.api (nicerVAPIError err)), state := state, conn := conn1 }
  | (.ok result, conn1) =>
    match scanItems name result.Results with
    | .found ref => { result := .ok actionFound, state := setRef state ref, conn := conn1 }
    | .panic => { result := .panic, state := state, conn := conn1 }
    | .absent =>
      { result := .error (.errorf ("not found: " ++ name)), state := state, conn := conn1 }

/-- `lookupTier0GatewayTask.Ensure`. -/
def lookupTier0GatewayTask.Ensure {σ : Type} (fuel : Nat) (ctx : EnsurerContext σ)
    (spec : NSXTInfraSpec) (state : NSXTInfraState) (conn : Conn σ) : Option (Run σ Action) :=
  pagedLookup ctx.tier0sList Call.tier0sList ctx.nicerVAPIError
    (fun st ref => { st with Tier0GatewayRef := some ref }) spec.Tier0GatewayName
    fuel none 0 0 state conn

/-- `lookupEdgeClusterTask.Ensure`. -/
def lookupEdgeClusterTask.Ensure {σ : Type} (ctx : EnsurerContext σ)
    (spec : NSXTInfraSpec) (state : NSXTInfraState) (conn : Conn σ) : Run σ Action :=
  singleLookup
    (conn.invoke (.edgeClustersList ctx.defaultSite ctx.policyEnforcementPoint)
      (ctx.edgeClustersList conn.world ctx.defaultSite ctx.policyEnforcementPoint))
    ctx.nicerVAPIError (fun st ref => { st with EdgeClusterRef := some ref })
    spec.EdgeClusterName state

/-- `lookupTransportZoneTask.Ensure`. -/
def lookupTransportZoneTask.Ensure {σ : Type} (ctx : EnsurerContext σ)
    (spec : NSXTInfraSpec) (state : NSXTInfraState) (conn : Conn σ) : Run σ Action :=
  singleLookup
    (conn.invoke (.transportZonesList ctx.defaultSite ctx.policyEnforcementPoint)
      (ctx.transportZonesList conn.world ctx.defaultSite ctx.policyEnforcementPoint))
    ctx.nicerVAPIError (fun st ref => { st with TransportZoneRef := some ref })
    spec.TransportZoneName state

/-- `lookupSNATIPPoolTask.Ensure`. -/
def lookupSNATIPPoolTask.Ensure {σ : Type} (fuel : Nat) (ctx : EnsurerContext σ)
    (spec : NSXTInfraSpec) (state : NSXTInfraState) (conn : Conn σ) : Option (Run σ Action) :=
  pagedLookup ctx.ipPoolsList Call.ipPoolsList ctx.nicerVAPIError
    (fun st ref => { st with SNATIPPoolRef := some ref }) spec.SNATIPPoolName
    fuel none 0 0 state conn

/-! ## Create/update tasks -/

/-- The object `tier1` that `tier1GatewayTask.Ensure` builds; `tier0Path` is
`state.Tier0GatewayRef.Path`. -/
def tier1GatewayTask.desired (h : Helpers) (spec : NSXTInfraSpec) (tier0Path : String) : Tier1 :=
  { DisplayName := some spec.FullClusterName
    Description := some h.description
    FailoverMode := some Tier1_FAILOVER_MODE_PREEMPTIVE
    Tags := spec.CreateTags
    RouteAdvertisementTypes :=
      [Tier1_ROUTE_ADVERTISEMENT_TYPES_STATIC_ROUTES, Tier1_ROUTE_ADVERTISEMENT_TYPES_NAT,
       Tier1_ROUTE_ADVERTISEMENT_TYPES_LB_VIP, Tier1_ROUTE_ADVERTISEMENT_TYPES_LB_SNAT]
    Tier0Path := some tier0Path
    Id := none
    Path := none }

/-- The comparison of `tier1GatewayTask.Ensure` once `*oldTier1.DisplayName` is
read: true when a `Patch` is due. -/
def tier1GatewayTask.changed (h : Helpers) (oldName : String) (oldTier1 tier1 : Tier1)
    (fullClusterName tier0Path : String) : Bool :=
  decide (oldName ≠ fullClusterName) ||
  differs oldTier1.FailoverMode Tier1_FAILOVER_MODE_PREEMPTIVE ||
  differs oldTier1.Tier0Path tier0Path ||
  !equalStrings oldTier1.RouteAdvertisementTypes tier1.RouteAdvertisementTypes ||
  !h.equalTags oldTier1.Tags tier1.Tags

/-- `tier1GatewayTask.Ensure`. -/
def tier1GatewayTask.Ensure {σ : Type} (fuel : Nat) (ctx : EnsurerContext σ)
    (spec : NSXTInfraSpec) (state : NSXTInfraState) (conn : Conn σ) : Option (Run σ Action) :=
  match fuel with
  | 0 => none
  | fuel + 1 =>
    match state.Tier0GatewayRef with
    | none => some { result := .panic, state := state, conn := conn }
    | some tier0 =>
      let tier1 := tier1GatewayTask.desired ctx.toHelpers spec tier0.Path
      match state.Tier1GatewayRef with
      | some ref =>
        match conn.invoke (.tier1sGet ref.ID) (ctx.tier1sGet conn.world ref.ID) with
        | (.error err, conn1) =>
          if isNotFoundError err then
            tier1GatewayTask.Ensure fuel ctx spec { state with Tier1GatewayRef := none } conn1
          else some { result := .error (.reading err), state := state, conn := conn1 }
        | (.ok oldTier1, conn1) =>
          match oldTier1.DisplayName with
          | none => some { result := .panic, state := state, conn := conn1 }
          | some oldName =>
            if tier1GatewayTask.changed ctx.toHelpers oldName oldTier1 tier1
                spec.FullClusterName tier0.Path then
              match conn1.invoke (.tier1sPatch ref.ID tier1)
                  (ctx.tier1sPatch conn1.world ref.ID tier1) with
              | (some err, conn2) =>
                some { result := .error (.updating err), state := state, conn := conn2 }
              | (none, conn2) =>
                some { result := .ok actionUpdated, state := state, conn := conn2 }
            else some { result := .ok actionUnchanged, state := state, conn := conn1 }
      | none =>
        match conn.draw (ctx.generateID conn.world "tier1gw") with
        | (id, conn1) =>
          match conn1.invoke (.tier1sUpdate id tier1) (ctx.tier1sUpdate conn1.world id tier1) with
          | (.error err, conn2) =>
            some { result := .error (.creating err), state := state, conn := conn2 }
          | (.ok createdObj, conn2) =>
            match createdObj.Id, createdObj.Path with
            | some cid, some cpath =>
              some { result := .ok actionCreated
                     state := { state with Tier1GatewayRef := some { ID := cid, Path := cpath } }
                     conn := conn2 }
            | _, _ => some { result := .panic, state := state, conn := conn2 }

/-- The object `obj` that `tier1GatewayLocaleServiceTask.Ensure` builds;
`edgeClusterPath` is `state.EdgeClusterRef.Path`. -/
def tier1GatewayLocaleServiceTask.desired (h : Helpers) (spec : NSXTInfraSpec)
    (edgeClusterPath : String) : LocaleServices :=
  { DisplayName := some spec.FullClusterName
    Description := some h.description
    EdgeClusterPath := some edgeClusterPath
    Tags := spec.CreateTags
    Id := none
    Path := none }

/-- The comparison of `tier1GatewayLocaleServiceTask.Ensure` once
`*oldTier1.DisplayName` is read: true when a `Patch` is due. -/
def tier1GatewayLocaleServiceTask.changed (h : Helpers) (oldName : String)
    (old obj : LocaleServices) (fullClusterName edgeClusterPath : String) : Bool :=
  decide (oldName ≠ fullClusterName) ||
  differs old.EdgeClusterPath edgeClusterPath ||
  !h.equalTags old.Tags obj.Tags

/-- `tier1GatewayLocaleServiceTask.Ensure`. On a not-found answer the code
assigns nil to `state.Tier1GatewayRef` and calls itself. -/
def tier1GatewayLocaleServiceTask.Ensure {σ : Type} (fuel : Nat) (ctx : EnsurerContext σ)
    (spec : NSXTInfraSpec) (state : NSXTInfraState) (conn : Conn σ) : Option (Run σ Action) :=
  match fuel with
  | 0 => none
  | fuel + 1 =>
    match state.EdgeClusterRef with
    | none => some { result := .panic, state := state, conn := conn }
    | some edgeCluster =>
      let obj := tier1GatewayLocaleServiceTask.desired ctx.toHelpers spec edgeCluster.Path
      match state.LocaleServiceRef with
      | some ref =>
        match conn.invoke (.localeServicesGet ref.ID ctx.defaultPolicyLocaleServiceID)
            (ctx.localeServicesGet conn.world ref.ID ctx.defaultPolicyLocaleServiceID) with
        | (.error err, conn1) =>
          if isNotFoundError err then
            tier1GatewayLocaleServiceTask.Ensure fuel ctx spec
              { state with Tier1GatewayRef := none } conn1
          else some { result := .error (.reading err), state := state, conn := conn1 }
        | (.ok oldTier1, conn1) =>
          match oldTier1.DisplayName with
          | none => some { result := .panic, state := state, conn := conn1 }
          | some oldName =>
            if tier1GatewayLocaleServiceTask.changed ctx.toHelpers oldName oldTier1 obj
                spec.FullClusterName edgeCluster.Path then
              match conn1.invoke
                  (.localeServicesPatch ref.ID ctx.defaultPolicyLocaleServiceID obj)
                  (ctx.localeServicesPatch conn1.world ref.ID
                    ctx.defaultPolicyLocaleServiceID obj) with
              | (some err, conn2) =>
                some { result := .error (.updating err), state := state, conn := conn2 }
              | (none, conn2) =>
                some { result := .ok actionUpdated, state := state, conn := conn2 }
            else some { result := .ok actionUnchanged, state := state, conn := conn1 }
      | none =>
        match state.Tier1GatewayRef with
        | none => some { result := .panic, state := state, conn := conn }
        | some tier1 =>
          let id := tier1.ID
          match conn.invoke (.localeServicesPatch id ctx.defaultPolicyLocaleServiceID obj)
              (ctx.localeServicesPatch conn.world id ctx.defaultPolicyLocaleServiceID obj) with
          | (some err, conn1) =>
            some { result := .error (.creating err), state := state, conn := conn1 }
          | (none, conn1) =>
            some { result := .ok actionCreated
                   state := { state with LocaleServiceRef := some { ID := id, Path := "" } }
                   conn := conn1 }

/-- The object `segment` that `segmentTask.Ensure` builds. -/
def segmentTask.desired (h : Helpers) (spec : NSXTInfraSpec) (gatewayAddr displayName : String)
    (tier1Path transportZonePath : String) : Segment :=
  { DisplayName := some displayName
    Description := some h.description
    ConnectivityPath := some tier1Path
    TransportZonePath := some transportZonePath
    Tags := spec.CreateTags
    Subnets := [{ GatewayAddress := some gatewayAddr }]
    Id := none
    Path := none }

/-- The subnet part of the segment comparison: `len(old.Subnets) != 1 ||
old.Subnets[0].GatewayAddress == nil || *old.Subnets[0].GatewayAddress != gatewayAddr`. -/
def segmentTask.subnetsChanged (subnets : List SegmentSubnet) (gatewayAddr : String) : Bool :=
  match subnets with
  | [subnet] => differs subnet.GatewayAddress gatewayAddr
  | _ => true

/-- The comparison of `segmentTask.Ensure` once `*oldSegment.DisplayName` is
read: true when a `Patch` is due. -/
def segmentTask.changed (h : Helpers) (oldName : String) (oldSegment segment : Segment)
    (fullClusterName gatewayAddr tier1Path transportZonePath : String) : Bool :=
  !HasPrefix oldName fullClusterName ||
  differs oldSegment.ConnectivityPath tier1Path ||
  differs oldSegment.TransportZonePath transportZonePath ||
  segmentTask.subnetsChanged oldSegment.Subnets gatewayAddr ||
  !h.equalTags oldSegment.Tags segment.Tags

/-- `segmentTask.Ensure`. -/
def segmentTask.Ensure {σ : Type} (fuel : Nat) (ctx : EnsurerContext σ)
    (spec : NSXTInfraSpec) (state : NSXTInfraState) (conn : Conn σ) : Option (Run σ Action) :=
  match fuel with
  | 0 => none
  | fuel + 1 =>
    match ctx.cidrHostAndPrefix spec.WorkersNetwork 1 with
    | .error err =>
      some { result := .error (.wrapf err "gateway address"), state := state, conn := conn }
    | .ok gatewayAddr =>
      match conn.draw (ctx.RandomString conn.world 8) with
      | (suffix, conn0) =>
        let displayName := spec.FullClusterName ++ "-" ++ suffix
        match state.Tier1GatewayRef, state.TransportZoneRef with
        | some tier1, some transportZone =>
          let segment := segmentTask.desired ctx.toHelpers spec gatewayAddr displayName
            tier1.Path transportZone.Path
          match state.SegmentRef with
          | some ref =>
            match conn0.invoke (.segmentsGet ref.ID) (ctx.segmentsGet conn0.world ref.ID) with
            | (.error err, conn1) =>
              if isNotFoundError err then
                segmentTask.Ensure fuel ctx spec { state with SegmentRef := none } conn1
              else some { result := .error (.reading err), state := state, conn := conn1 }
            | (.ok oldSegment, conn1) =>
              match oldSegment.DisplayName with
              | none => some { result := .panic, state := state, conn := conn1 }
              | some oldName =>
                if segmentTask.changed ctx.toHelpers oldName oldSegment segment
                    spec.FullClusterName gatewayAddr tier1.Path transportZone.Path then
                  match conn1.invoke (.segmentsPatch ref.ID segment)
                      (ctx.segmentsPatch conn1.world ref.ID segment) with
                  | (some err, conn2) =>
                    some { result := .error (.updating err), state := state, conn := conn2 }
                  | (none, conn2) =>
                    some { result := .ok actionUpdated, state := state, conn := conn2 }
                else some { result := .ok actionUnchanged, state := state, conn := conn1 }
          | none =>
            match conn0.draw (ctx.generateID conn0.world "segment") with
            | (id, conn1) =>
              match conn1.invoke (.segmentsUpdate id segment)
                  (ctx.segmentsUpdate conn1.world id segment) with
              | (.error err, conn2) =>
                some { result := .error (.creating err), state := state, conn := conn2 }
              | (.ok createdObj, conn2) =>
                match createdObj.Id, createdObj.Path with
                | some cid, some cpath =>
                  some { result := .ok actionCreated
                         state := { state with
                                    SegmentRef := some { ID := cid, Path := cpath }
                                    SegmentName := createdObj.DisplayName }
                         conn := conn2 }
                | _, _ => some { result := .panic, state := state, conn := conn2 }
        | _, _ => some { result := .panic, state := state, conn := conn0 }

/-! ## SNAT address allocation, realization and rule -/

/-- The object `allocation` that `snatIPAddressAllocationTask.Ensure` builds. -/
def snatIPAddressAllocationTask.desired (h : Helpers) (spec : NSXTInfraSpec) :
    IpAddressAllocation :=
  { DisplayName := some (spec.FullClusterName ++ "_SNAT")
    Description := some ("SNAT IP address for all nodes. " ++ h.description)
    Tags := spec.CreateTags
    Id := none
    Path := none }

/-- The tail of `snatIPAddressAllocationTask.Ensure` from `generateID` on. -/
def snatIPAddressAllocationTask.create {σ : Type} (ctx : EnsurerContext σ)
    (allocation : IpAddressAllocation) (state : NSXTInfraState) (conn : Conn σ) :
    Run σ Action :=
  match conn.draw (ctx.generateID conn.world "snatippool") with
  | (id, conn1) =>
    match state.SNATIPPoolRef with
    | none => { result := .panic, state := state, conn := conn1 }
    | some pool =>
      match conn1.invoke (.ipAllocationsUpdate pool.ID id allocation)
          (ctx.ipAllocationsUpdate conn1.world pool.ID id allocation) with
      | (.error err, conn2) =>
        { result := .error (.creating err), state := state, conn := conn2 }
      | (.ok createdObj, conn2) =>
        match createdObj.Id, createdObj.Path with
        | some cid, some cpath =>
          { result := .ok actionCreated
            state := { state with SNATIPAddressAllocRef := some { ID := cid, Path := cpath } }
            conn := conn2 }
        | _, _ => { result := .panic, state := state, conn := conn2 }

/-- `snatIPAddressAllocationTask.Ensure`. It does not call itself: after a
not-found answer it runs on into the creation. -/
def snatIPAddressAllocationTask.Ensure {σ : Type} (ctx : EnsurerContext σ)
    (spec : NSXTInfraSpec) (state : NSXTInfraState) (conn : Conn σ) : Run σ Action :=
  let allocation := snatIPAddressAllocationTask.desired ctx.toHelpers spec
  match state.SNATIPAddressAllocRef with
  | some ref =>
    match state.SNATIPPoolRef with
    | none => { result := .panic, state := state, conn := conn }
    | some pool =>
      match conn.invoke (.ipAllocationsGet pool.ID ref.ID)
          (ctx.ipAllocationsGet conn.world pool.ID ref.ID) with
      | (.ok _, conn1) => { result := .ok actionUnchanged, state := state, conn := conn1 }
      | (.error err, conn1) =>
        if !isNotFoundError err then
          { result := .error (.reading err), state := state, conn := conn1 }
        else snatIPAddressAllocationTask.create ctx allocation state conn1
  | none => snatIPAddressAllocationTask.create ctx allocation state conn

/-- `snatIPAddressRealizationTask.Ensure`; the helper `getRealizedIPAddress`
polls the catalogue, its error is handed on as it is. -/
def snatIPAddressRealizationTask.Ensure {σ : Type} (ctx : EnsurerContext σ)
    (_spec : NSXTInfraSpec) (state : NSXTInfraState) (conn : Conn σ) : Run σ Action :=
  match state.SNATIPAddressAllocRef with
  | none => { result := .panic, state := state, conn := conn }
  | some alloc =>
    match conn.invoke (.realizedIPAddress alloc.Path)
        (ctx.getRealizedIPAddress conn.world alloc.Path) with
    | (.error err, conn1) => { result := .error (.api err), state := state, conn := conn1 }
    | (.ok ipAddress, conn1) =>
      { result := .ok actionFound, state := { state with SNATIPAddress := ipAddress }
        conn := conn1 }

/-- The object `rule` that `snatRuleTask.Ensure` builds; `snatIPAddress` is
`*state.SNATIPAddress`. -/
def snatRuleTask.desired (h : Helpers) (spec : NSXTInfraSpec) (snatIPAddress : String) :
    PolicyNatRule :=
  { DisplayName := some spec.FullClusterName
    Description := some h.description
    Action := PolicyNatRule_ACTION_SNAT
    Enabled := some true
    Logging := some true
    SequenceNumber := some 100
    Tags := spec.CreateTags
    SourceNetwork := some spec.WorkersNetwork
    TranslatedNetwork := some (snatIPAddress ++ "/32")
    DestinationNetwork := none
    Id := none
    Path := none }

/-- The comparison of `snatRuleTask.Ensure` once `*oldRule.DisplayName` is
read: true when a `Patch` is due. -/
def snatRuleTask.changed (h : Helpers) (oldName : String) (oldRule rule : PolicyNatRule)
    (fullClusterName sourceNetwork translatedNetwork : String) : Bool :=
  decide (oldName ≠ fullClusterName) ||
  decide (oldRule.Action ≠ rule.Action) ||
  differs oldRule.Enabled true ||
  differs oldRule.Logging true ||
  differs oldRule.SequenceNumber 100 ||
  differs oldRule.SourceNetwork sourceNetwork ||
  differs oldRule.TranslatedNetwork translatedNetwork ||
  oldRule.DestinationNetwork.isSome ||
  !h.equalTags oldRule.Tags rule.Tags

/-- `snatRuleTask.Ensure`. -/
def snatRuleTask.Ensure {σ : Type} (fuel : Nat) (ctx : EnsurerContext σ)
    (spec : NSXTInfraSpec) (state : NSXTInfraState) (conn : Conn σ) : Option (Run σ Action) :=
  match fuel with
  | 0 => none
  | fuel + 1 =>
    match state.SNATIPAddress with
    | none => some { result := .panic, state := state, conn := conn }
    | some snatIPAddress =>
      let rule := snatRuleTask.desired ctx.toHelpers spec snatIPAddress
      match state.SNATRuleRef with
      | some ref =>
        match state.Tier1GatewayRef with
        | none => some { result := .panic, state := state, conn := conn }
        | some tier1 =>
          match conn.invoke (.natRulesGet tier1.ID PolicyNat_NAT_TYPE_USER ref.ID)
              (ctx.natRulesGet conn.world tier1.ID PolicyNat_NAT_TYPE_USER ref.ID) with
          | (.error err, conn1) =>
            if isNotFoundError err then
              snatRuleTask.Ensure fuel ctx spec { state with SNATRuleRef := none } conn1
            else some { result := .error (.reading err), state := state, conn := conn1 }
          | (.ok oldRule, conn1) =>
            match oldRule.DisplayName with
            | none => some { result := .panic, state := state, conn := conn1 }
            | some oldName =>
              if snatRuleTask.changed ctx.toHelpers oldName oldRule rule spec.FullClusterName
                  spec.WorkersNetwork (snatIPAddress ++ "/32") then
                match conn1.invoke (.natRulesPatch tier1.ID PolicyNat_NAT_TYPE_USER ref.ID rule)
                    (ctx.natRulesPatch conn1.world tier1.ID PolicyNat_NAT_TYPE_USER ref.ID
                      rule) with
                | (some err, conn2) =>
                  some { result := .error (.updating err), state := state, conn := conn2 }
                | (none, conn2) =>
                  some { result := .ok actionUpdated, state := state, conn := conn2 }
              else some { result := .ok actionUnchanged, state := state, conn := conn1 }
      | none =>
        match conn.draw (ctx.generateID conn.world "snatrule") with
        | (id, conn1) =>
          match state.Tier1GatewayRef with
          | none => some { result := .panic, state := state, conn := conn1 }
          | some tier1 =>
            match conn1.invoke (.natRulesUpdate tier1.ID PolicyNat_NAT_TYPE_USER id rule)
                (ctx.natRulesUpdate conn1.world tier1.ID PolicyNat_NAT_TYPE_USER id rule) with
            | (.error err, conn2) =>
              some { result := .error (.creating err), state := state, conn := conn2 }
            | (.ok createdObj, conn2) =>
              match createdObj.Id, createdObj.Path with
              | some cid, some cpath =>
                some { result := .ok actionCreated
                       state := { state with SNATRuleRef := some { ID := cid, Path := cpath } }
                       conn := conn2 }
              | _, _ => some { result := .panic, state := state, conn := conn2 }

/-! ## Catalogue behaviours the properties are stated against -/

/-- The pages a listing serves: from world `w`, asked with `cursor` and then
with the cursor of each page in turn, `list` answers with `pages` one after the
other and ends in world `w1`. -/
def Serves {σ : Type} (list : σ → Option String → Except ApiError ListResult × σ) :
    σ → Option String → List ListResult → σ → Prop
  | w, _, [], w1 => w = w1
  | w, cursor, page :: rest, w1 =>
    ∃ w0, list w cursor = (.ok page, w0) ∧ Serves list w0 page.Cursor rest w1

/-- The cursors the lookup loop asks with when it fetches `pages` one after
the other, the first one with `cursor`. -/
def requests (cursor : Option String) : List ListResult → List (Option String)
  | [] => []
  | page :: rest => cursor :: requests page.Cursor rest

/-- The cumulative number of items listed on `pages`. -/
def listed (pages : List ListResult) : Int :=
  (pages.map (fun page => (page.Results.length : Int))).sum

/-- A catalogue that stores what is written and returns it on `Get` and `List`:
the shared objects are listed on one page, `Update` and `Patch` store the
submitted object under its ID, `Get` returns what is stored or not-found,
`Delete` removes it, realization yields `snatAddress` for a stored
allocation. -/
structure Store where
  tier0s : List PolicyResource
  edgeClusters : List PolicyResource
  transportZones : List PolicyResource
  ipPools : List PolicyResource
  tier1s : List (String × Tier1)
  localeServices : List ((String × String) × LocaleServices)
  segments : List (String × Segment)
  ipAllocations : List ((String × String) × IpAddressAllocation)
  natRules : List ((String × String × String) × PolicyNatRule)
  snatAddress : String
  counter : Nat

/-- The one page on which the store lists `items`. -/
def Store.page (items : List PolicyResource) : ListResult :=
  { Results := items, Cursor := none, ResultCount := some (items.length : Int) }

/-- `Get` on a store table. -/
def Store.get {κ α : Type} [DecidableEq κ] (table : List (κ × α)) (key : κ) (name : String)
    (w : Store) : Except ApiError α × Store :=
  match table.find? (fun entry => decide (entry.1 = key)) with
  | some entry => (.ok entry.2, w)
  | none => (.error (.notFound name), w)

/-- `Delete` on a store table: not-found when nothing is stored under `key`. -/
def Store.delete {κ α : Type} [DecidableEq κ] (table : List (κ × α)) (key : κ) (name : String) :
    Option ApiError × List (κ × α) :=
  match table.find? (fun entry => decide (entry.1 = key)) with
  | some _ => (none, table.filter (fun entry => decide (entry.1 ≠ key)))
  | none => (some (.notFound name), table)

/-- The random token the store hands out next. -/
def Store.token (w : Store) (n : Nat) : String :=
  String.mk (List.replicate n (Char.ofNat (97 + w.counter % 26)))

/-- The context of the storing catalogue, over helpers `h`. -/
def storeContext (h : Helpers) : EnsurerContext Store :=
  { toHelpers := h
    tier0sList := fun w _ => (.ok (Store.page w.tier0s), w)
    edgeClustersList := fun w _ _ => (.ok (Store.page w.edgeClusters), w)
    transportZonesList := fun w _ _ => (.ok (Store.page w.transportZones), w)
    ipPoolsList := fun w _ => (.ok (Store.page w.ipPools), w)
    tier1sGet := fun w id => Store.get w.tier1s id id w
    tier1sPatch := fun w id obj =>
      (none, { w with tier1s :=
        (id, { obj with Id := some id, Path := some ("/infra/tier-1s/" ++ id) }) :: w.tier1s })
    tier1sUpdate := fun w id obj =>
      let created := { obj with Id := some id, Path := some ("/infra/tier-1s/" ++ id) }
      (.ok created, { w with tier1s := (id, created) :: w.tier1s })
    tier1sDelete := fun w id =>
      ((Store.delete w.tier1s id id).1, { w with tier1s := (Store.delete w.tier1s id id).2 })
    localeServicesGet := fun w tier1Id id => Store.get w.localeServices (tier1Id, id) id w
    localeServicesPatch := fun w tier1Id id obj =>
      (none, { w with localeServices :=
        ((tier1Id, id), { obj with
            Id := some id
            Path := some ("/infra/tier-1s/" ++ tier1Id ++ "/locale-services/" ++ id) }) ::
          w.localeServices })
    localeServicesDelete := fun w tier1Id id =>
      ((Store.delete w.localeServices (tier1Id, id) id).1,
       { w with localeServices := (Store.delete w.localeServices (tier1Id, id) id).2 })
    segmentsGet := fun w id => Store.get w.segments id id w
    segmentsPatch := fun w id obj =>
      (none, { w with segments :=
        (id, { obj with Id := some id, Path := some ("/infra/segments/" ++ id) }) :: w.segments })
    segmentsUpdate := fun w id obj =>
      let created := { obj with Id := some id, Path := some ("/infra/segments/" ++ id) }
      (.ok created, { w with segments := (id, created) :: w.segments })
    segmentsDelete := fun w id =>
      ((Store.delete w.segments id id).1, { w with segments := (Store.delete w.segments id id).2 })
    ipAllocationsGet := fun w poolId id => Store.get w.ipAllocations (poolId, id) id w
    ipAllocationsUpdate := fun w poolId id obj =>
      let created := { obj with
        Id := some id
        Path := some ("/infra/ip-pools/" ++ poolId ++ "/ip-allocations/" ++ id) }
      (.ok created, { w with ipAllocations := ((poolId, id), created) :: w.ipAllocations })
    ipAllocationsDelete := fun w poolId id =>
      ((Store.delete w.ipAllocations (poolId, id) id).1,
       { w with ipAllocations := (Store.delete w.ipAllocations (poolId, id) id).2 })
    natRulesGet := fun w tier1Id natId id => Store.get w.natRules (tier1Id, natId, id) id w
    natRulesPatch := fun w tier1Id natId id obj =>
      (none, { w with natRules :=
        ((tier1Id, natId, id), { obj with
            Id := some id
            Path := some ("/infra/tier-1s/" ++ tier1Id ++ "/nat/" ++ natId ++ "/nat-rules/" ++ id) })
          :: w.natRules })
    natRulesUpdate := fun w tier1Id natId id obj =>
      let created := { obj with
        Id := some id
        Path := some ("/infra/tier-1s/" ++ tier1Id ++ "/nat/" ++ natId ++ "/nat-rules/" ++ id) }
      (.ok created, { w with natRules := ((tier1Id, natId, id), created) :: w.natRules })
    natRulesDelete := fun w tier1Id natId id =>
      ((Store.delete w.natRules (tier1Id, natId, id) id).1,
       { w with natRules := (Store.delete w.natRules (tier1Id, natId, id) id).2 })
    getRealizedIPAddress := fun w path =>
      if w.ipAllocations.any (fun entry => decide (entry.2.Path = some path)) then
        (.ok (some w.snatAddress), w)
      else (.error (.notFound path), w)
    generateID := fun w pfx =>
      (pfx ++ "-" ++ Store.token w 8, { w with counter := w.counter + 1 })
    RandomString := fun w n => (Store.token w n, { w with counter := w.counter + 1 }) }

/-! ## Concrete inputs -/

/-- Helpers for the concrete inputs: tags compare as lists, the gateway address
of a block is taken to be the block itself. -/
def sampleHelpers : Helpers :=
  { description := "created by gardener-extension-provider-vsphere"
    defaultSite := "default"
    policyEnforcementPoint := "default"
    defaultPolicyLocaleServiceID := "default"
    equalTags := fun a b => decide (a = b)
    cidrHostAndPrefix := fun cidr _ => .ok cidr
    nicerVAPIError := fun err => err }

/-- A spec for the concrete inputs. -/
def sampleSpec : NSXTInfraSpec :=
  { FullClusterName := "shoot--foo--bar"
    CreateTags := [{ Scope := some "owner", Tag := some "gardener" }]
    WorkersNetwork := "10.250.0.1/16"
    Tier0GatewayName := "tier0"
    EdgeClusterName := "edge"
    TransportZoneName := "zone"
    SNATIPPoolName := "pool" }

/-- The state document with every slot nil. -/
def emptyState : NSXTInfraState :=
  { SegmentName := none, SNATIPAddress := none, Tier0GatewayRef := none, EdgeClusterRef := none
    TransportZoneRef := none, SNATIPPoolRef := none, Tier1GatewayRef := none
    LocaleServiceRef := none, SegmentRef := none, SNATIPAddressAllocRef := none
    SNATRuleRef := none }

/-- A state in which every slot is set, pointing at objects that no store holds. -/
def staleState : NSXTInfraState :=
  { SegmentName := some "shoot--foo--bar-old"
    SNATIPAddress := some "192.0.2.7"
    Tier0GatewayRef := some { ID := "t0", Path := "/infra/tier-0s/t0" }
    EdgeClusterRef := some { ID := "ec", Path := "/infra/edge-clusters/ec" }
    TransportZoneRef := some { ID := "tz", Path := "/infra/transport-zones/tz" }
    SNATIPPoolRef := some { ID := "pool", Path := "/infra/ip-pools/pool" }
    Tier1GatewayRef := some { ID := "gw", Path := "/infra/tier-1s/gw" }
    LocaleServiceRef := some { ID := "gw", Path := "" }
    SegmentRef := some { ID := "seg", Path := "/infra/segments/seg" }
    SNATIPAddressAllocRef := some { ID := "alloc", Path := "/infra/ip-pools/pool/alloc" }
    SNATRuleRef := some { ID := "rule", Path := "/infra/tier-1s/gw/nat/USER/nat-rules/rule" } }

/-- A store that lists the four shared objects of `sampleSpec` and holds
nothing else. -/
def sampleStore : Store :=
  { tier0s := [{ DisplayName := some "other", Id := some "t9", Path := some "/infra/tier-0s/t9" },
               { DisplayName := some "tier0", Id := some "t0", Path := some "/infra/tier-0s/t0" }]
    edgeClusters :=
      [{ DisplayName := some "edge", Id := some "ec", Path := some "/infra/edge-clusters/ec" }]
    transportZones :=
      [{ DisplayName := some "zone", Id := some "tz", Path := some "/infra/transport-zones/tz" }]
    ipPools := [{ DisplayName := some "pool", Id := some "pool", Path := some "/infra/ip-pools/pool" }]
    tier1s := []
    localeServices := []
    segments := []
    ipAllocations := []
    natRules := []
    snatAddress := "192.0.2.7"
    counter := 0 }

/-- The connection to `sampleStore` before any call. -/
def sampleConn : Conn Store :=
  { world := sampleStore, calls := [] }

/-- A catalogue over a one-point world in which every call fails with
"unavailable" and the random sources hand out the empty string. -/
def stubContext (h : Helpers) : EnsurerContext Unit :=
  { toHelpers := h
    tier0sList := fun w _ => (.error (.other "unavailable"), w)
    edgeClustersList := fun w _ _ => (.error (.other "unavailable"), w)
    transportZonesList := fun w _ _ => (.error (.other "unavailable"), w)
    ipPoolsList := fun w _ => (.error (.other "unavailable"), w)
    tier1sGet := fun w _ => (.error (.other "unavailable"), w)
    tier1sPatch := fun w _ _ => (some (.other "unavailable"), w)
    tier1sUpdate := fun w _ _ => (.error (.other "unavailable"), w)
    tier1sDelete := fun w _ => (some (.other "unavailable"), w)
    localeServicesGet := fun w _ _ => (.error (.other "unavailable"), w)
    localeServicesPatch := fun w _ _ _ => (some (.other "unavailable"), w)
    localeServicesDelete := fun w _ _ => (some (.other "unavailable"), w)
    segmentsGet := fun w _ => (.error (.other "unavailable"), w)
    segmentsPatch := fun w _ _ => (some (.other "unavailable"), w)
    segmentsUpdate := fun w _ _ => (.error (.other "unavailable"), w)
    segmentsDelete := fun w _ => (some (.other "unavailable"), w)
    ipAllocationsGet := fun w _ _ => (.error (.other "unavailable"), w)
    ipAllocationsUpdate := fun w _ _ _ => (.error (.other "unavailable"), w)
    ipAllocationsDelete := fun w _ _ => (some (.other "unavailable"), w)
    natRulesGet := fun w _ _ _ => (.error (.other "unavailable"), w)
    natRulesPatch := fun w _ _ _ _ => (some (.other "unavailable"), w)
    natRulesUpdate := fun w _ _ _ _ => (.error (.other "unavailable"), w)
    natRulesDelete := fun w _ _ _ => (some (.other "unavailable"), w)
    getRealizedIPAddress := fun w _ => (.error (.other "unavailable"), w)
    generateID := fun w _ => ("", w)
    RandomString := fun w _ => ("", w) }

/-- The connection to the one-point world before any call. -/
def stubConn : Conn Unit :=
  { world := (), calls := [] }

/-- A catalogue from which the locale service is gone: `Get` on the locale
services answers not-found, every other call is unavailable. -/
def localeServiceGoneContext : EnsurerContext Unit :=
  { stubContext sampleHelpers with
    localeServicesGet := fun w _ _ => (.error (.notFound "locale service"), w) }

/-- A catalogue whose objects have drifted and cannot be written: `Get` returns
a tier-1 gateway, a segment and a SNAT rule that carry the display name
"renamed" and nothing else, and every `Patch` fails with "unavailable". -/
def driftedContext : EnsurerContext Unit :=
  { stubContext sampleHelpers with
    tier1sGet := fun w _ =>
      (.ok { DisplayName := some "renamed", Description := none, FailoverMode := none,
             Tags := [], RouteAdvertisementTypes := [], Tier0Path := none, Id := none,
             Path := none }, w)
    segmentsGet := fun w _ =>
      (.ok { DisplayName := some "renamed", Description := none, ConnectivityPath := none,
             TransportZonePath := none, Tags := [], Subnets := [], Id := none,
             Path := none }, w)
    natRulesGet := fun w _ _ _ =>
      (.ok { DisplayName := some "renamed", Description := none, Action := "DNAT",
             Enabled := none, Logging := none, SequenceNumber := none, Tags := [],
             SourceNetwork := none, TranslatedNetwork := none, DestinationNetwork := none,
             Id := none, Path := none }, w) }

/-- The lookup loop goes on past every page of `pages`: entered with the loop
variables `cursor`, `total` and `count`, on each page it reads a total when it
asked without a cursor, and the cumulative count stays below the total. -/
def continues : Option String → Int → Int → List ListResult → Prop
  | _, _, _, [] => True
  | cursor, total, count, page :: rest =>
    ∃ total1, (if cursor = none then page.ResultCount else some total) = some total1 ∧
      count + (page.Results.length : Int) < total1 ∧
      continues page.Cursor total1 (count + (page.Results.length : Int)) rest

/-- A catalogue over the page index as world: the n-th `List` call on the tier-0
gateways or on the IP pools answers with the n-th page of `pages`, whatever
cursor it is asked with. -/
def pagesContext (pages : List ListResult) : EnsurerContext Nat :=
  { toHelpers := sampleHelpers
    tier0sList := fun w _ =>
      match pages.get? w with
      | some page => (.ok page, w + 1)
      | none => (.error (.other "no more pages"), w)
    edgeClustersList := fun w _ _ => (.error (.other "unavailable"), w)
    transportZonesList := fun w _ _ => (.error (.other "unavailable"), w)
    ipPoolsList := fun w _ =>
      match pages.get? w with
      | some page => (.ok page, w + 1)
      | none => (.error (.other "no more pages"), w)
    tier1sGet := fun w _ => (.error (.other "unavailable"), w)
    tier1sPatch := fun w _ _ => (some (.other "unavailable"), w)
    tier1sUpdate := fun w _ _ => (.error (.other "unavailable"), w)
    tier1sDelete := fun w _ => (some (.other "unavailable"), w)
    localeServicesGet := fun w _ _ => (.error (.other "unavailable"), w)
    localeServicesPatch := fun w _ _ _ => (some (.other "unavailable"), w)
    localeServicesDelete := fun w _ _ => (some (.other "unavailable"), w)
    segmentsGet := fun w _ => (.error (.other "unavailable"), w)
    segmentsPatch := fun w _ _ => (some (.other "unavailable"), w)
    segmentsUpdate := fun w _ _ => (.error (.other "unavailable"), w)
    segmentsDelete := fun w _ => (some (.other "unavailable"), w)
    ipAllocationsGet := fun w _ _ => (.error (.other "unavailable"), w)
    ipAllocationsUpdate := fun w _ _ _ => (.error (.other "unavailable"), w)
    ipAllocationsDelete := fun w _ _ => (some (.other "unavailable"), w)
    natRulesGet := fun w _ _ _ => (.error (.other "unavailable"), w)
    natRulesPatch := fun w _ _ _ _ => (some (.other "unavailable"), w)
    natRulesUpdate := fun w _ _ _ _ => (.error (.other "unavailable"), w)
    natRulesDelete := fun w _ _ _ => (some (.other "unavailable"), w)
    getRealizedIPAddress := fun w _ => (.error (.other "unavailable"), w)
    generateID := fun w _ => ("", w)
    RandomString := fun w _ => ("", w) }

/-- A listed object with the given display name and ID. -/
def listedObject (name id : String) : PolicyResource :=
  { DisplayName := some name, Id := some id, Path := some ("/infra/" ++ id) }

/-- Three pages linked by cursors, two objects each but the last; the first
page reports a total of five. The object named "tier0" is on the second page,
the object named "pool" on the third. -/
def linkedPages : List ListResult :=
  [{ Results := [listedObject "a" "1", listedObject "b" "2"], Cursor := some "c1"
     ResultCount := some 5 },
   { Results := [listedObject "c" "3", listedObject "tier0" "4"], Cursor := some "c2"
     ResultCount := some 5 },
   { Results := [listedObject "pool" "5"], Cursor := none, ResultCount := some 5 }]

/-- A catalogue that answers every `List` of the tier-0 gateways with an empty
page that reports a total of one. -/
def emptyPagesContext : EnsurerContext Unit :=
  { stubContext sampleHelpers with
    tier0sList := fun w _ => (.ok { Results := [], Cursor := none, ResultCount := some 1 }, w) }

/-- Two pages without cursor: the first lists one object and reports a total of
three, the second lists one object and reports a total of two. -/
def uncursoredPages : List ListResult :=
  [{ Results := [listedObject "a" "1"], Cursor := none, ResultCount := some 3 },
   { Results := [listedObject "b" "2"], Cursor := none, ResultCount := some 2 }]

/-- The lookup loop goes on past every page of `before` and stops on `last`:
there the cumulative count reaches the total. -/
def stopsAfter : Option String → Int → Int → List ListResult → ListResult → Prop
  | cursor, total, count, [], last =>
    ∃ total1, (if cursor = none then last.ResultCount else some total) = some total1 ∧
      total1 ≤ count + (last.Results.length : Int)
  | cursor, total, count, page :: rest, last =>
    ∃ total1, (if cursor = none then page.ResultCount else some total) = some total1 ∧
      count + (page.Results.length : Int) < total1 ∧
      stopsAfter page.Cursor total1 (count + (page.Results.length : Int)) rest last

/-- What a second `Ensure` leaves when it repeats the first one, `run`: the
outcome `action`, the state of `run`, and one more call, which writes nothing. -/
def Repeats {σ : Type} (action : Action) (run run2 : Run σ Action) : Prop :=
  run2.result = .ok action ∧ run2.state = run.state ∧
    ∃ call, run2.conn.calls = run.conn.calls ++ [call] ∧ call.isWrite = false

/-- The tier-1 gateway is settled in store `w`: the state holds a Reference under
which the store returns an object that the comparison accepts. -/
def tier1Settled (h : Helpers) (spec : NSXTInfraSpec) (state : NSXTInfraState) (w : Store) :
    Prop :=
  ∃ (tier0 ref : Reference) (old : Tier1) (oldName : String),
    state.Tier0GatewayRef = some tier0 ∧ state.Tier1GatewayRef = some ref ∧
    (∀ w1, Store.get w.tier1s ref.ID ref.ID w1 = (.ok old, w1)) ∧
    old.DisplayName = some oldName ∧
    tier1GatewayTask.changed h oldName old (tier1GatewayTask.desired h spec tier0.Path)
      spec.FullClusterName tier0.Path = false

/-- The locale service is settled in store `w`. -/
def localeServiceSettled (h : Helpers) (spec : NSXTInfraSpec) (state : NSXTInfraState)
    (w : Store) : Prop :=
  ∃ (edge ref : Reference) (old : LocaleServices) (oldName : String),
    state.EdgeClusterRef = some edge ∧ state.LocaleServiceRef = some ref ∧
    (∀ w1, Store.get w.localeServices (ref.ID, h.defaultPolicyLocaleServiceID)
      h.defaultPolicyLocaleServiceID w1 = (.ok old, w1)) ∧
    old.DisplayName = some oldName ∧
    tier1GatewayLocaleServiceTask.changed h oldName old
      (tier1GatewayLocaleServiceTask.desired h spec edge.Path) spec.FullClusterName
      edge.Path = false

/-- The segment is settled in store `w`. -/
def segmentSettled (h : Helpers) (spec : NSXTInfraSpec) (state : NSXTInfraState) (w : Store) :
    Prop :=
  ∃ (gatewayAddr : String) (tier1 zone ref : Reference) (old : Segment) (oldName : String),
    h.cidrHostAndPrefix spec.WorkersNetwork 1 = .ok gatewayAddr ∧
    state.Tier1GatewayRef = some tier1 ∧ state.TransportZoneRef = some zone ∧
    state.SegmentRef = some ref ∧
    (∀ w1, Store.get w.segments ref.ID ref.ID w1 = (.ok old, w1)) ∧
    old.DisplayName = some oldName ∧
    ∀ displayName, segmentTask.changed h oldName old
      (segmentTask.desired h spec gatewayAddr displayName tier1.Path zone.Path)
      spec.FullClusterName gatewayAddr tier1.Path zone.Path = false

/-- The SNAT address allocation is settled in store `w`. -/
def allocationSettled (state : NSXTInfraState) (w : Store) : Prop :=
  ∃ (pool ref : Reference) (obj : IpAddressAllocation),
    state.SNATIPPoolRef = some pool ∧ state.SNATIPAddressAllocRef = some ref ∧
    ∀ w1, Store.get w.ipAllocations (pool.ID, ref.ID) ref.ID w1 = (.ok obj, w1)

/-- The SNAT rule is settled in store `w`. -/
def snatRuleSettled (h : Helpers) (spec : NSXTInfraSpec) (state : NSXTInfraState) (w : Store) :
    Prop :=
  ∃ (address : String) (tier1 ref : Reference) (old : PolicyNatRule) (oldName : String),
    state.SNATIPAddress = some address ∧ state.Tier1GatewayRef = some tier1 ∧
    state.SNATRuleRef = some ref ∧
    (∀ w1, Store.get w.natRules (tier1.ID, PolicyNat_NAT_TYPE_USER, ref.ID) ref.ID w1 =
      (.ok old, w1)) ∧
    old.DisplayName = some oldName ∧
    snatRuleTask.changed h oldName old (snatRuleTask.desired h spec address)
      spec.FullClusterName spec.WorkersNetwork (address ++ "/32") = false

/-! ## Recovery, deletion and the Reference accessors -/

/-- `tier1GatewayTask.SetRecoveredReference`; `ref` and `name` are pointers. -/
def tier1GatewayTask.SetRecoveredReference (state : NSXTInfraState) (ref : Option Reference)
    (_name : Option String) : NSXTInfraState :=
  { state with Tier1GatewayRef := ref }

/-- `tier1GatewayLocaleServiceTask.SetRecoveredReference`: the parameter `ref` is
not read, the Reference is built from `state.Tier1GatewayRef.ID`; `none` is the
panic of that dereference when `Tier1GatewayRef` is nil. -/
def tier1GatewayLocaleServiceTask.SetRecoveredReference (state : NSXTInfraState)
    (_ref : Option Reference) (_name : Option String) : Option NSXTInfraState :=
  match state.Tier1GatewayRef with
  | none => none
  | some tier1 => some { state with LocaleServiceRef := some { ID := tier1.ID, Path := "" } }

/-- `segmentTask.SetRecoveredReference`. -/
def segmentTask.SetRecoveredReference (state : NSXTInfraState) (ref : Option Reference)
    (name : Option String) : NSXTInfraState :=
  { state with SegmentRef := ref, SegmentName := name }

/-- `snatIPAddressAllocationTask.SetRecoveredReference`. -/
def snatIPAddressAllocationTask.SetRecoveredReference (state : NSXTInfraState)
    (ref : Option Reference) (_name : Option String) : NSXTInfraState :=
  { state with SNATIPAddressAllocRef := ref }

/-- `snatRuleTask.SetRecoveredReference`. -/
def snatRuleTask.SetRecoveredReference (state : NSXTInfraState) (ref : Option Reference)
    (_name : Option String) : NSXTInfraState :=
  { state with SNATRuleRef := ref }

/-- `tier1GatewayTask.EnsureDeleted`. -/
def tier1GatewayTask.EnsureDeleted {σ : Type} (ctx : EnsurerContext σ) (state : NSXTInfraState)
    (conn : Conn σ) : Run σ Bool :=
  match state.Tier1GatewayRef with
  | none => { result := .ok false, state := state, conn := conn }
  | some ref =>
    match conn.invoke (.tier1sDelete ref.ID) (ctx.tier1sDelete conn.world ref.ID) with
    | (some err, conn1) =>
      { result := .error (.api (ctx.nicerVAPIError err)), state := state, conn := conn1 }
    | (none, conn1) =>
      { result := .ok true, state := { state with Tier1GatewayRef := none }, conn := conn1 }

/-- `tier1GatewayLocaleServiceTask.EnsureDeleted`. -/
def tier1GatewayLocaleServiceTask.EnsureDeleted {σ : Type} (ctx : EnsurerContext σ)
    (state : NSXTInfraState) (conn : Conn σ) : Run σ Bool :=
  match state.LocaleServiceRef with
  | none => { result := .ok false, state := state, conn := conn }
  | some ref =>
    match conn.invoke (.localeServicesDelete ref.ID ctx.defaultPolicyLocaleServiceID)
        (ctx.localeServicesDelete conn.world ref.ID ctx.defaultPolicyLocaleServiceID) with
    | (some err, conn1) =>
      { result := .error (.api (ctx.nicerVAPIError err)), state := state, conn := conn1 }
    | (none, conn1) =>
      { result := .ok true, state := { state with LocaleServiceRef := none }, conn := conn1 }

/-- `segmentTask.EnsureDeleted`. -/
def segmentTask.EnsureDeleted {σ : Type} (ctx : EnsurerContext σ) (state : NSXTInfraState)
    (conn : Conn σ) : Run σ Bool :=
  match state.SegmentRef with
  | none => { result := .ok false, state := state, conn := conn }
  | some ref =>
    match conn.invoke (.segmentsDelete ref.ID) (ctx.segmentsDelete conn.world ref.ID) with
    | (some err, conn1) =>
      { result := .error (.api (ctx.nicerVAPIError err)), state := state, conn := conn1 }
    | (none, conn1) =>
      { result := .ok true
        state := { state with SegmentRef := none, SegmentName := none }
        conn := conn1 }

/-- `snatIPAddressAllocationTask.EnsureDeleted`; the error of `Delete` is
returned as it is. -/
def snatIPAddressAllocationTask.EnsureDeleted {σ : Type} (ctx : EnsurerContext σ)
    (state : NSXTInfraState) (conn : Conn σ) : Run σ Bool :=
  match state.SNATIPAddressAllocRef with
  | none => { result := .ok false, state := state, conn := conn }
  | some ref =>
    match state.SNATIPPoolRef with
    | none => { result := .panic, state := state, conn := conn }
    | some pool =>
      match conn.invoke (.ipAllocationsDelete pool.ID ref.ID)
          (ctx.ipAllocationsDelete conn.world pool.ID ref.ID) with
      | (some err, conn1) => { result := .error (.api err), state := state, conn := conn1 }
      | (none, conn1) =>
        { result := .ok true
          state := { state with SNATIPAddressAllocRef := none, SNATIPAddress := none }
          conn := conn1 }

/-- `snatRuleTask.EnsureDeleted`; the error of `Delete` is returned as it is. -/
def snatRuleTask.EnsureDeleted {σ : Type} (ctx : EnsurerContext σ) (state : NSXTInfraState)
    (conn : Conn σ) : Run σ Bool :=
  match state.SNATRuleRef with
  | none => { result := .ok false, state := state, conn := conn }
  | some ref =>
    match state.Tier1GatewayRef with
    | none => { result := .panic, state := state, conn := conn }
    | some tier1 =>
      match conn.invoke (.natRulesDelete tier1.ID PolicyNat_NAT_TYPE_USER ref.ID)
          (ctx.natRulesDelete conn.world tier1.ID PolicyNat_NAT_TYPE_USER ref.ID) with
      | (some err, conn1) => { result := .error (.api err), state := state, conn := conn1 }
      | (none, conn1) =>
        { result := .ok true, state := { state with SNATRuleRef := none }, conn := conn1 }

/-- `lookupTier0GatewayTask.Reference`. -/
def lookupTier0GatewayTask.Reference (state : NSXTInfraState) : Option Reference :=
  state.Tier0GatewayRef

/-- `lookupEdgeClusterTask.Reference`. -/
def lookupEdgeClusterTask.Reference (state : NSXTInfraState) : Option Reference :=
  state.EdgeClusterRef

/-- `lookupTransportZoneTask.Reference`. -/
def lookupTransportZoneTask.Reference (state : NSXTInfraState) : Option Reference :=
  state.TransportZoneRef

/-- `lookupSNATIPPoolTask.Reference`. -/
def lookupSNATIPPoolTask.Reference (state : NSXTInfraState) : Option Reference :=
  state.SNATIPPoolRef

/-- `tier1GatewayTask.Reference`. -/
def tier1GatewayTask.Reference (state : NSXTInfraState) : Option Reference :=
  state.Tier1GatewayRef

/-- `tier1GatewayLocaleServiceTask.Reference`. -/
def tier1GatewayLocaleServiceTask.Reference (state : NSXTInfraState) : Option Reference :=
  state.LocaleServiceRef

/-- `segmentTask.Reference`. -/
def segmentTask.Reference (state : NSXTInfraState) : Option Reference :=
  state.SegmentRef

/-- `snatIPAddressAllocationTask.Reference`. -/
def snatIPAddressAllocationTask.Reference (state : NSXTInfraState) : Option Reference :=
  state.SNATIPAddressAllocRef

/-- `snatRuleTask.Reference`. -/
def snatRuleTask.Reference (state : NSXTInfraState) : Option Reference :=
  state.SNATRuleRef

/-! ## The order of the tasks -/

/-- Modelled from the spec: the task runner is not part of `tasks.go`. It
"executes the task list in a fixed dependency order" on the one state
document and "stops the pipeline on the first" failure; the outcomes of the
completed tasks are collected in order. `none` is a task that ran out of
fuel. -/
def runTasks {σ α : Type} :
    List (NSXTInfraState → Conn σ → Option (Run σ α)) → List α → NSXTInfraState → Conn σ →
      Option (Run σ (List α))
  | [], done, state, conn => some { result := .ok done, state := state, conn := conn }
  | task :: rest, done, state, conn =>
    match task state conn with
    | none => none
    | some run =>
      match run.result with
      | .ok outcome => runTasks rest (done ++ [outcome]) run.state run.conn
      | .error err => some { result := .error err, state := run.state, conn := run.conn }
      | .panic => some { result := .panic, state := run.state, conn := run.conn }

/-- Modelled from the spec: the creation order, "shared-object lookups, tier-1
gateway, locale-service, segment, SNAT pool address allocation, address
realization, SNAT rule". -/
def ensureTasks {σ : Type} (fuel : Nat) (ctx : EnsurerContext σ) (spec : NSXTInfraSpec) :
    List (NSXTInfraState → Conn σ → Option (Run σ Action)) :=
  [lookupTier0GatewayTask.Ensure fuel ctx spec,
   fun state conn => some (lookupEdgeClusterTask.Ensure ctx spec state conn),
   fun state conn => some (lookupTransportZoneTask.Ensure ctx spec state conn),
   lookupSNATIPPoolTask.Ensure fuel ctx spec,
   tier1GatewayTask.Ensure fuel ctx spec,
   tier1GatewayLocaleServiceTask.Ensure fuel ctx spec,
   segmentTask.Ensure fuel ctx spec,
   fun state conn => some (snatIPAddressAllocationTask.Ensure ctx spec state conn),
   fun state conn => some (snatIPAddressRealizationTask.Ensure ctx spec state conn),
   snatRuleTask.Ensure fuel ctx spec]

/-- Modelled from the spec: the teardown order, the reverse of the creation
order over the tasks that own an object. -/
def deleteTasks {σ : Type} (ctx : EnsurerContext σ) :
    List (NSXTInfraState → Conn σ → Option (Run σ Bool)) :=
  [fun state conn => some (snatRuleTask.EnsureDeleted ctx state conn),
   fun state conn => some (snatIPAddressAllocationTask.EnsureDeleted ctx state conn),
   fun state conn => some (segmentTask.EnsureDeleted ctx state conn),
   fun state conn => some (tier1GatewayLocaleServiceTask.EnsureDeleted ctx state conn),
   fun state conn => some (tier1GatewayTask.EnsureDeleted ctx state conn)]

/-- A catalogue on which every `Delete` succeeds and every other call is
unavailable. -/
def deletingContext : EnsurerContext Unit :=
  { stubContext sampleHelpers with
    tier1sDelete := fun w _ => (none, w)
    localeServicesDelete := fun w _ _ => (none, w)
    segmentsDelete := fun w _ => (none, w)
    ipAllocationsDelete := fun w _ _ => (none, w)
    natRulesDelete := fun w _ _ _ => (none, w) }

/-- Helpers whose normalisation step marks the message of the error. -/
def markingHelpers : Helpers :=
  { sampleHelpers with
    nicerVAPIError := fun err =>
      match err with
      | .notFound msg => .notFound ("nicer: " ++ msg)
      | .other msg => .other ("nicer: " ++ msg) }

/-- The cursor the lookup loop asks with after it has fetched `pages`, the
first of them with `cursor`. -/
def cursorAfter (cursor : Option String) : List ListResult → Option String
  | [] => cursor
  | page :: rest => cursorAfter page.Cursor rest

/-- A catalogue from which every owned object is gone and on which nothing can
be written: every `Get` answers not-found, every other call is unavailable. -/
def goneContext : EnsurerContext Unit :=
  { stubContext sampleHelpers with
    tier1sGet := fun w id => (.error (.notFound id), w)
    localeServicesGet := fun w _ id => (.error (.notFound id), w)
    segmentsGet := fun w id => (.error (.notFound id), w)
    ipAllocationsGet := fun w _ id => (.error (.notFound id), w)
    natRulesGet := fun w _ _ id => (.error (.notFound id), w) }

/-- Whether the call is a `List`. -/
def Call.isList : Call → Bool
  | .tier0sList _ => true
  | .edgeClustersList _ _ => true
  | .transportZonesList _ _ => true
  | .ipPoolsList _ => true
  | _ => false

/-- A catalogue over a counter as world on which the locale service comes and
goes: the first `Get` on the locale services answers not-found, every later
one returns the locale service as `sampleSpec` wants it under the edge cluster
of `staleState`; every other call fails. -/
def localeServiceFlappingContext : EnsurerContext Nat :=
  { pagesContext [] with
    localeServicesGet := fun w _ id =>
      if w = 0 then (.error (.notFound id), 1)
      else (.ok (tier1GatewayLocaleServiceTask.desired sampleHelpers sampleSpec
        "/infra/edge-clusters/ec"), w) }

/-- A store that lists the shared objects of `sampleSpec` and holds the segment
"seg" of `staleState` under the display name recorded there, attached to
another tier-1 gateway than the one of `staleState`. -/
def movedSegmentStore : Store :=
  { sampleStore with
    segments :=
      [("seg", { DisplayName := some "shoot--foo--bar-old"
                 Description := some sampleHelpers.description
                 ConnectivityPath := some "/infra/tier-1s/previous"
                 TransportZonePath := some "/infra/transport-zones/tz"
                 Tags := sampleSpec.CreateTags
                 Subnets := [{ GatewayAddress := some "10.250.0.1/16" }]
                 Id := some "seg"
                 Path := some "/infra/segments/seg" })] }

/-! ## Theorems -/

/-- `HasPrefix s pfx` holds exactly when `s` is `pfx` followed by some rest. -/
theorem hasPrefix_iff (s pfx : String) :
    HasPrefix s pfx = true ↔ ∃ rest : String, s = pfx ++ rest := by
  unfold HasPrefix
  rw [List.isPrefixOf_iff_prefix]
  constructor
  · rintro ⟨t, ht⟩
    exact ⟨⟨t⟩, String.ext (by simp [← ht])⟩
  · rintro ⟨rest, rfl⟩
    exact ⟨rest.data, by simp⟩

/-- The tier-1 comparison asks for no `Patch` exactly when the five compared
fields agree with the desired object. -/
theorem tier1_changed_eq_false (h : Helpers) (spec : NSXTInfraSpec)
    (oldName tier0Path : String) (old : Tier1) :
    tier1GatewayTask.changed h oldName old (tier1GatewayTask.desired h spec tier0Path)
        spec.FullClusterName tier0Path = false ↔
      (oldName = spec.FullClusterName ∧
       old.FailoverMode = some Tier1_FAILOVER_MODE_PREEMPTIVE ∧
       old.Tier0Path = some tier0Path ∧
       old.RouteAdvertisementTypes =
         [Tier1_ROUTE_ADVERTISEMENT_TYPES_STATIC_ROUTES, Tier1_ROUTE_ADVERTISEMENT_TYPES_NAT,
          Tier1_ROUTE_ADVERTISEMENT_TYPES_LB_VIP, Tier1_ROUTE_ADVERTISEMENT_TYPES_LB_SNAT] ∧
       h.equalTags old.Tags spec.CreateTags = true) := by
  cases hf : old.FailoverMode <;> cases ht : old.Tier0Path <;>
    simp [tier1GatewayTask.changed, tier1GatewayTask.desired, differs, equalStrings, hf, ht]
  tauto

/-- The segment comparison asks for no `Patch` exactly when the compared fields
agree with the desired object, the display name up to what follows the
cluster name. -/
theorem segment_changed_eq_false (h : Helpers) (spec : NSXTInfraSpec)
    (oldName gatewayAddr displayName tier1Path zonePath : String) (old : Segment) :
    segmentTask.changed h oldName old
        (segmentTask.desired h spec gatewayAddr displayName tier1Path zonePath)
        spec.FullClusterName gatewayAddr tier1Path zonePath = false ↔
      ((∃ rest : String, oldName = spec.FullClusterName ++ rest) ∧
       old.ConnectivityPath = some tier1Path ∧
       old.TransportZonePath = some zonePath ∧
       old.Subnets = [{ GatewayAddress := some gatewayAddr }] ∧
       h.equalTags old.Tags spec.CreateTags = true) := by
  have hSub : segmentTask.subnetsChanged old.Subnets gatewayAddr = false ↔
      old.Subnets = [{ GatewayAddress := some gatewayAddr }] := by
    rcases old.Subnets with _ | ⟨⟨addr⟩, _ | ⟨x, rest⟩⟩
    · simp [segmentTask.subnetsChanged]
    · cases addr <;> simp [segmentTask.subnetsChanged, differs]
    · simp [segmentTask.subnetsChanged]
  rw [← hasPrefix_iff, ← hSub]
  cases hc : old.ConnectivityPath <;> cases ht : old.TransportZonePath <;>
    simp [segmentTask.changed, segmentTask.desired, differs, hc, ht]
  tauto

/-- The SNAT rule comparison asks for no `Patch` exactly when the compared
fields agree with the desired object. -/
theorem snat_rule_changed_eq_false (h : Helpers) (spec : NSXTInfraSpec)
    (oldName address : String) (old : PolicyNatRule) :
    snatRuleTask.changed h oldName old (snatRuleTask.desired h spec address)
        spec.FullClusterName spec.WorkersNetwork (address ++ "/32") = false ↔
      (oldName = spec.FullClusterName ∧
       old.Action = PolicyNatRule_ACTION_SNAT ∧
       old.Enabled = some true ∧
       old.Logging = some true ∧
       old.SequenceNumber = some 100 ∧
       old.SourceNetwork = some spec.WorkersNetwork ∧
       old.TranslatedNetwork = some (address ++ "/32") ∧
       old.DestinationNetwork = none ∧
       h.equalTags old.Tags spec.CreateTags = true) := by
  cases he : old.Enabled <;> cases hl : old.Logging <;> cases hs : old.SequenceNumber <;>
    cases hn : old.SourceNetwork <;> cases ht : old.TranslatedNetwork <;>
    cases hd : old.DestinationNetwork <;>
    simp [snatRuleTask.changed, snatRuleTask.desired, differs, he, hl, hs, hn, ht, hd]
  tauto

/-- The locale-service comparison asks for no `Patch` exactly when the compared
fields agree with the desired object. -/
theorem locale_service_changed_eq_false (h : Helpers) (spec : NSXTInfraSpec)
    (oldName edgePath : String) (old : LocaleServices) :
    tier1GatewayLocaleServiceTask.changed h oldName old
        (tier1GatewayLocaleServiceTask.desired h spec edgePath)
        spec.FullClusterName edgePath = false ↔
      (oldName = spec.FullClusterName ∧
       old.EdgeClusterPath = some edgePath ∧
       h.equalTags old.Tags spec.CreateTags = true) := by
  cases he : old.EdgeClusterPath <;>
    simp [tier1GatewayLocaleServiceTask.changed, tier1GatewayLocaleServiceTask.desired, differs,
      he]
  tauto

/-- The item loop finds nothing exactly when every item carries a display name
other than `name`. -/
theorem scanItems_absent_iff (name : String) (items : List PolicyResource) :
    scanItems name items = .absent ↔
      ∀ item ∈ items, ∃ displayName, item.DisplayName = some displayName ∧
        displayName ≠ name := by
  induction items with
  | nil => simp [scanItems]
  | cons item rest ih =>
    cases hName : item.DisplayName with
    | none => simp [scanItems, hName]
    | some displayName =>
      by_cases hEq : displayName = name
      · cases hId : item.Id <;> cases hPath : item.Path <;>
          simp [scanItems, hName, hEq, hId, hPath]
      · simp [scanItems, hName, hEq, ih]

/-- The item loop returns the first item named `name`. -/
theorem scanItems_found (name id path : String) (before after : List PolicyResource)
    (item : PolicyResource)
    (hBefore : ∀ other ∈ before, ∃ displayName, other.DisplayName = some displayName ∧
      displayName ≠ name)
    (hName : item.DisplayName = some name) (hId : item.Id = some id)
    (hPath : item.Path = some path) :
    scanItems name (before ++ item :: after) = .found { ID := id, Path := path } := by
  induction before with
  | nil => simp [scanItems, hName, hId, hPath]
  | cons other rest ih =>
    obtain ⟨displayName, hOther, hNe⟩ := hBefore other (List.mem_cons_self _ _)
    simp only [List.cons_append, scanItems, hOther, hNe, if_false]
    exact ih (fun x hx => hBefore x (List.mem_cons_of_mem _ hx))

/-- Pages linked by cursors whose cumulative counts stay below the total keep
the loop going, once a total has been read. -/
theorem continues_of_linked (total : Int) :
    ∀ (pages : List ListResult) (cursor : Option String) (count : Int),
      cursor ≠ none → (∀ page ∈ pages, page.Cursor ≠ none) →
      (∀ k, 0 < k → k ≤ pages.length → count + listed (pages.take k) < total) →
      continues cursor total count pages := by
  intro pages
  induction pages with
  | nil => intro cursor count _ _ _; trivial
  | cons page rest ih =>
    intro cursor count hCursor hLinked hBelow
    refine ⟨total, by simp [hCursor], ?_, ?_⟩
    · have := hBelow 1 (by omega) (by simp)
      simpa [listed] using this
    · refine ih page.Cursor _ (hLinked page (List.mem_cons_self _ _))
        (fun p hp => hLinked p (List.mem_cons_of_mem _ hp)) (fun k hk hle => ?_)
      have := hBelow (k + 1) (by omega) (by simpa using hle)
      simp only [listed, List.take_succ_cons, List.map_cons, List.sum_cons] at this
      simp only [listed]
      omega

/-- From the first request on: pages linked by cursors, the first of which
reports `total`, whose cumulative counts stay below `total`, keep the loop
going. -/
theorem continues_from_start (total : Int) (pages : List ListResult)
    (hTotal : ∀ first ∈ pages.head?, first.ResultCount = some total)
    (hLinked : ∀ page ∈ pages, page.Cursor ≠ none)
    (hBelow : ∀ k, 0 < k → k ≤ pages.length → listed (pages.take k) < total) :
    continues none 0 0 pages := by
  cases pages with
  | nil => trivial
  | cons page rest =>
    refine ⟨total, by simpa using hTotal page (by simp), ?_, ?_⟩
    · have := hBelow 1 (by omega) (by simp)
      simpa [listed] using this
    · refine continues_of_linked total rest page.Cursor _ (hLinked page (List.mem_cons_self _ _))
        (fun p hp => hLinked p (List.mem_cons_of_mem _ hp)) (fun k hk hle => ?_)
      have := hBelow (k + 1) (by omega) (by simpa using hle)
      simp only [listed, List.take_succ_cons, List.map_cons, List.sum_cons] at this
      simp only [listed]
      omega

/-- Pages linked by cursors whose cumulative counts reach the total with the
last page, and not before, stop the loop on the last page. -/
theorem stopsAfter_of_linked (total : Int) (last : ListResult) :
    ∀ (before : List ListResult) (cursor : Option String) (count : Int),
      cursor ≠ none → (∀ page ∈ before, page.Cursor ≠ none) →
      (∀ k, 0 < k → k ≤ before.length → count + listed (before.take k) < total) →
      total ≤ count + listed (before ++ [last]) →
      stopsAfter cursor total count before last := by
  intro before
  induction before with
  | nil =>
    intro cursor count hCursor _ _ hReach
    exact ⟨total, by simp [hCursor], by simpa [listed] using hReach⟩
  | cons page rest ih =>
    intro cursor count hCursor hLinked hBelow hReach
    refine ⟨total, by simp [hCursor], ?_, ?_⟩
    · have := hBelow 1 (by omega) (by simp)
      simpa [listed] using this
    · refine ih page.Cursor _ (hLinked page (List.mem_cons_self _ _))
        (fun p hp => hLinked p (List.mem_cons_of_mem _ hp)) (fun k hk hle => ?_) ?_
      · have := hBelow (k + 1) (by omega) (by simpa using hle)
        simp only [listed, List.take_succ_cons, List.map_cons, List.sum_cons] at this
        simp only [listed]
        omega
      · simp only [listed, List.cons_append, List.map_cons, List.sum_cons] at hReach
        simp only [listed]
        omega

/-- From the first request on: pages linked by cursors, the first of which
reports `total`, whose cumulative counts reach `total` with the last page
and not before, stop the loop on the last page. -/
theorem stopsAfter_from_start (total : Int) (before : List ListResult) (last : ListResult)
    (hTotal : ∀ first ∈ (before ++ [last]).head?, first.ResultCount = some total)
    (hLinked : ∀ page ∈ before, page.Cursor ≠ none)
    (hBelow : ∀ k, 0 < k → k ≤ before.length → listed (before.take k) < total)
    (hReach : total ≤ listed (before ++ [last])) :
    stopsAfter none 0 0 before last := by
  cases before with
  | nil =>
    exact ⟨total, by simpa using hTotal last (by simp), by simpa [listed] using hReach⟩
  | cons page rest =>
    refine ⟨total, by simpa using hTotal page (by simp), ?_, ?_⟩
    · have := hBelow 1 (by omega) (by simp)
      simpa [listed] using this
    · refine stopsAfter_of_linked total last rest page.Cursor _
        (hLinked page (List.mem_cons_self _ _))
        (fun p hp => hLinked p (List.mem_cons_of_mem _ hp)) (fun k hk hle => ?_) ?_
      · have := hBelow (k + 1) (by omega) (by simpa using hle)
        simp only [listed, List.take_succ_cons, List.map_cons, List.sum_cons] at this
        simp only [listed]
        omega
      · simp only [listed, List.cons_append, List.map_cons, List.sum_cons] at hReach
        simp only [listed]
        omega

/-- One round of the loop on a page that does not list the name and leaves the
cumulative count below the total. -/
theorem pagedLookup_step {σ : Type}
    (list : σ → Option String → Except ApiError ListResult × σ)
    (mkCall : Option String → Call) (nicer : ApiError → ApiError)
    (setRef : NSXTInfraState → Reference → NSXTInfraState) (name : String)
    (page : ListResult) (state : NSXTInfraState) (fuel : Nat)
    (cursor : Option String) (total total1 count : Int) (w w0 : σ) (calls : List Call)
    (hList : list w cursor = (.ok page, w0))
    (hScan : scanItems name page.Results = .absent)
    (hTotal : (if cursor = none then page.ResultCount else some total) = some total1)
    (hBelow : count + (page.Results.length : Int) < total1) :
    pagedLookup list mkCall nicer setRef name (fuel + 1) cursor total count state
        { world := w, calls := calls } =
      pagedLookup list mkCall nicer setRef name fuel page.Cursor total1
        (count + (page.Results.length : Int)) state
        { world := w0, calls := calls ++ [mkCall cursor] } := by
  simp only [pagedLookup, Conn.invoke, hList, hScan, hTotal, ge_iff_le, not_le.mpr hBelow,
    if_false]

/-- The loop returns `Found` on the page that holds the first match, when it
goes on past the pages before it. -/
theorem pagedLookup_found {σ : Type}
    (list : σ → Option String → Except ApiError ListResult × σ)
    (mkCall : Option String → Call) (nicer : ApiError → ApiError)
    (setRef : NSXTInfraState → Reference → NSXTInfraState) (name : String) (ref : Reference)
    (last : ListResult) (state : NSXTInfraState) (w1 : σ) (fuel : Nat)
    (hLast : scanItems name last.Results = .found ref) :
    ∀ (before : List ListResult) (cursor : Option String) (total count : Int) (w : σ)
      (calls : List Call),
      Serves list w cursor (before ++ [last]) w1 →
      (∀ page ∈ before, scanItems name page.Results = .absent) →
      continues cursor total count before →
      pagedLookup list mkCall nicer setRef name (fuel + (before.length + 1)) cursor total count
          state { world := w, calls := calls } =
        some { result := .ok actionFound, state := setRef state ref
               conn := { world := w1
                         calls := calls ++ (requests cursor (before ++ [last])).map mkCall } } := by
  intro before
  induction before with
  | nil =>
    intro cursor total count w calls hServes _ _
    obtain ⟨w0, hList, hEnd⟩ := hServes
    cases hEnd
    show pagedLookup list mkCall nicer setRef name (fuel + 1) cursor total count state _ = _
    simp [pagedLookup, Conn.invoke, hList, hLast, requests]
  | cons page rest ih =>
    intro cursor total count w calls hServes hAbsent hContinues
    obtain ⟨w0, hList, hRest⟩ := hServes
    obtain ⟨total1, hTotal, hBelow, hGoes⟩ := hContinues
    have hScan := hAbsent page (List.mem_cons_self _ _)
    show pagedLookup list mkCall nicer setRef name ((fuel + (rest.length + 1)) + 1) cursor total
      count state _ = _
    rw [pagedLookup_step list mkCall nicer setRef name page state _ cursor total total1 count w w0
      calls hList hScan hTotal hBelow]
    rw [ih page.Cursor total1 _ w0 _ hRest (fun p hp => hAbsent p (List.mem_cons_of_mem _ hp))
      hGoes]
    simp [requests]

/-- The loop returns the "not found" error on the page with which the
cumulative count reaches the total, when no page lists the name. -/
theorem pagedLookup_exhausted {σ : Type}
    (list : σ → Option String → Except ApiError ListResult × σ)
    (mkCall : Option String → Call) (nicer : ApiError → ApiError)
    (setRef : NSXTInfraState → Reference → NSXTInfraState) (name : String)
    (last : ListResult) (state : NSXTInfraState) (w1 : σ) (fuel : Nat)
    (hLast : scanItems name last.Results = .absent) :
    ∀ (before : List ListResult) (cursor : Option String) (total count : Int) (w : σ)
      (calls : List Call),
      Serves list w cursor (before ++ [last]) w1 →
      (∀ page ∈ before, scanItems name page.Results = .absent) →
      stopsAfter cursor total count before last →
      pagedLookup list mkCall nicer setRef name (fuel + (before.length + 1)) cursor total count
          state { world := w, calls := calls } =
        some { result := .error (.errorf ("not found: " ++ name)), state := state
               conn := { world := w1
                         calls := calls ++ (requests cursor (before ++ [last])).map mkCall } } := by
  intro before
  induction before with
  | nil =>
    intro cursor total count w calls hServes _ hStops
    obtain ⟨w0, hList, hEnd⟩ := hServes
    cases hEnd
    obtain ⟨total1, hTotal, hReach⟩ := hStops
    show pagedLookup list mkCall nicer setRef name (fuel + 1) cursor total count state _ = _
    simp [pagedLookup, Conn.invoke, hList, hLast, hTotal, hReach, requests]
  | cons page rest ih =>
    intro cursor total count w calls hServes hAbsent hStops
    obtain ⟨w0, hList, hRest⟩ := hServes
    obtain ⟨total1, hTotal, hBelow, hGoes⟩ := hStops
    have hScan := hAbsent page (List.mem_cons_self _ _)
    show pagedLookup list mkCall nicer setRef name ((fuel + (rest.length + 1)) + 1) cursor total
      count state _ = _
    rw [pagedLookup_step list mkCall nicer setRef name page state _ cursor total total1 count w w0
      calls hList hScan hTotal hBelow]
    rw [ih page.Cursor total1 _ w0 _ hRest (fun p hp => hAbsent p (List.mem_cons_of_mem _ hp))
      hGoes]
    simp [requests]

/-- `Get` on a store table leaves the store as it is. -/
theorem store_get_world {κ α : Type} [DecidableEq κ] (table : List (κ × α)) (key : κ)
    (name : String) (w : Store) : (Store.get table key name w).2 = w := by
  unfold Store.get
  split <;> rfl

/-- `Get` on a store table finds what was stored last under the key. -/
theorem store_get_head {κ α : Type} [DecidableEq κ] (table : List (κ × α)) (key : κ)
    (value : α) (name : String) (w : Store) :
    Store.get ((key, value) :: table) key name w = (.ok value, w) := by
  simp [Store.get]

/-- What `Get` on a store table finds does not depend on the rest of the store. -/
theorem store_get_ok {κ α : Type} [DecidableEq κ] (table : List (κ × α)) (key : κ)
    (name : String) (w w0 : Store) (value : α)
    (hGet : Store.get table key name w = (.ok value, w0)) :
    ∀ w1, Store.get table key name w1 = (.ok value, w1) := by
  intro w1
  unfold Store.get at hGet ⊢
  split at hGet
  · next entry hFind =>
    cases hGet
    simp [hFind]
  · cases hGet

/-- A failing `Get` on a store table answers not-found, in every store. -/
theorem store_get_error {κ α : Type} [DecidableEq κ] (table : List (κ × α)) (key : κ)
    (name : String) (w w0 : Store) (err : ApiError)
    (hGet : Store.get table key name w = (.error err, w0)) :
    isNotFoundError err = true ∧ ∀ w1, Store.get table key name w1 = (.error err, w1) := by
  unfold Store.get at hGet ⊢
  split at hGet
  · cases hGet
  · next hFind =>
    cases hGet
    exact ⟨rfl, fun w1 => by simp [hFind]⟩

/-- A settled tier-1 gateway: the next `Ensure` returns `Unchanged`, after a `Get`. -/
theorem tier1_settled_repeats (h : Helpers) (spec : NSXTInfraSpec) (run : Run Store Action)
    (hSettled : tier1Settled h spec run.state run.conn.world) (fuel : Nat) :
    ∃ run2, tier1GatewayTask.Ensure (fuel + 1) (storeContext h) spec run.state run.conn =
      some run2 ∧ Repeats actionUnchanged run run2 := by
  obtain ⟨tier0, ref, old, oldName, hT0, hRef, hGet, hName, hSame⟩ := hSettled
  refine ⟨{ result := .ok actionUnchanged, state := run.state
            conn := { world := run.conn.world
                      calls := run.conn.calls ++ [.tier1sGet ref.ID] } },
    ?_, rfl, rfl, .tier1sGet ref.ID, rfl, rfl⟩
  simp [tier1GatewayTask.Ensure, storeContext, hT0, hRef, Conn.invoke, hGet, hName, hSame]

/-- The creation branch of the tier-1 gateway task leaves the gateway settled. -/
theorem tier1_create_settles (h : Helpers) (spec : NSXTInfraSpec)
    (hTags : h.equalTags spec.CreateTags spec.CreateTags = true)
    (state : NSXTInfraState) (conn : Conn Store) (fuel : Nat) (run : Run Store Action)
    (action : Action) (hNil : state.Tier1GatewayRef = none)
    (hRun : tier1GatewayTask.Ensure fuel (storeContext h) spec state conn = some run)
    (hOk : run.result = .ok action) : tier1Settled h spec run.state run.conn.world := by
  cases fuel with
  | zero => simp [tier1GatewayTask.Ensure] at hRun
  | succ n =>
    cases hT0 : state.Tier0GatewayRef with
    | none =>
      simp [tier1GatewayTask.Ensure, hT0] at hRun
      subst hRun
      simp at hOk
    | some tier0 =>
      simp [tier1GatewayTask.Ensure, storeContext, hT0, hNil, Conn.invoke, Conn.draw] at hRun
      subst hRun
      refine ⟨tier0, _, _, spec.FullClusterName, rfl, rfl,
        fun w1 => store_get_head _ _ _ _ w1, rfl, ?_⟩
      exact (tier1_changed_eq_false h spec _ _ _).2 ⟨rfl, rfl, rfl, rfl, hTags⟩

/-- A successful `Ensure` of the tier-1 gateway task leaves the gateway settled. -/
theorem tier1_ensure_settles (h : Helpers) (spec : NSXTInfraSpec)
    (hTags : h.equalTags spec.CreateTags spec.CreateTags = true)
    (state : NSXTInfraState) (conn : Conn Store) (fuel : Nat) (run : Run Store Action)
    (action : Action)
    (hRun : tier1GatewayTask.Ensure fuel (storeContext h) spec state conn = some run)
    (hOk : run.result = .ok action) : tier1Settled h spec run.state run.conn.world := by
  cases hRef : state.Tier1GatewayRef with
  | none => exact tier1_create_settles h spec hTags state conn fuel run action hRef hRun hOk
  | some ref =>
    cases fuel with
    | zero => simp [tier1GatewayTask.Ensure] at hRun
    | succ n =>
      cases hT0 : state.Tier0GatewayRef with
      | none =>
        simp [tier1GatewayTask.Ensure, hT0] at hRun
        subst hRun
        simp at hOk
      | some tier0 =>
        rcases hGet : Store.get conn.world.tier1s ref.ID ref.ID conn.world with ⟨answer, w1⟩
        have hW : w1 = conn.world := by
          have hSame := store_get_world conn.world.tier1s ref.ID ref.ID conn.world
          rw [hGet] at hSame
          exact hSame
        subst hW
        cases answer with
        | error err =>
          obtain ⟨hErr, -⟩ := store_get_error _ _ _ _ _ _ hGet
          simp only [tier1GatewayTask.Ensure, storeContext, hT0, hRef, Conn.invoke, hGet,
            hErr, if_true] at hRun
          exact tier1_create_settles h spec hTags _ _ n run action rfl hRun hOk
        | ok old =>
          have hAny := store_get_ok _ _ _ _ _ _ hGet
          cases hName : old.DisplayName with
          | none =>
            simp [tier1GatewayTask.Ensure, storeContext, hT0, hRef, Conn.invoke, hGet, hName]
              at hRun
            subst hRun
            simp at hOk
          | some oldName =>
            cases hChanged : tier1GatewayTask.changed h oldName old
                (tier1GatewayTask.desired h spec tier0.Path) spec.FullClusterName tier0.Path with
            | false =>
              simp [tier1GatewayTask.Ensure, storeContext, hT0, hRef, Conn.invoke, hGet, hName,
                hChanged] at hRun
              subst hRun
              exact ⟨tier0, ref, old, oldName, by simp [hT0], by simp [hRef], hAny, hName,
                hChanged⟩
            | true =>
              simp [tier1GatewayTask.Ensure, storeContext, hT0, hRef, Conn.invoke, hGet, hName,
                hChanged] at hRun
              subst hRun
              refine ⟨tier0, ref, _, spec.FullClusterName, by simp [hT0], by simp [hRef],
                fun w1 => store_get_head _ _ _ _ w1, rfl, ?_⟩
              exact (tier1_changed_eq_false h spec _ _ _).2 ⟨rfl, rfl, rfl, rfl, hTags⟩

/-- A settled SNAT rule: the next `Ensure` returns `Unchanged`, after a `Get`. -/
theorem snat_rule_settled_repeats (h : Helpers) (spec : NSXTInfraSpec) (run : Run Store Action)
    (hSettled : snatRuleSettled h spec run.state run.conn.world) (fuel : Nat) :
    ∃ run2, snatRuleTask.Ensure (fuel + 1) (storeContext h) spec run.state run.conn =
      some run2 ∧ Repeats actionUnchanged run run2 := by
  obtain ⟨address, tier1, ref, old, oldName, hAddr, hT1, hRef, hGet, hName, hSame⟩ := hSettled
  refine ⟨{ result := .ok actionUnchanged, state := run.state
            conn := { world := run.conn.world
                      calls := run.conn.calls ++
                        [.natRulesGet tier1.ID PolicyNat_NAT_TYPE_USER ref.ID] } },
    ?_, rfl, rfl, .natRulesGet tier1.ID PolicyNat_NAT_TYPE_USER ref.ID, rfl, rfl⟩
  simp [snatRuleTask.Ensure, storeContext, hAddr, hT1, hRef, Conn.invoke, hGet, hName, hSame]

/-- The creation branch of the SNAT rule task leaves the rule settled. -/
theorem snat_rule_create_settles (h : Helpers) (spec : NSXTInfraSpec)
    (hTags : h.equalTags spec.CreateTags spec.CreateTags = true)
    (state : NSXTInfraState) (conn : Conn Store) (fuel : Nat) (run : Run Store Action)
    (action : Action) (hNil : state.SNATRuleRef = none)
    (hRun : snatRuleTask.Ensure fuel (storeContext h) spec state conn = some run)
    (hOk : run.result = .ok action) : snatRuleSettled h spec run.state run.conn.world := by
  cases fuel with
  | zero => simp [snatRuleTask.Ensure] at hRun
  | succ n =>
    cases hAddr : state.SNATIPAddress with
    | none =>
      simp [snatRuleTask.Ensure, hAddr] at hRun
      subst hRun
      simp at hOk
    | some address =>
      cases hT1 : state.Tier1GatewayRef with
      | none =>
        simp [snatRuleTask.Ensure, storeContext, hAddr, hNil, hT1, Conn.draw] at hRun
        subst hRun
        simp at hOk
      | some tier1 =>
        simp [snatRuleTask.Ensure, storeContext, hAddr, hNil, hT1, Conn.invoke, Conn.draw]
          at hRun
        subst hRun
        refine ⟨address, tier1, _, _, spec.FullClusterName, rfl, rfl, rfl,
          fun w1 => store_get_head _ _ _ _ w1, rfl, ?_⟩
        exact (snat_rule_changed_eq_false h spec _ _ _).2
          ⟨rfl, rfl, rfl, rfl, rfl, rfl, rfl, rfl, hTags⟩

/-- A successful `Ensure` of the SNAT rule task leaves the rule settled. -/
theorem snat_rule_ensure_settles (h : Helpers) (spec : NSXTInfraSpec)
    (hTags : h.equalTags spec.CreateTags spec.CreateTags = true)
    (state : NSXTInfraState) (conn : Conn Store) (fuel : Nat) (run : Run Store Action)
    (action : Action)
    (hRun : snatRuleTask.Ensure fuel (storeContext h) spec state conn = some run)
    (hOk : run.result = .ok action) : snatRuleSettled h spec run.state run.conn.world := by
  cases hRef : state.SNATRuleRef with
  | none => exact snat_rule_create_settles h spec hTags state conn fuel run action hRef hRun hOk
  | some ref =>
    cases fuel with
    | zero => simp [snatRuleTask.Ensure] at hRun
    | succ n =>
      cases hAddr : state.SNATIPAddress with
      | none =>
        simp [snatRuleTask.Ensure, hAddr] at hRun
        subst hRun
        simp at hOk
      | some address =>
        cases hT1 : state.Tier1GatewayRef with
        | none =>
          simp [snatRuleTask.Ensure, hAddr, hRef, hT1] at hRun
          subst hRun
          simp at hOk
        | some tier1 =>
          rcases hGet : Store.get conn.world.natRules (tier1.ID, PolicyNat_NAT_TYPE_USER, ref.ID)
            ref.ID conn.world with ⟨answer, w1⟩
          have hW : w1 = conn.world := by
            have hSame := store_get_world conn.world.natRules
              (tier1.ID, PolicyNat_NAT_TYPE_USER, ref.ID) ref.ID conn.world
            rw [hGet] at hSame
            exact hSame
          subst hW
          cases answer with
          | error err =>
            obtain ⟨hErr, -⟩ := store_get_error _ _ _ _ _ _ hGet
            simp only [snatRuleTask.Ensure, storeContext, hAddr, hRef, hT1, Conn.invoke, hGet,
              hErr, if_true] at hRun
            exact snat_rule_create_settles h spec hTags _ _ n run action rfl hRun hOk
          | ok old =>
            have hAny := store_get_ok _ _ _ _ _ _ hGet
            cases hName : old.DisplayName with
            | none =>
              simp [snatRuleTask.Ensure, storeContext, hAddr, hRef, hT1, Conn.invoke, hGet,
                hName] at hRun
              subst hRun
              simp at hOk
            | some oldName =>
              cases hChanged : snatRuleTask.changed h oldName old
                  (snatRuleTask.desired h spec address) spec.FullClusterName
                  spec.WorkersNetwork (address ++ "/32") with
              | false =>
                simp [snatRuleTask.Ensure, storeContext, hAddr, hRef, hT1, Conn.invoke, hGet,
                  hName, hChanged] at hRun
                subst hRun
                exact ⟨address, tier1, ref, old, oldName, by simp [hAddr], by simp [hT1],
                  by simp [hRef], hAny, hName, hChanged⟩
              | true =>
                simp [snatRuleTask.Ensure, storeContext, hAddr, hRef, hT1, Conn.invoke, hGet,
                  hName, hChanged] at hRun
                subst hRun
                refine ⟨address, tier1, ref, _, spec.FullClusterName, by simp [hAddr],
                  by simp [hT1], by simp [hRef], fun w1 => store_get_head _ _ _ _ w1, rfl, ?_⟩
                exact (snat_rule_changed_eq_false h spec _ _ _).2
                  ⟨rfl, rfl, rfl, rfl, rfl, rfl, rfl, rfl, hTags⟩

/-- A settled locale service: the next `Ensure` returns `Unchanged`, after a `Get`. -/
theorem locale_service_settled_repeats (h : Helpers) (spec : NSXTInfraSpec)
    (run : Run Store Action)
    (hSettled : localeServiceSettled h spec run.state run.conn.world) (fuel : Nat) :
    ∃ run2, tier1GatewayLocaleServiceTask.Ensure (fuel + 1) (storeContext h) spec run.state
      run.conn = some run2 ∧ Repeats actionUnchanged run run2 := by
  obtain ⟨edge, ref, old, oldName, hEdge, hRef, hGet, hName, hSame⟩ := hSettled
  refine ⟨{ result := .ok actionUnchanged, state := run.state
            conn := { world := run.conn.world
                      calls := run.conn.calls ++
                        [.localeServicesGet ref.ID h.defaultPolicyLocaleServiceID] } },
    ?_, rfl, rfl, .localeServicesGet ref.ID h.defaultPolicyLocaleServiceID, rfl, rfl⟩
  simp [tier1GatewayLocaleServiceTask.Ensure, storeContext, hEdge, hRef, Conn.invoke, hGet,
    hName, hSame]

/-- On the store, while the locale service of the stale Reference is absent,
`Ensure` returns for no fuel. -/
theorem locale_service_absent_on_store (h : Helpers) (spec : NSXTInfraSpec)
    (edge ref : Reference) (err : ApiError) (table : List ((String × String) × LocaleServices))
    (hGet : ∀ w1, Store.get table (ref.ID, h.defaultPolicyLocaleServiceID)
      h.defaultPolicyLocaleServiceID w1 = (.error err, w1))
    (hErr : isNotFoundError err = true) :
    ∀ (fuel : Nat) (state : NSXTInfraState) (conn : Conn Store),
      state.EdgeClusterRef = some edge → state.LocaleServiceRef = some ref →
      conn.world.localeServices = table →
      tier1GatewayLocaleServiceTask.Ensure fuel (storeContext h) spec state conn = none := by
  intro fuel
  induction fuel with
  | zero => intro state conn _ _ _; rfl
  | succ n ih =>
    intro state conn hEdge hRef hTable
    simp only [tier1GatewayLocaleServiceTask.Ensure, storeContext, hEdge, hRef, Conn.invoke,
      hTable, hGet, hErr, if_true]
    exact ih _ _ rfl rfl hTable

/-- A successful `Ensure` of the locale-service task leaves the locale service
settled. -/
theorem locale_service_ensure_settles (h : Helpers) (spec : NSXTInfraSpec)
    (hTags : h.equalTags spec.CreateTags spec.CreateTags = true)
    (state : NSXTInfraState) (conn : Conn Store) (fuel : Nat) (run : Run Store Action)
    (action : Action)
    (hRun : tier1GatewayLocaleServiceTask.Ensure fuel (storeContext h) spec state conn =
      some run)
    (hOk : run.result = .ok action) :
    localeServiceSettled h spec run.state run.conn.world := by
  cases fuel with
  | zero => simp [tier1GatewayLocaleServiceTask.Ensure] at hRun
  | succ n =>
    cases hEdge : state.EdgeClusterRef with
    | none =>
      simp [tier1GatewayLocaleServiceTask.Ensure, hEdge] at hRun
      subst hRun
      simp at hOk
    | some edge =>
      cases hRef : state.LocaleServiceRef with
      | none =>
        cases hT1 : state.Tier1GatewayRef with
        | none =>
          simp [tier1GatewayLocaleServiceTask.Ensure, hEdge, hRef, hT1] at hRun
          subst hRun
          simp at hOk
        | some tier1 =>
          simp [tier1GatewayLocaleServiceTask.Ensure, storeContext, hEdge, hRef, hT1,
            Conn.invoke] at hRun
          subst hRun
          refine ⟨edge, _, _, spec.FullClusterName, rfl, rfl,
            fun w1 => store_get_head _ _ _ _ w1, rfl, ?_⟩
          exact (locale_service_changed_eq_false h spec _ _ _).2 ⟨rfl, rfl, hTags⟩
      | some ref =>
        rcases hGet : Store.get conn.world.localeServices
          (ref.ID, h.defaultPolicyLocaleServiceID) h.defaultPolicyLocaleServiceID conn.world
          with ⟨answer, w1⟩
        have hW : w1 = conn.world := by
          have hSame := store_get_world conn.world.localeServices
            (ref.ID, h.defaultPolicyLocaleServiceID) h.defaultPolicyLocaleServiceID conn.world
          rw [hGet] at hSame
          exact hSame
        subst hW
        cases answer with
        | error err =>
          obtain ⟨hErr, hAll⟩ := store_get_error _ _ _ _ _ _ hGet
          rw [locale_service_absent_on_store h spec edge ref err conn.world.localeServices hAll
            hErr (n + 1) state conn hEdge hRef rfl] at hRun
          cases hRun
        | ok old =>
          have hAny := store_get_ok _ _ _ _ _ _ hGet
          cases hName : old.DisplayName with
          | none =>
            simp [tier1GatewayLocaleServiceTask.Ensure, storeContext, hEdge, hRef, Conn.invoke,
              hGet, hName] at hRun
            subst hRun
            simp at hOk
          | some oldName =>
            cases hChanged : tier1GatewayLocaleServiceTask.changed h oldName old
                (tier1GatewayLocaleServiceTask.desired h spec edge.Path) spec.FullClusterName
                edge.Path with
            | false =>
              simp [tier1GatewayLocaleServiceTask.Ensure, storeContext, hEdge, hRef,
                Conn.invoke, hGet, hName, hChanged] at hRun
              subst hRun
              exact ⟨edge, ref, old, oldName, by simp [hEdge], by simp [hRef], hAny, hName,
                hChanged⟩
            | true =>
              simp [tier1GatewayLocaleServiceTask.Ensure, storeContext, hEdge, hRef,
                Conn.invoke, hGet, hName, hChanged] at hRun
              subst hRun
              refine ⟨edge, ref, _, spec.FullClusterName, by simp [hEdge], by simp [hRef],
                fun w1 => store_get_head _ _ _ _ w1, rfl, ?_⟩
              exact (locale_service_changed_eq_false h spec _ _ _).2 ⟨rfl, rfl, hTags⟩

/-- A display name that starts with the cluster name keeps the segment
comparison quiet on the object the task wrote. -/
theorem segment_written_is_accepted (h : Helpers) (spec : NSXTInfraSpec)
    (hTags : h.equalTags spec.CreateTags spec.CreateTags = true)
    (gatewayAddr suffix displayName tier1Path zonePath : String) (id path : Option String) :
    segmentTask.changed h (spec.FullClusterName ++ "-" ++ suffix)
      { segmentTask.desired h spec gatewayAddr (spec.FullClusterName ++ "-" ++ suffix)
          tier1Path zonePath with Id := id, Path := path }
      (segmentTask.desired h spec gatewayAddr displayName tier1Path zonePath)
      spec.FullClusterName gatewayAddr tier1Path zonePath = false := by
  have hPfx : HasPrefix (spec.FullClusterName ++ "-" ++ suffix) spec.FullClusterName = true :=
    (hasPrefix_iff _ _).2 ⟨"-" ++ suffix, by rw [String.append_assoc]⟩
  simp [segmentTask.changed, segmentTask.desired, segmentTask.subnetsChanged, differs, hPfx,
    hTags]

/-- A settled segment: the next `Ensure` returns `Unchanged`, after a `Get`. -/
theorem segment_settled_repeats (h : Helpers) (spec : NSXTInfraSpec) (run : Run Store Action)
    (hSettled : segmentSettled h spec run.state run.conn.world) (fuel : Nat) :
    ∃ run2, segmentTask.Ensure (fuel + 1) (storeContext h) spec run.state run.conn =
      some run2 ∧ Repeats actionUnchanged run run2 := by
  obtain ⟨gatewayAddr, tier1, zone, ref, old, oldName, hCidr, hT1, hZone, hRef, hGet, hName,
    hSame⟩ := hSettled
  refine ⟨{ result := .ok actionUnchanged, state := run.state
            conn := { world := { run.conn.world with counter := run.conn.world.counter + 1 }
                      calls := run.conn.calls ++ [.segmentsGet ref.ID] } },
    ?_, rfl, rfl, .segmentsGet ref.ID, rfl, rfl⟩
  simp [segmentTask.Ensure, storeContext, hCidr, hT1, hZone, hRef, Conn.invoke, Conn.draw, hGet,
    hName, hSame]

/-- The creation branch of the segment task leaves the segment settled. -/
theorem segment_create_settles (h : Helpers) (spec : NSXTInfraSpec)
    (hTags : h.equalTags spec.CreateTags spec.CreateTags = true)
    (state : NSXTInfraState) (conn : Conn Store) (fuel : Nat) (run : Run Store Action)
    (action : Action) (hNil : state.SegmentRef = none)
    (hRun : segmentTask.Ensure fuel (storeContext h) spec state conn = some run)
    (hOk : run.result = .ok action) : segmentSettled h spec run.state run.conn.world := by
  cases fuel with
  | zero => simp [segmentTask.Ensure] at hRun
  | succ n =>
    cases hCidr : h.cidrHostAndPrefix spec.WorkersNetwork 1 with
    | error err =>
      simp [segmentTask.Ensure, storeContext, hCidr] at hRun
      subst hRun
      simp at hOk
    | ok gatewayAddr =>
      cases hT1 : state.Tier1GatewayRef with
      | none =>
        simp [segmentTask.Ensure, storeContext, hCidr, hT1, Conn.draw] at hRun
        subst hRun
        simp at hOk
      | some tier1 =>
        cases hZone : state.TransportZoneRef with
        | none =>
          simp [segmentTask.Ensure, storeContext, hCidr, hT1, hZone, Conn.draw] at hRun
          subst hRun
          simp at hOk
        | some zone =>
          simp [segmentTask.Ensure, storeContext, hCidr, hT1, hZone, hNil, Conn.invoke,
            Conn.draw] at hRun
          subst hRun
          exact ⟨gatewayAddr, tier1, zone, _, _, _, hCidr, rfl, rfl, rfl,
            fun w1 => store_get_head _ _ _ _ w1, rfl,
            fun displayName => segment_written_is_accepted h spec hTags _ _ displayName _ _ _ _⟩

/-- A successful `Ensure` of the segment task leaves the segment settled. -/
theorem segment_ensure_settles (h : Helpers) (spec : NSXTInfraSpec)
    (hTags : h.equalTags spec.CreateTags spec.CreateTags = true)
    (state : NSXTInfraState) (conn : Conn Store) (fuel : Nat) (run : Run Store Action)
    (action : Action)
    (hRun : segmentTask.Ensure fuel (storeContext h) spec state conn = some run)
    (hOk : run.result = .ok action) : segmentSettled h spec run.state run.conn.world := by
  cases hRef : state.SegmentRef with
  | none => exact segment_create_settles h spec hTags state conn fuel run action hRef hRun hOk
  | some ref =>
    cases fuel with
    | zero => simp [segmentTask.Ensure] at hRun
    | succ n =>
      cases hCidr : h.cidrHostAndPrefix spec.WorkersNetwork 1 with
      | error err =>
        simp [segmentTask.Ensure, storeContext, hCidr] at hRun
        subst hRun
        simp at hOk
      | ok gatewayAddr =>
        cases hT1 : state.Tier1GatewayRef with
        | none =>
          simp [segmentTask.Ensure, storeContext, hCidr, hT1, Conn.draw] at hRun
          subst hRun
          simp at hOk
        | some tier1 =>
          cases hZone : state.TransportZoneRef with
          | none =>
            simp [segmentTask.Ensure, storeContext, hCidr, hT1, hZone, Conn.draw] at hRun
            subst hRun
            simp at hOk
          | some zone =>
            rcases hGet : Store.get conn.world.segments ref.ID ref.ID
              { conn.world with counter := conn.world.counter + 1 } with ⟨answer, w1⟩
            have hW : w1 = { conn.world with counter := conn.world.counter + 1 } := by
              have hSame := store_get_world conn.world.segments ref.ID ref.ID
                { conn.world with counter := conn.world.counter + 1 }
              rw [hGet] at hSame
              exact hSame
            subst hW
            cases answer with
            | error err =>
              obtain ⟨hErr, -⟩ := store_get_error _ _ _ _ _ _ hGet
              simp only [segmentTask.Ensure, storeContext, hCidr, hT1, hZone, hRef, Conn.invoke,
                Conn.draw, hGet, hErr, if_true] at hRun
              exact segment_create_settles h spec hTags _ _ n run action rfl hRun hOk
            | ok old =>
              have hAny := store_get_ok _ _ _ _ _ _ hGet
              cases hName : old.DisplayName with
              | none =>
                simp [segmentTask.Ensure, storeContext, hCidr, hT1, hZone, hRef, Conn.invoke,
                  Conn.draw, hGet, hName] at hRun
                subst hRun
                simp at hOk
              | some oldName =>
                cases hChanged : segmentTask.changed h oldName old
                    (segmentTask.desired h spec gatewayAddr
                      (spec.FullClusterName ++ "-" ++ Store.token conn.world 8)
                      tier1.Path zone.Path)
                    spec.FullClusterName gatewayAddr tier1.Path zone.Path with
                | false =>
                  simp [segmentTask.Ensure, storeContext, hCidr, hT1, hZone, hRef, Conn.invoke,
                    Conn.draw, hGet, hName, hChanged] at hRun
                  subst hRun
                  exact ⟨gatewayAddr, tier1, zone, ref, old, oldName, hCidr, by simp [hT1],
                    by simp [hZone], by simp [hRef], hAny, hName, fun displayName => by
                      simpa [segmentTask.changed, segmentTask.desired] using hChanged⟩
                | true =>
                  simp [segmentTask.Ensure, storeContext, hCidr, hT1, hZone, hRef, Conn.invoke,
                    Conn.draw, hGet, hName, hChanged] at hRun
                  subst hRun
                  exact ⟨gatewayAddr, tier1, zone, ref, _, _, hCidr, by simp [hT1],
                    by simp [hZone], by simp [hRef], fun w1 => store_get_head _ _ _ _ w1, rfl,
                    fun displayName =>
                      segment_written_is_accepted h spec hTags _ _ displayName _ _ _ _⟩

/-- A settled allocation: the next `Ensure` returns `Unchanged`, after a `Get`. -/
theorem allocation_settled_repeats (h : Helpers) (spec : NSXTInfraSpec)
    (run : Run Store Action) (hSettled : allocationSettled run.state run.conn.world) :
    Repeats actionUnchanged run
      (snatIPAddressAllocationTask.Ensure (storeContext h) spec run.state run.conn) := by
  obtain ⟨pool, ref, obj, hPool, hRef, hGet⟩ := hSettled
  have hRun : snatIPAddressAllocationTask.Ensure (storeContext h) spec run.state run.conn =
      { result := .ok actionUnchanged, state := run.state
        conn := { world := run.conn.world
                  calls := run.conn.calls ++ [.ipAllocationsGet pool.ID ref.ID] } } := by
    simp [snatIPAddressAllocationTask.Ensure, storeContext, hPool, hRef, Conn.invoke, hGet]
  rw [hRun]
  exact ⟨rfl, rfl, .ipAllocationsGet pool.ID ref.ID, rfl, rfl⟩

/-- The creation tail of the allocation task leaves the allocation settled. -/
theorem allocation_create_settles (h : Helpers) (spec : NSXTInfraSpec)
    (state : NSXTInfraState) (conn : Conn Store) (action : Action)
    (hOk : (snatIPAddressAllocationTask.create (storeContext h)
      (snatIPAddressAllocationTask.desired h spec) state conn).result = .ok action) :
    allocationSettled
      (snatIPAddressAllocationTask.create (storeContext h)
        (snatIPAddressAllocationTask.desired h spec) state conn).state
      (snatIPAddressAllocationTask.create (storeContext h)
        (snatIPAddressAllocationTask.desired h spec) state conn).conn.world := by
  cases hPool : state.SNATIPPoolRef with
  | none => simp [snatIPAddressAllocationTask.create, storeContext, hPool, Conn.draw] at hOk
  | some pool =>
    simp only [snatIPAddressAllocationTask.create, storeContext, hPool, Conn.draw, Conn.invoke]
    exact ⟨pool, _, _, rfl, rfl, fun w1 => store_get_head _ _ _ _ w1⟩

/-- A successful `Ensure` of the allocation task leaves the allocation settled. -/
theorem allocation_ensure_settles (h : Helpers) (spec : NSXTInfraSpec)
    (state : NSXTInfraState) (conn : Conn Store) (action : Action)
    (hOk : (snatIPAddressAllocationTask.Ensure (storeContext h) spec state conn).result =
      .ok action) :
    allocationSettled (snatIPAddressAllocationTask.Ensure (storeContext h) spec state conn).state
      (snatIPAddressAllocationTask.Ensure (storeContext h) spec state conn).conn.world := by
  cases hRef : state.SNATIPAddressAllocRef with
  | none =>
    have hUnfold : snatIPAddressAllocationTask.Ensure (storeContext h) spec state conn =
        snatIPAddressAllocationTask.create (storeContext h)
          (snatIPAddressAllocationTask.desired h spec) state conn := by
      simp [snatIPAddressAllocationTask.Ensure, storeContext, hRef]
    rw [hUnfold] at hOk ⊢
    exact allocation_create_settles h spec state conn action hOk
  | some ref =>
    cases hPool : state.SNATIPPoolRef with
    | none => simp [snatIPAddressAllocationTask.Ensure, hRef, hPool] at hOk
    | some pool =>
      rcases hGet : Store.get conn.world.ipAllocations (pool.ID, ref.ID) ref.ID conn.world
        with ⟨answer, w1⟩
      have hW : w1 = conn.world := by
        have hSame := store_get_world conn.world.ipAllocations (pool.ID, ref.ID) ref.ID
          conn.world
        rw [hGet] at hSame
        exact hSame
      subst hW
      cases answer with
      | ok obj =>
        have hAny := store_get_ok _ _ _ _ _ _ hGet
        have hUnfold : snatIPAddressAllocationTask.Ensure (storeContext h) spec state conn =
            { result := .ok actionUnchanged, state := state
              conn := { world := conn.world
                        calls := conn.calls ++ [.ipAllocationsGet pool.ID ref.ID] } } := by
          simp [snatIPAddressAllocationTask.Ensure, storeContext, hRef, hPool, Conn.invoke, hGet]
        rw [hUnfold]
        exact ⟨pool, ref, obj, hPool, hRef, hAny⟩
      | error err =>
        obtain ⟨hErr, -⟩ := store_get_error _ _ _ _ _ _ hGet
        have hUnfold : snatIPAddressAllocationTask.Ensure (storeContext h) spec state conn =
            snatIPAddressAllocationTask.create (storeContext h)
              (snatIPAddressAllocationTask.desired h spec) state
              { world := conn.world
                calls := conn.calls ++ [.ipAllocationsGet pool.ID ref.ID] } := by
          simp [snatIPAddressAllocationTask.Ensure, storeContext, hRef, hPool, Conn.invoke, hGet,
            hErr]
        rw [hUnfold] at hOk ⊢
        exact allocation_create_settles h spec state _ action hOk

/-- On the store a lookup over the single page repeats itself: a second
`Ensure` finds the same Reference. -/
theorem single_lookup_repeats (nicer : ApiError → ApiError)
    (setRef : NSXTInfraState → Reference → NSXTInfraState)
    (hSet : ∀ state ref, setRef (setRef state ref) ref = setRef state ref)
    (name : String) (items : Store → List PolicyResource) (call : Call)
    (hCall : call.isWrite = false)
    (state : NSXTInfraState) (conn : Conn Store) (action : Action)
    (hOk : (singleLookup (conn.invoke call (.ok (Store.page (items conn.world)), conn.world))
      nicer setRef name state).result = .ok action) :
    Repeats actionFound
      (singleLookup (conn.invoke call (.ok (Store.page (items conn.world)), conn.world)) nicer
        setRef name state)
      (singleLookup
        ((singleLookup (conn.invoke call (.ok (Store.page (items conn.world)), conn.world))
          nicer setRef name state).conn.invoke call
          (.ok (Store.page (items
              (singleLookup (conn.invoke call (.ok (Store.page (items conn.world)), conn.world))
                nicer setRef name state).conn.world)),
            (singleLookup (conn.invoke call (.ok (Store.page (items conn.world)), conn.world))
              nicer setRef name state).conn.world))
        nicer setRef name
        (singleLookup (conn.invoke call (.ok (Store.page (items conn.world)), conn.world)) nicer
          setRef name state).state) := by
  cases hScan : scanItems name (items conn.world) with
  | found ref =>
    simp only [singleLookup, Conn.invoke, Store.page, hScan]
    exact ⟨rfl, hSet state ref, call, rfl, hCall⟩
  | absent => simp [singleLookup, Conn.invoke, Store.page, hScan] at hOk
  | panic => simp [singleLookup, Conn.invoke, Store.page, hScan] at hOk

/-- On the store a paginated lookup repeats itself: a second `Ensure` finds the
same Reference on the one page. -/
theorem paged_lookup_repeats (nicer : ApiError → ApiError)
    (setRef : NSXTInfraState → Reference → NSXTInfraState)
    (hSet : ∀ state ref, setRef (setRef state ref) ref = setRef state ref)
    (name : String) (items : Store → List PolicyResource) (mkCall : Option String → Call)
    (hCall : (mkCall none).isWrite = false)
    (state : NSXTInfraState) (conn : Conn Store) (fuel : Nat) (run : Run Store Action)
    (action : Action)
    (hRun : pagedLookup (fun w _ => (.ok (Store.page (items w)), w)) mkCall nicer setRef name
      fuel none 0 0 state conn = some run)
    (hOk : run.result = .ok action) (fuel2 : Nat) :
    ∃ run2, pagedLookup (fun w _ => (.ok (Store.page (items w)), w)) mkCall nicer setRef name
      (fuel2 + 1) none 0 0 run.state run.conn = some run2 ∧ Repeats actionFound run run2 := by
  cases fuel with
  | zero => simp [pagedLookup] at hRun
  | succ n =>
    cases hScan : scanItems name (items conn.world) with
    | found ref =>
      simp [pagedLookup, Conn.invoke, Store.page, hScan] at hRun
      subst hRun
      refine ⟨{ result := .ok actionFound, state := setRef state ref
                conn := { world := conn.world
                          calls := conn.calls ++ [mkCall none] ++ [mkCall none] } },
        ?_, rfl, rfl, mkCall none, rfl, hCall⟩
      simp [pagedLookup, Conn.invoke, Store.page, hScan, hSet]
    | absent =>
      simp [pagedLookup, Conn.invoke, Store.page, hScan] at hRun
      subst hRun
      simp at hOk
    | panic =>
      simp [pagedLookup, Conn.invoke, Store.page, hScan] at hRun
      subst hRun
      simp at hOk

/-- On the store a second realization yields the same address. -/
theorem realization_repeats (h : Helpers) (spec : NSXTInfraSpec) (state : NSXTInfraState)
    (conn : Conn Store) (action : Action)
    (hOk : (snatIPAddressRealizationTask.Ensure (storeContext h) spec state conn).result =
      .ok action) :
    Repeats actionFound (snatIPAddressRealizationTask.Ensure (storeContext h) spec state conn)
      (snatIPAddressRealizationTask.Ensure (storeContext h) spec
        (snatIPAddressRealizationTask.Ensure (storeContext h) spec state conn).state
        (snatIPAddressRealizationTask.Ensure (storeContext h) spec state conn).conn) := by
  cases hRef : state.SNATIPAddressAllocRef with
  | none => simp [snatIPAddressRealizationTask.Ensure, hRef] at hOk
  | some alloc =>
    by_cases hStored : conn.world.ipAllocations.any
        (fun entry => decide (entry.2.Path = some alloc.Path)) = true
    · simp only [snatIPAddressRealizationTask.Ensure, storeContext, hRef, Conn.invoke, hStored,
        if_true]
      exact ⟨rfl, rfl, .realizedIPAddress alloc.Path, rfl, rfl⟩
    · simp [snatIPAddressRealizationTask.Ensure, storeContext, hRef, Conn.invoke, hStored] at hOk

/-- C1 (idempotency), as amended. Against the storing catalogue, with helpers whose tag
comparison accepts the desired tags against themselves: after a successful `Ensure`
of the tier-1 gateway, locale-service, segment, SNAT allocation or SNAT rule task, a
second `Ensure` with the same spec on the resulting state and catalogue returns
`Unchanged`, leaves the state as it is and issues one call that writes nothing; after
a successful `Ensure` of one of the four lookups or of the SNAT realization, the
second `Ensure` returns `Found` again, with the same state and one call that writes
nothing. -/
theorem second_ensure_on_storing_catalogue (h : Helpers) (spec : NSXTInfraSpec)
    (hTags : h.equalTags spec.CreateTags spec.CreateTags = true) :
    (∀ fuel state conn run action,
      tier1GatewayTask.Ensure fuel (storeContext h) spec state conn = some run →
      run.result = .ok action →
      ∀ fuel2, ∃ run2,
        tier1GatewayTask.Ensure (fuel2 + 1) (storeContext h) spec run.state run.conn =
          some run2 ∧ Repeats actionUnchanged run run2) ∧
    (∀ fuel state conn run action,
      tier1GatewayLocaleServiceTask.Ensure fuel (storeContext h) spec state conn = some run →
      run.result = .ok action →
      ∀ fuel2, ∃ run2,
        tier1GatewayLocaleServiceTask.Ensure (fuel2 + 1) (storeContext h) spec run.state
          run.conn = some run2 ∧ Repeats actionUnchanged run run2) ∧
    (∀ fuel state conn run action,
      segmentTask.Ensure fuel (storeContext h) spec state conn = some run →
      run.result = .ok action →
      ∀ fuel2, ∃ run2,
        segmentTask.Ensure (fuel2 + 1) (storeContext h) spec run.state run.conn = some run2 ∧
          Repeats actionUnchanged run run2) ∧
    (∀ state conn action,
      (snatIPAddressAllocationTask.Ensure (storeContext h) spec state conn).result =
        .ok action →
      Repeats actionUnchanged
        (snatIPAddressAllocationTask.Ensure (storeContext h) spec state conn)
        (snatIPAddressAllocationTask.Ensure (storeContext h) spec
          (snatIPAddressAllocationTask.Ensure (storeContext h) spec state conn).state
          (snatIPAddressAllocationTask.Ensure (storeContext h) spec state conn).conn)) ∧
    (∀ fuel state conn run action,
      snatRuleTask.Ensure fuel (storeContext h) spec state conn = some run →
      run.result = .ok action →
      ∀ fuel2, ∃ run2,
        snatRuleTask.Ensure (fuel2 + 1) (storeContext h) spec run.state run.conn = some run2 ∧
          Repeats actionUnchanged run run2) ∧
    (∀ fuel state conn run action,
      lookupTier0GatewayTask.Ensure fuel (storeContext h) spec state conn = some run →
      run.result = .ok action →
      ∀ fuel2, ∃ run2,
        lookupTier0GatewayTask.Ensure (fuel2 + 1) (storeContext h) spec run.state run.conn =
          some run2 ∧ Repeats actionFound run run2) ∧
    (∀ state conn action,
      (lookupEdgeClusterTask.Ensure (storeContext h) spec state conn).result = .ok action →
      Repeats actionFound (lookupEdgeClusterTask.Ensure (storeContext h) spec state conn)
        (lookupEdgeClusterTask.Ensure (storeContext h) spec
          (lookupEdgeClusterTask.Ensure (storeContext h) spec state conn).state
          (lookupEdgeClusterTask.Ensure (storeContext h) spec state conn).conn)) ∧
    (∀ state conn action,
      (lookupTransportZoneTask.Ensure (storeContext h) spec state conn).result = .ok action →
      Repeats actionFound (lookupTransportZoneTask.Ensure (storeContext h) spec state conn)
        (lookupTransportZoneTask.Ensure (storeContext h) spec
          (lookupTransportZoneTask.Ensure (storeContext h) spec state conn).state
          (lookupTransportZoneTask.Ensure (storeContext h) spec state conn).conn)) ∧
    (∀ fuel state conn run action,
      lookupSNATIPPoolTask.Ensure fuel (storeContext h) spec state conn = some run →
      run.result = .ok action →
      ∀ fuel2, ∃ run2,
        lookupSNATIPPoolTask.Ensure (fuel2 + 1) (storeContext h) spec run.state run.conn =
          some run2 ∧ Repeats actionFound run run2) ∧
    (∀ state conn action,
      (snatIPAddressRealizationTask.Ensure (storeContext h) spec state conn).result =
        .ok action →
      Repeats actionFound
        (snatIPAddressRealizationTask.Ensure (storeContext h) spec state conn)
        (snatIPAddressRealizationTask.Ensure (storeContext h) spec
          (snatIPAddressRealizationTask.Ensure (storeContext h) spec state conn).state
          (snatIPAddressRealizationTask.Ensure (storeContext h) spec state conn).conn)) := by
  refine ⟨?_, ?_, ?_, ?_, ?_, ?_, ?_, ?_, ?_, ?_⟩
  · intro fuel state conn run action hRun hOk fuel2
    exact tier1_settled_repeats h spec run
      (tier1_ensure_settles h spec hTags state conn fuel run action hRun hOk) fuel2
  · intro fuel state conn run action hRun hOk fuel2
    exact locale_service_settled_repeats h spec run
      (locale_service_ensure_settles h spec hTags state conn fuel run action hRun hOk) fuel2
  · intro fuel state conn run action hRun hOk fuel2
    exact segment_settled_repeats h spec run
      (segment_ensure_settles h spec hTags state conn fuel run action hRun hOk) fuel2
  · intro state conn action hOk
    exact allocation_settled_repeats h spec _
      (allocation_ensure_settles h spec state conn action hOk)
  · intro fuel state conn run action hRun hOk fuel2
    exact snat_rule_settled_repeats h spec run
      (snat_rule_ensure_settles h spec hTags state conn fuel run action hRun hOk) fuel2
  · intro fuel state conn run action hRun hOk fuel2
    exact paged_lookup_repeats h.nicerVAPIError
      (fun st ref => { st with Tier0GatewayRef := some ref }) (fun _ _ => rfl)
      spec.Tier0GatewayName
      (fun w => w.tier0s) Call.tier0sList rfl state conn fuel run action hRun hOk fuel2
  · intro state conn action hOk
    exact single_lookup_repeats h.nicerVAPIError
      (fun st ref => { st with EdgeClusterRef := some ref }) (fun _ _ => rfl)
      spec.EdgeClusterName
      (fun w => w.edgeClusters) (.edgeClustersList h.defaultSite h.policyEnforcementPoint) rfl
      state conn action hOk
  · intro state conn action hOk
    exact single_lookup_repeats h.nicerVAPIError
      (fun st ref => { st with TransportZoneRef := some ref }) (fun _ _ => rfl)
      spec.TransportZoneName
      (fun w => w.transportZones) (.transportZonesList h.defaultSite h.policyEnforcementPoint) rfl
      state conn action hOk
  · intro fuel state conn run action hRun hOk fuel2
    exact paged_lookup_repeats h.nicerVAPIError
      (fun st ref => { st with SNATIPPoolRef := some ref }) (fun _ _ => rfl)
      spec.SNATIPPoolName
      (fun w => w.ipPools) Call.ipPoolsList rfl state conn fuel run action hRun hOk fuel2
  · intro state conn action hOk
    exact realization_repeats h spec state conn action hOk

/-- Witness for C1: on the store the tier-1 gateway task re-creates the gateway of the
stale state, and the second `Ensure` returns `Unchanged`. -/
theorem second_ensure_on_storing_catalogue_witness :
    ∃ run run2,
      tier1GatewayTask.Ensure 2 (storeContext sampleHelpers) sampleSpec staleState sampleConn =
        some run ∧ run.result = .ok actionCreated ∧
      tier1GatewayTask.Ensure 1 (storeContext sampleHelpers) sampleSpec run.state run.conn =
        some run2 ∧ Repeats actionUnchanged run run2 := by
  obtain ⟨run, hRun⟩ : ∃ run, tier1GatewayTask.Ensure 2 (storeContext sampleHelpers) sampleSpec
      staleState sampleConn = some run := ⟨_, rfl⟩
  have hOk : run.result = .ok actionCreated := by
    have hFirst : (tier1GatewayTask.Ensure 2 (storeContext sampleHelpers) sampleSpec staleState
        sampleConn).map (fun r => r.result) = some (.ok actionCreated) := by decide
    rw [hRun] at hFirst
    simpa using hFirst
  obtain ⟨run2, hRun2, hRepeats⟩ :=
    (second_ensure_on_storing_catalogue sampleHelpers sampleSpec (by decide)).1 2 staleState
      sampleConn run actionCreated hRun hOk 0
  exact ⟨run, run2, hRun, hOk, hRun2, hRepeats⟩

/-- C1 as stated fails for the lookups and the realization: against the storing
catalogue the edge-cluster lookup, the tier-0 lookup and the SNAT realization
succeed, and a second `Ensure` on the resulting state returns `Found`, not
`Unchanged`. -/
theorem second_lookup_returns_found_again :
    (lookupEdgeClusterTask.Ensure (storeContext sampleHelpers) sampleSpec emptyState
        sampleConn).result = .ok actionFound ∧
    (lookupEdgeClusterTask.Ensure (storeContext sampleHelpers) sampleSpec
        (lookupEdgeClusterTask.Ensure (storeContext sampleHelpers) sampleSpec emptyState
          sampleConn).state
        (lookupEdgeClusterTask.Ensure (storeContext sampleHelpers) sampleSpec emptyState
          sampleConn).conn).result = .ok actionFound ∧
    ((lookupTier0GatewayTask.Ensure 1 (storeContext sampleHelpers) sampleSpec emptyState
        sampleConn).bind (fun run =>
          lookupTier0GatewayTask.Ensure 1 (storeContext sampleHelpers) sampleSpec run.state
            run.conn)).map (fun run2 => run2.result) = some (.ok actionFound) ∧
    (snatIPAddressRealizationTask.Ensure (storeContext sampleHelpers) sampleSpec
        (snatIPAddressAllocationTask.Ensure (storeContext sampleHelpers) sampleSpec staleState
          sampleConn).state
        (snatIPAddressAllocationTask.Ensure (storeContext sampleHelpers) sampleSpec staleState
          sampleConn).conn).result = .ok actionFound ∧
    (snatIPAddressRealizationTask.Ensure (storeContext sampleHelpers) sampleSpec
        (snatIPAddressRealizationTask.Ensure (storeContext sampleHelpers) sampleSpec
          (snatIPAddressAllocationTask.Ensure (storeContext sampleHelpers) sampleSpec staleState
            sampleConn).state
          (snatIPAddressAllocationTask.Ensure (storeContext sampleHelpers) sampleSpec staleState
            sampleConn).conn).state
        (snatIPAddressRealizationTask.Ensure (storeContext sampleHelpers) sampleSpec
          (snatIPAddressAllocationTask.Ensure (storeContext sampleHelpers) sampleSpec staleState
            sampleConn).state
          (snatIPAddressAllocationTask.Ensure (storeContext sampleHelpers) sampleSpec staleState
            sampleConn).conn).conn).result = .ok actionFound := by
  refine ⟨by decide, by decide, by decide, by decide, by decide⟩

/-- C2 (self-heal). For the tier-1 gateway, segment, SNAT address allocation and SNAT
rule tasks: when the task's own Reference is set, `Get` answers not-found and the
create-or-replace call that follows succeeds, `Ensure` returns `Created`, has issued
the `Get` and exactly one `Update` and no `Patch`, needs at most one self-call (two
units of fuel), and leaves the Reference equal to the ID and Path of the created
object; the segment task also sets `SegmentName` to the created display name. -/
theorem self_heal_recreates {σ : Type} (ctx : EnsurerContext σ) (spec : NSXTInfraSpec)
    (state : NSXTInfraState) (conn : Conn σ) :
    (∀ (ref tier0 : Reference) (err : ApiError) (w1 w2 w3 : σ) (id cid cpath : String)
        (created : Tier1),
      state.Tier1GatewayRef = some ref → state.Tier0GatewayRef = some tier0 →
      ctx.tier1sGet conn.world ref.ID = (.error err, w1) → isNotFoundError err = true →
      ctx.generateID w1 "tier1gw" = (id, w2) →
      ctx.tier1sUpdate w2 id (tier1GatewayTask.desired ctx.toHelpers spec tier0.Path) =
        (.ok created, w3) →
      created.Id = some cid → created.Path = some cpath →
      ∀ fuel, tier1GatewayTask.Ensure (fuel + 2) ctx spec state conn =
        some { result := .ok actionCreated
               state := { state with Tier1GatewayRef := some { ID := cid, Path := cpath } }
               conn := { world := w3
                         calls := conn.calls ++ [.tier1sGet ref.ID,
                           .tier1sUpdate id
                             (tier1GatewayTask.desired ctx.toHelpers spec tier0.Path)] } }) ∧
    (∀ (ref tier1 zone : Reference) (gatewayAddr suffix0 suffix : String) (err : ApiError)
        (w0 w1 w2 w3 w4 : σ) (id cid cpath : String) (created : Segment),
      state.SegmentRef = some ref → state.Tier1GatewayRef = some tier1 →
      state.TransportZoneRef = some zone →
      ctx.cidrHostAndPrefix spec.WorkersNetwork 1 = .ok gatewayAddr →
      ctx.RandomString conn.world 8 = (suffix0, w0) →
      ctx.segmentsGet w0 ref.ID = (.error err, w1) → isNotFoundError err = true →
      ctx.RandomString w1 8 = (suffix, w2) →
      ctx.generateID w2 "segment" = (id, w3) →
      ctx.segmentsUpdate w3 id (segmentTask.desired ctx.toHelpers spec gatewayAddr
          (spec.FullClusterName ++ "-" ++ suffix) tier1.Path zone.Path) = (.ok created, w4) →
      created.Id = some cid → created.Path = some cpath →
      ∀ fuel, segmentTask.Ensure (fuel + 2) ctx spec state conn =
        some { result := .ok actionCreated
               state := { state with
                          SegmentRef := some { ID := cid, Path := cpath }
                          SegmentName := created.DisplayName }
               conn := { world := w4
                         calls := conn.calls ++ [.segmentsGet ref.ID,
                           .segmentsUpdate id (segmentTask.desired ctx.toHelpers spec gatewayAddr
                             (spec.FullClusterName ++ "-" ++ suffix) tier1.Path zone.Path)] } }) ∧
    (∀ (ref pool : Reference) (err : ApiError) (w1 w2 w3 : σ) (id cid cpath : String)
        (created : IpAddressAllocation),
      state.SNATIPAddressAllocRef = some ref → state.SNATIPPoolRef = some pool →
      ctx.ipAllocationsGet conn.world pool.ID ref.ID = (.error err, w1) →
      isNotFoundError err = true →
      ctx.generateID w1 "snatippool" = (id, w2) →
      ctx.ipAllocationsUpdate w2 pool.ID id
        (snatIPAddressAllocationTask.desired ctx.toHelpers spec) = (.ok created, w3) →
      created.Id = some cid → created.Path = some cpath →
      snatIPAddressAllocationTask.Ensure ctx spec state conn =
        { result := .ok actionCreated
          state := { state with SNATIPAddressAllocRef := some { ID := cid, Path := cpath } }
          conn := { world := w3
                    calls := conn.calls ++ [.ipAllocationsGet pool.ID ref.ID,
                      .ipAllocationsUpdate pool.ID id
                        (snatIPAddressAllocationTask.desired ctx.toHelpers spec)] } }) ∧
    (∀ (ref tier1 : Reference) (address : String) (err : ApiError) (w1 w2 w3 : σ)
        (id cid cpath : String) (created : PolicyNatRule),
      state.SNATRuleRef = some ref → state.Tier1GatewayRef = some tier1 →
      state.SNATIPAddress = some address →
      ctx.natRulesGet conn.world tier1.ID PolicyNat_NAT_TYPE_USER ref.ID = (.error err, w1) →
      isNotFoundError err = true →
      ctx.generateID w1 "snatrule" = (id, w2) →
      ctx.natRulesUpdate w2 tier1.ID PolicyNat_NAT_TYPE_USER id
        (snatRuleTask.desired ctx.toHelpers spec address) = (.ok created, w3) →
      created.Id = some cid → created.Path = some cpath →
      ∀ fuel, snatRuleTask.Ensure (fuel + 2) ctx spec state conn =
        some { result := .ok actionCreated
               state := { state with SNATRuleRef := some { ID := cid, Path := cpath } }
               conn := { world := w3
                         calls := conn.calls ++ [.natRulesGet tier1.ID PolicyNat_NAT_TYPE_USER ref.ID,
                           .natRulesUpdate tier1.ID PolicyNat_NAT_TYPE_USER id
                             (snatRuleTask.desired ctx.toHelpers spec address)] } }) := by
  refine ⟨?_, ?_, ?_, ?_⟩
  · intro ref tier0 err w1 w2 w3 id cid cpath created hRef hT0 hGet hNF hId hUpd hCid hPath fuel
    simp [tier1GatewayTask.Ensure, hRef, hT0, Conn.invoke, Conn.draw, hGet, hNF, hId, hUpd,
      hCid, hPath]
  · intro ref tier1 zone gatewayAddr suffix0 suffix err w0 w1 w2 w3 w4 id cid cpath created
      hRef hT1 hTZ hCidr hR0 hGet hNF hR hId hUpd hCid hPath fuel
    simp [segmentTask.Ensure, hRef, hT1, hTZ, hCidr, hR0, Conn.invoke, Conn.draw, hGet, hNF, hR,
      hId, hUpd, hCid, hPath]
  · intro ref pool err w1 w2 w3 id cid cpath created hRef hPool hGet hNF hId hUpd hCid hPath
    simp [snatIPAddressAllocationTask.Ensure, snatIPAddressAllocationTask.create, hRef, hPool,
      Conn.invoke, Conn.draw, hGet, hNF, hId, hUpd, hCid, hPath]
  · intro ref tier1 address err w1 w2 w3 id cid cpath created hRef hT1 hAddr hGet hNF hId hUpd
      hCid hPath fuel
    simp [snatRuleTask.Ensure, hRef, hT1, hAddr, Conn.invoke, Conn.draw, hGet, hNF, hId, hUpd,
      hCid, hPath]

/-- Witness for C2: against the storing catalogue, which holds none of the objects the
stale state points at, each of the four tasks re-creates its object and returns
`Created` with the new Reference. -/
theorem self_heal_recreates_witness :
    (tier1GatewayTask.Ensure 2 (storeContext sampleHelpers) sampleSpec staleState sampleConn).map
        (fun run => (run.result, run.state.Tier1GatewayRef)) =
      some (.ok actionCreated,
        some { ID := "tier1gw-aaaaaaaa", Path := "/infra/tier-1s/tier1gw-aaaaaaaa" }) ∧
    (segmentTask.Ensure 2 (storeContext sampleHelpers) sampleSpec staleState sampleConn).map
        (fun run => (run.result, run.state.SegmentRef, run.state.SegmentName)) =
      some (.ok actionCreated,
        some { ID := "segment-cccccccc", Path := "/infra/segments/segment-cccccccc" },
        some "shoot--foo--bar-bbbbbbbb") ∧
    ((snatIPAddressAllocationTask.Ensure (storeContext sampleHelpers) sampleSpec staleState
        sampleConn).result,
      (snatIPAddressAllocationTask.Ensure (storeContext sampleHelpers) sampleSpec staleState
        sampleConn).state.SNATIPAddressAllocRef) =
      (.ok actionCreated,
        some { ID := "snatippool-aaaaaaaa"
               Path := "/infra/ip-pools/pool/ip-allocations/snatippool-aaaaaaaa" }) ∧
    (snatRuleTask.Ensure 2 (storeContext sampleHelpers) sampleSpec staleState sampleConn).map
        (fun run => (run.result, run.state.SNATRuleRef)) =
      some (.ok actionCreated,
        some { ID := "snatrule-aaaaaaaa"
               Path := "/infra/tier-1s/gw/nat/USER/nat-rules/snatrule-aaaaaaaa" }) := by
  have h := self_heal_recreates (storeContext sampleHelpers) sampleSpec staleState sampleConn
  refine ⟨?_, ?_, ?_, ?_⟩
  · rw [h.1 _ _ _ _ _ _ _ _ _ _ rfl rfl rfl rfl rfl rfl rfl rfl 0]
    rfl
  · rw [h.2.1 _ _ _ _ _ _ _ _ _ _ _ _ _ _ _ _ rfl rfl rfl rfl rfl rfl rfl rfl rfl rfl rfl rfl 0]
    rfl
  · rw [h.2.2.1 _ _ _ _ _ _ _ _ _ _ rfl rfl rfl rfl rfl rfl rfl rfl]
    rfl
  · rw [h.2.2.2 _ _ _ _ _ _ _ _ _ _ _ rfl rfl rfl rfl rfl rfl rfl rfl rfl 0]
    rfl

/-- C3 (locale-service self-heal), what the code does: with `LocaleServiceRef` set and
a catalogue that answers not-found to the locale-service `Get`, one step of `Ensure`
clears `Tier1GatewayRef` (not `LocaleServiceRef`) and calls itself on a state that
still holds the stale `LocaleServiceRef`; so no amount of fuel makes it return. -/
theorem locale_service_stale_reference_never_returns {σ : Type} (ctx : EnsurerContext σ)
    (spec : NSXTInfraSpec) (state : NSXTInfraState) (conn : Conn σ) (ref edge : Reference)
    (hRef : state.LocaleServiceRef = some ref) (hEdge : state.EdgeClusterRef = some edge)
    (hGone : ∀ w, ∃ err w1,
      ctx.localeServicesGet w ref.ID ctx.defaultPolicyLocaleServiceID = (.error err, w1) ∧
      isNotFoundError err = true) :
    (∀ fuel err w1,
      ctx.localeServicesGet conn.world ref.ID ctx.defaultPolicyLocaleServiceID =
        (.error err, w1) →
      tier1GatewayLocaleServiceTask.Ensure (fuel + 1) ctx spec state conn =
        tier1GatewayLocaleServiceTask.Ensure fuel ctx spec
          { state with Tier1GatewayRef := none }
          { world := w1
            calls := conn.calls ++
              [.localeServicesGet ref.ID ctx.defaultPolicyLocaleServiceID] }) ∧
    (∀ fuel, tier1GatewayLocaleServiceTask.Ensure fuel ctx spec state conn = none) := by
  constructor
  · intro fuel err w1 hGet
    obtain ⟨err0, w0, hGet0, hNF⟩ := hGone conn.world
    rw [hGet] at hGet0
    cases hGet0
    simp [tier1GatewayLocaleServiceTask.Ensure, hRef, hEdge, Conn.invoke, hGet, hNF]
  · intro fuel
    induction fuel generalizing state conn with
    | zero => simp [tier1GatewayLocaleServiceTask.Ensure]
    | succ n ih =>
      obtain ⟨err, w1, hGet, hNF⟩ := hGone conn.world
      simp only [tier1GatewayLocaleServiceTask.Ensure, hRef, hEdge, Conn.invoke, hGet, hNF]
      exact ih _ _ rfl rfl

/-- Witness for C3: with the stale state and a catalogue from which the locale service
is gone, `Ensure` of the locale-service task returns for no fuel. -/
theorem locale_service_stale_reference_never_returns_witness :
    ¬ ∃ fuel, (tier1GatewayLocaleServiceTask.Ensure fuel localeServiceGoneContext sampleSpec
      staleState stubConn).isSome = true := by
  rintro ⟨fuel, h⟩
  rw [(locale_service_stale_reference_never_returns localeServiceGoneContext sampleSpec
    staleState stubConn _ _ rfl rfl (fun w => ⟨_, w, rfl, rfl⟩)).2 fuel] at h
  exact absurd h (by decide)

/-- C4 (lookup first match). Tier-0 gateway and SNAT pool, over pages linked by
cursors: when the catalogue serves the pages `before` and then `last`, no item of
`before` has the desired name, `last` lists an item with the desired name (its first
such item, with ID and Path), every page of `before` carries a cursor and the
cumulative count stays below the total reported by the first page on all of
`before`, then `Ensure` returns `Found`, sets its Reference to the ID and Path of that
item, and has issued one `List` per page up to `last` and none after it. Edge cluster
and transport zone, over the single page listed: the first item with the desired
name gives the Reference, after the one `List` call. -/
theorem lookup_first_match {σ : Type} (ctx : EnsurerContext σ) (spec : NSXTInfraSpec)
    (state : NSXTInfraState) (conn : Conn σ) :
    (∀ (before : List ListResult) (last : ListResult) (total : Int) (w1 : σ)
        (earlier later : List PolicyResource) (item : PolicyResource) (id path : String),
      Serves ctx.tier0sList conn.world none (before ++ [last]) w1 →
      (∀ page ∈ before, ∀ other ∈ page.Results, ∃ displayName,
        other.DisplayName = some displayName ∧ displayName ≠ spec.Tier0GatewayName) →
      last.Results = earlier ++ item :: later →
      (∀ other ∈ earlier, ∃ displayName,
        other.DisplayName = some displayName ∧ displayName ≠ spec.Tier0GatewayName) →
      item.DisplayName = some spec.Tier0GatewayName →
      item.Id = some id → item.Path = some path →
      (∀ first ∈ before.head?, first.ResultCount = some total) →
      (∀ page ∈ before, page.Cursor ≠ none) →
      (∀ k, 0 < k → k ≤ before.length → listed (before.take k) < total) →
      ∀ fuel, lookupTier0GatewayTask.Ensure (fuel + (before.length + 1)) ctx spec state conn =
        some { result := .ok actionFound
               state := { state with Tier0GatewayRef := some { ID := id, Path := path } }
               conn := { world := w1
                         calls := conn.calls ++
                           (requests none (before ++ [last])).map Call.tier0sList } }) ∧
    (∀ (before : List ListResult) (last : ListResult) (total : Int) (w1 : σ)
        (earlier later : List PolicyResource) (item : PolicyResource) (id path : String),
      Serves ctx.ipPoolsList conn.world none (before ++ [last]) w1 →
      (∀ page ∈ before, ∀ other ∈ page.Results, ∃ displayName,
        other.DisplayName = some displayName ∧ displayName ≠ spec.SNATIPPoolName) →
      last.Results = earlier ++ item :: later →
      (∀ other ∈ earlier, ∃ displayName,
        other.DisplayName = some displayName ∧ displayName ≠ spec.SNATIPPoolName) →
      item.DisplayName = some spec.SNATIPPoolName →
      item.Id = some id → item.Path = some path →
      (∀ first ∈ before.head?, first.ResultCount = some total) →
      (∀ page ∈ before, page.Cursor ≠ none) →
      (∀ k, 0 < k → k ≤ before.length → listed (before.take k) < total) →
      ∀ fuel, lookupSNATIPPoolTask.Ensure (fuel + (before.length + 1)) ctx spec state conn =
        some { result := .ok actionFound
               state := { state with SNATIPPoolRef := some { ID := id, Path := path } }
               conn := { world := w1
                         calls := conn.calls ++
                           (requests none (before ++ [last])).map Call.ipPoolsList } }) ∧
    (∀ (page : ListResult) (w1 : σ) (earlier later : List PolicyResource)
        (item : PolicyResource) (id path : String),
      ctx.edgeClustersList conn.world ctx.defaultSite ctx.policyEnforcementPoint =
        (.ok page, w1) →
      page.Results = earlier ++ item :: later →
      (∀ other ∈ earlier, ∃ displayName,
        other.DisplayName = some displayName ∧ displayName ≠ spec.EdgeClusterName) →
      item.DisplayName = some spec.EdgeClusterName →
      item.Id = some id → item.Path = some path →
      lookupEdgeClusterTask.Ensure ctx spec state conn =
        { result := .ok actionFound
          state := { state with EdgeClusterRef := some { ID := id, Path := path } }
          conn := { world := w1
                    calls := conn.calls ++
                      [.edgeClustersList ctx.defaultSite ctx.policyEnforcementPoint] } }) ∧
    (∀ (page : ListResult) (w1 : σ) (earlier later : List PolicyResource)
        (item : PolicyResource) (id path : String),
      ctx.transportZonesList conn.world ctx.defaultSite ctx.policyEnforcementPoint =
        (.ok page, w1) →
      page.Results = earlier ++ item :: later →
      (∀ other ∈ earlier, ∃ displayName,
        other.DisplayName = some displayName ∧ displayName ≠ spec.TransportZoneName) →
      item.DisplayName = some spec.TransportZoneName →
      item.Id = some id → item.Path = some path →
      lookupTransportZoneTask.Ensure ctx spec state conn =
        { result := .ok actionFound
          state := { state with TransportZoneRef := some { ID := id, Path := path } }
          conn := { world := w1
                    calls := conn.calls ++
                      [.transportZonesList ctx.defaultSite ctx.policyEnforcementPoint] } }) := by
  refine ⟨?_, ?_, ?_, ?_⟩
  · intro before last total w1 earlier later item id path hServes hBefore hLast hEarlier hName
      hId hPath hTotal hLinked hBelow fuel
    have hFound : scanItems spec.Tier0GatewayName last.Results = .found { ID := id, Path := path } := by
      rw [hLast]
      exact scanItems_found _ id path earlier later item hEarlier hName hId hPath
    exact pagedLookup_found ctx.tier0sList Call.tier0sList ctx.nicerVAPIError _ _ _ last state w1
      fuel hFound before none 0 0 conn.world conn.calls hServes
      (fun page hp => (scanItems_absent_iff _ _).2 (hBefore page hp))
      (continues_from_start total before hTotal hLinked hBelow)
  · intro before last total w1 earlier later item id path hServes hBefore hLast hEarlier hName
      hId hPath hTotal hLinked hBelow fuel
    have hFound : scanItems spec.SNATIPPoolName last.Results = .found { ID := id, Path := path } := by
      rw [hLast]
      exact scanItems_found _ id path earlier later item hEarlier hName hId hPath
    exact pagedLookup_found ctx.ipPoolsList Call.ipPoolsList ctx.nicerVAPIError _ _ _ last state w1
      fuel hFound before none 0 0 conn.world conn.calls hServes
      (fun page hp => (scanItems_absent_iff _ _).2 (hBefore page hp))
      (continues_from_start total before hTotal hLinked hBelow)
  · intro page w1 earlier later item id path hList hResults hEarlier hName hId hPath
    have hFound := scanItems_found _ id path earlier later item hEarlier hName hId hPath
    simp [lookupEdgeClusterTask.Ensure, singleLookup, Conn.invoke, hList, hResults, hFound]
  · intro page w1 earlier later item id path hList hResults hEarlier hName hId hPath
    have hFound := scanItems_found _ id path earlier later item hEarlier hName hId hPath
    simp [lookupTransportZoneTask.Ensure, singleLookup, Conn.invoke, hList, hResults, hFound]
/-- Witness for C4: on three linked pages the tier-0 lookup finds its gateway on the
second page after two `List` calls, the SNAT-pool lookup finds its pool on the third
after three; on the store the edge-cluster and transport-zone lookups find theirs. -/
theorem lookup_first_match_witness :
    (lookupTier0GatewayTask.Ensure 2 (pagesContext linkedPages) sampleSpec emptyState
        { world := 0, calls := [] }).map
        (fun run => (run.result, run.state.Tier0GatewayRef, run.conn.calls)) =
      some (.ok actionFound, some { ID := "4", Path := "/infra/4" },
        [.tier0sList none, .tier0sList (some "c1")]) ∧
    (lookupSNATIPPoolTask.Ensure 3 (pagesContext linkedPages) sampleSpec emptyState
        { world := 0, calls := [] }).map
        (fun run => (run.result, run.state.SNATIPPoolRef, run.conn.calls)) =
      some (.ok actionFound, some { ID := "5", Path := "/infra/5" },
        [.ipPoolsList none, .ipPoolsList (some "c1"), .ipPoolsList (some "c2")]) ∧
    ((lookupEdgeClusterTask.Ensure (storeContext sampleHelpers) sampleSpec emptyState
        sampleConn).result,
     (lookupEdgeClusterTask.Ensure (storeContext sampleHelpers) sampleSpec emptyState
        sampleConn).state.EdgeClusterRef) =
      (.ok actionFound, some { ID := "ec", Path := "/infra/edge-clusters/ec" }) ∧
    ((lookupTransportZoneTask.Ensure (storeContext sampleHelpers) sampleSpec emptyState
        sampleConn).result,
     (lookupTransportZoneTask.Ensure (storeContext sampleHelpers) sampleSpec emptyState
        sampleConn).state.TransportZoneRef) =
      (.ok actionFound, some { ID := "tz", Path := "/infra/transport-zones/tz" }) := by
  have hPages := lookup_first_match (pagesContext linkedPages) sampleSpec emptyState
    { world := 0, calls := [] }
  have hStore := lookup_first_match (storeContext sampleHelpers) sampleSpec emptyState sampleConn
  refine ⟨?_, ?_, ?_, ?_⟩
  · have h := hPages.1 [linkedPages.get ⟨0, by decide⟩] (linkedPages.get ⟨1, by decide⟩) 5 2
      [listedObject "c" "3"] [] (listedObject "tier0" "4") "4" "/infra/4"
      ⟨1, rfl, 2, rfl, rfl⟩ (by decide) rfl (by decide) rfl rfl rfl (by decide) (by decide)
      (fun k hk hle => by
        have hk1 : k = 1 := Nat.le_antisymm hle hk
        subst hk1
        decide) 0
    change lookupTier0GatewayTask.Ensure 2 _ _ _ _ = _ at h
    rw [h]
    rfl
  · have h := hPages.2.1 [linkedPages.get ⟨0, by decide⟩, linkedPages.get ⟨1, by decide⟩]
      (linkedPages.get ⟨2, by decide⟩) 5 3
      [] [] (listedObject "pool" "5") "5" "/infra/5"
      ⟨1, rfl, 2, rfl, 3, rfl, rfl⟩ (by decide) rfl (by decide) rfl rfl rfl (by decide)
      (by decide)
      (fun k hk hle => by
        have hk2 : k ≤ 2 := hle
        interval_cases k <;> decide) 0
    change lookupSNATIPPoolTask.Ensure 3 _ _ _ _ = _ at h
    rw [h]
    rfl
  · rw [hStore.2.2.1 _ _ [] [] _ "ec" "/infra/edge-clusters/ec" rfl rfl (by decide) rfl rfl rfl]
  · rw [hStore.2.2.2 _ _ [] [] _ "tz" "/infra/transport-zones/tz" rfl rfl (by decide) rfl rfl
      rfl]

/-- On the catalogue of empty pages the loop of the tier-0 lookup runs out of
every fuel. -/
theorem empty_pages_never_return (spec : NSXTInfraSpec) (state : NSXTInfraState) :
    ∀ (fuel : Nat) (total count : Int) (calls : List Call), count ≤ 0 →
      pagedLookup emptyPagesContext.tier0sList Call.tier0sList emptyPagesContext.nicerVAPIError
        (fun st ref => { st with Tier0GatewayRef := some ref }) spec.Tier0GatewayName
        fuel none total count state { world := (), calls := calls } = none := by
  intro fuel
  induction fuel with
  | zero => intro total count calls _; rfl
  | succ n ih =>
    intro total count calls hCount
    have hStep : pagedLookup emptyPagesContext.tier0sList Call.tier0sList
        emptyPagesContext.nicerVAPIError
        (fun st ref => { st with Tier0GatewayRef := some ref }) spec.Tier0GatewayName
        (n + 1) none total count state { world := (), calls := calls } =
        pagedLookup emptyPagesContext.tier0sList Call.tier0sList
          emptyPagesContext.nicerVAPIError
          (fun st ref => { st with Tier0GatewayRef := some ref }) spec.Tier0GatewayName
          n none 1 (count + 0) state { world := (), calls := calls ++ [Call.tier0sList none] } :=
      pagedLookup_step _ _ _ _ _ { Results := [], Cursor := none, ResultCount := some 1 } state n
        none total 1 count () () calls rfl rfl rfl (by simp; omega)
    rw [hStep]
    exact ih 1 (count + 0) _ (by omega)

/-- C5 (pagination termination), as amended. Tier-0 gateway and SNAT pool: when the
catalogue serves, cursor after cursor, the pages `before` and then `last`, every
listed item carries a display name other than the desired one, the first page
reports the total, every page of `before` carries a cursor, and the cumulative count
stays below the total on all of `before` and reaches it with `last`, then `Ensure`
returns the error "not found: <name>" after exactly one `List` call per page up to
`last`, and leaves the state unchanged. -/
theorem lookup_not_found_when_count_reaches_total {σ : Type} (ctx : EnsurerContext σ)
    (spec : NSXTInfraSpec) (state : NSXTInfraState) (conn : Conn σ)
    (before : List ListResult) (last : ListResult) (total : Int)
    (hTotal : ∀ first ∈ (before ++ [last]).head?, first.ResultCount = some total)
    (hLinked : ∀ page ∈ before, page.Cursor ≠ none)
    (hBelow : ∀ k, 0 < k → k ≤ before.length → listed (before.take k) < total)
    (hReach : total ≤ listed (before ++ [last])) :
    (∀ w1, Serves ctx.tier0sList conn.world none (before ++ [last]) w1 →
      (∀ page ∈ before ++ [last], ∀ item ∈ page.Results, ∃ displayName,
        item.DisplayName = some displayName ∧ displayName ≠ spec.Tier0GatewayName) →
      ∀ fuel, lookupTier0GatewayTask.Ensure (fuel + (before.length + 1)) ctx spec state conn =
        some { result := .error (.errorf ("not found: " ++ spec.Tier0GatewayName))
               state := state
               conn := { world := w1
                         calls := conn.calls ++
                           (requests none (before ++ [last])).map Call.tier0sList } }) ∧
    (∀ w1, Serves ctx.ipPoolsList conn.world none (before ++ [last]) w1 →
      (∀ page ∈ before ++ [last], ∀ item ∈ page.Results, ∃ displayName,
        item.DisplayName = some displayName ∧ displayName ≠ spec.SNATIPPoolName) →
      ∀ fuel, lookupSNATIPPoolTask.Ensure (fuel + (before.length + 1)) ctx spec state conn =
        some { result := .error (.errorf ("not found: " ++ spec.SNATIPPoolName))
               state := state
               conn := { world := w1
                         calls := conn.calls ++
                           (requests none (before ++ [last])).map Call.ipPoolsList } }) := by
  have hStops := stopsAfter_from_start total before last hTotal hLinked hBelow hReach
  constructor
  · intro w1 hServes hNames fuel
    exact pagedLookup_exhausted ctx.tier0sList Call.tier0sList ctx.nicerVAPIError _ _ last state
      w1 fuel ((scanItems_absent_iff _ _).2 (hNames last (by simp))) before none 0 0 conn.world
      conn.calls hServes
      (fun page hp => (scanItems_absent_iff _ _).2 (hNames page (by simp [hp]))) hStops
  · intro w1 hServes hNames fuel
    exact pagedLookup_exhausted ctx.ipPoolsList Call.ipPoolsList ctx.nicerVAPIError _ _ last state
      w1 fuel ((scanItems_absent_iff _ _).2 (hNames last (by simp))) before none 0 0 conn.world
      conn.calls hServes
      (fun page hp => (scanItems_absent_iff _ _).2 (hNames page (by simp [hp]))) hStops

/-- Witness for C5: on three linked pages that list five objects, none named "missing",
the tier-0 lookup returns "not found: missing" after the third `List` call. -/
theorem lookup_not_found_when_count_reaches_total_witness :
    (lookupTier0GatewayTask.Ensure 3 (pagesContext linkedPages)
        { sampleSpec with Tier0GatewayName := "missing" } emptyState
        { world := 0, calls := [] }).map (fun run => (run.result, run.state, run.conn.calls)) =
      some (.error (.errorf "not found: missing"), emptyState,
        [.tier0sList none, .tier0sList (some "c1"), .tier0sList (some "c2")]) := by
  have h := (lookup_not_found_when_count_reaches_total (pagesContext linkedPages)
    { sampleSpec with Tier0GatewayName := "missing" } emptyState { world := 0, calls := [] }
    [linkedPages.get ⟨0, by decide⟩, linkedPages.get ⟨1, by decide⟩]
    (linkedPages.get ⟨2, by decide⟩) 5 (by decide) (by decide)
    (fun k hk hle => by
      have hk2 : k ≤ 2 := hle
      interval_cases k <;> decide)
    (by decide)).1 3 ⟨1, rfl, 2, rfl, 3, rfl, rfl⟩ (by decide) 0
  change lookupTier0GatewayTask.Ensure 3 _ _ _ _ = _ at h
  rw [h]
  rfl

/-- C5 as stated fails twice. A catalogue that answers every `List` with an empty page
reporting a total of one lists no item of the desired name, yet `Ensure` never
returns: the cumulative count stays at zero. And when a page carries no cursor the
next page is asked for without one and its total replaces the first: on two
uncursored pages of one object each, reporting totals three and two, `Ensure` returns
"not found" after the second page, where the cumulative count is two, below the
total three of the first page. -/
theorem lookup_pagination_can_loop_forever :
    (¬ ∃ fuel, (lookupTier0GatewayTask.Ensure fuel emptyPagesContext sampleSpec emptyState
        stubConn).isSome = true) ∧
    ((lookupTier0GatewayTask.Ensure 2 (pagesContext uncursoredPages) sampleSpec emptyState
        { world := 0, calls := [] }).map (fun run => (run.result, run.conn.calls)) =
      some (.error (.errorf "not found: tier0"), [.tier0sList none, .tier0sList none]) ∧
     listed uncursoredPages = 2 ∧
     uncursoredPages.head?.bind (fun page => page.ResultCount) = some 3) := by
  refine ⟨?_, by decide, by decide, by decide⟩
  rintro ⟨fuel, hSome⟩
  have hNone : lookupTier0GatewayTask.Ensure fuel emptyPagesContext sampleSpec emptyState
      stubConn = none :=
    empty_pages_never_return sampleSpec emptyState fuel 0 0 [] (le_refl 0)
  rw [hNone] at hSome
  exact absurd hSome (by decide)

/-- C6 (tier-1 gateway compare-and-patch), as amended. With `Tier1GatewayRef` and
`Tier0GatewayRef` set: when `Get` succeeds with an object `old` that carries a
display name, `Ensure` returns `Unchanged` after the `Get` alone exactly when the
display name is the full cluster name, the failover mode is PREEMPTIVE, the tier-0
path is `Tier0GatewayRef.Path`, the route advertisement types are the fixed list in
its order and the tags compare equal; otherwise it issues exactly one `Patch` of the
desired object to the stored ID and returns `Updated` when that `Patch` succeeds, an
updating failure when it fails. When `Get` fails with an error other than not-found
it returns a reading failure after the `Get` alone. The state is unchanged in every
one of these cases. -/
theorem tier1_compare_and_patch {σ : Type} (ctx : EnsurerContext σ) (spec : NSXTInfraSpec)
    (state : NSXTInfraState) (conn : Conn σ) (ref tier0 : Reference) (fuel : Nat)
    (hRef : state.Tier1GatewayRef = some ref) (hTier0 : state.Tier0GatewayRef = some tier0) :
    (∀ (old : Tier1) (oldName : String) (w1 : σ),
      ctx.tier1sGet conn.world ref.ID = (.ok old, w1) → old.DisplayName = some oldName →
      ((oldName = spec.FullClusterName ∧
        old.FailoverMode = some Tier1_FAILOVER_MODE_PREEMPTIVE ∧
        old.Tier0Path = some tier0.Path ∧
        old.RouteAdvertisementTypes =
          [Tier1_ROUTE_ADVERTISEMENT_TYPES_STATIC_ROUTES, Tier1_ROUTE_ADVERTISEMENT_TYPES_NAT,
           Tier1_ROUTE_ADVERTISEMENT_TYPES_LB_VIP, Tier1_ROUTE_ADVERTISEMENT_TYPES_LB_SNAT] ∧
        ctx.equalTags old.Tags spec.CreateTags = true) →
        tier1GatewayTask.Ensure (fuel + 1) ctx spec state conn =
          some { result := .ok actionUnchanged, state := state
                 conn := { world := w1, calls := conn.calls ++ [.tier1sGet ref.ID] } }) ∧
      (¬ (oldName = spec.FullClusterName ∧
        old.FailoverMode = some Tier1_FAILOVER_MODE_PREEMPTIVE ∧
        old.Tier0Path = some tier0.Path ∧
        old.RouteAdvertisementTypes =
          [Tier1_ROUTE_ADVERTISEMENT_TYPES_STATIC_ROUTES, Tier1_ROUTE_ADVERTISEMENT_TYPES_NAT,
           Tier1_ROUTE_ADVERTISEMENT_TYPES_LB_VIP, Tier1_ROUTE_ADVERTISEMENT_TYPES_LB_SNAT] ∧
        ctx.equalTags old.Tags spec.CreateTags = true) →
        ∀ (answer : Option ApiError) (w2 : σ),
          ctx.tier1sPatch w1 ref.ID (tier1GatewayTask.desired ctx.toHelpers spec tier0.Path) =
            (answer, w2) →
          tier1GatewayTask.Ensure (fuel + 1) ctx spec state conn =
            some { result :=
                     match answer with
                     | none => .ok actionUpdated
                     | some err => .error (.updating err)
                   state := state
                   conn := { world := w2
                             calls := conn.calls ++ [.tier1sGet ref.ID,
                               .tier1sPatch ref.ID
                                 (tier1GatewayTask.desired ctx.toHelpers spec tier0.Path)] } })) ∧
    (∀ (err : ApiError) (w1 : σ),
      ctx.tier1sGet conn.world ref.ID = (.error err, w1) → isNotFoundError err = false →
      tier1GatewayTask.Ensure (fuel + 1) ctx spec state conn =
        some { result := .error (.reading err), state := state
               conn := { world := w1, calls := conn.calls ++ [.tier1sGet ref.ID] } }) := by
  refine ⟨fun old oldName w1 hGet hName => ⟨fun hSame => ?_, fun hDiff answer w2 hPatch => ?_⟩,
    fun err w1 hGet hNF => ?_⟩
  · have hc := (tier1_changed_eq_false ctx.toHelpers spec oldName tier0.Path old).2
      hSame
    simp [tier1GatewayTask.Ensure, hRef, hTier0, Conn.invoke, hGet, hName, hc]
  · have hc : tier1GatewayTask.changed ctx.toHelpers oldName old
        (tier1GatewayTask.desired ctx.toHelpers spec tier0.Path) spec.FullClusterName
        tier0.Path = true := by
      rw [← Bool.not_eq_false]
      exact fun hf =>
        hDiff ((tier1_changed_eq_false ctx.toHelpers spec oldName tier0.Path old).1 hf)
    cases answer <;>
      simp [tier1GatewayTask.Ensure, hRef, hTier0, Conn.invoke, hGet, hName, hc, hPatch]
  · simp [tier1GatewayTask.Ensure, hRef, hTier0, Conn.invoke, hGet, hNF]

/-- Witness for C6: the gateway read back has drifted and the `Patch` is refused; `Ensure`
issues the `Get` and one `Patch`, returns an updating failure and keeps the state. -/
theorem tier1_compare_and_patch_witness :
    (tier1GatewayTask.Ensure 1 driftedContext sampleSpec staleState stubConn).map
        (fun run => (run.result, run.state, run.conn.calls.map Call.isWrite)) =
      some (.error (.updating (.other "unavailable")), staleState, [false, true]) := by
  rw [((tier1_compare_and_patch driftedContext sampleSpec staleState stubConn _ _ 0 rfl rfl).1
    _ _ _ rfl rfl).2 (by decide) _ _ rfl]
  rfl

/-- C6 as stated fails where the `Patch` fails: the gateway read back has drifted
(its display name is "renamed"), `Ensure` issues the `Get` and the `Patch`, and
returns an updating failure, not `Updated`. -/
theorem tier1_patch_failure_is_not_updated :
    staleState.Tier1GatewayRef = some { ID := "gw", Path := "/infra/tier-1s/gw" } ∧
    staleState.Tier0GatewayRef = some { ID := "t0", Path := "/infra/tier-0s/t0" } ∧
    (driftedContext.tier1sGet () "gw").1.toOption.bind (fun old => old.DisplayName) =
      some "renamed" ∧
    (tier1GatewayTask.Ensure 1 driftedContext sampleSpec staleState stubConn).map
        (fun run => (run.result, run.conn.calls.map Call.isPatch)) =
      some (.error (.updating (.other "unavailable")), [false, true]) := by
  decide

/-- C7 (segment compare-and-patch), as amended. With `SegmentRef`, `Tier1GatewayRef` and
`TransportZoneRef` set and a workers CIDR that `cidrHostAndPrefix` accepts: when `Get`
succeeds with a segment `old` that carries a display name, `Ensure` returns
`Unchanged` after the `Get` alone exactly when the display name starts with the
cluster name, the connectivity path is the tier-1 gateway's Path, the transport-zone
path is the transport zone's Path, there is exactly one subnet and its gateway
address is the first-host address of the workers CIDR, and the tags compare equal;
otherwise it issues exactly one `Patch` of the desired segment to the stored ID and
returns `Updated` when that `Patch` succeeds, an updating failure when it fails. The
state is unchanged in each case. -/
theorem segment_compare_and_patch {σ : Type} (ctx : EnsurerContext σ) (spec : NSXTInfraSpec)
    (state : NSXTInfraState) (conn : Conn σ) (ref tier1 zone : Reference)
    (gatewayAddr suffix : String) (w0 : σ) (fuel : Nat)
    (hRef : state.SegmentRef = some ref) (hTier1 : state.Tier1GatewayRef = some tier1)
    (hZone : state.TransportZoneRef = some zone)
    (hCidr : ctx.cidrHostAndPrefix spec.WorkersNetwork 1 = .ok gatewayAddr)
    (hRandom : ctx.RandomString conn.world 8 = (suffix, w0))
    (old : Segment) (oldName : String) (w1 : σ)
    (hGet : ctx.segmentsGet w0 ref.ID = (.ok old, w1)) (hName : old.DisplayName = some oldName) :
    (((∃ rest : String, oldName = spec.FullClusterName ++ rest) ∧
      old.ConnectivityPath = some tier1.Path ∧
      old.TransportZonePath = some zone.Path ∧
      old.Subnets = [{ GatewayAddress := some gatewayAddr }] ∧
      ctx.equalTags old.Tags spec.CreateTags = true) →
      segmentTask.Ensure (fuel + 1) ctx spec state conn =
        some { result := .ok actionUnchanged, state := state
               conn := { world := w1, calls := conn.calls ++ [.segmentsGet ref.ID] } }) ∧
    (¬ ((∃ rest : String, oldName = spec.FullClusterName ++ rest) ∧
      old.ConnectivityPath = some tier1.Path ∧
      old.TransportZonePath = some zone.Path ∧
      old.Subnets = [{ GatewayAddress := some gatewayAddr }] ∧
      ctx.equalTags old.Tags spec.CreateTags = true) →
      ∀ (answer : Option ApiError) (w2 : σ),
        ctx.segmentsPatch w1 ref.ID (segmentTask.desired ctx.toHelpers spec gatewayAddr
          (spec.FullClusterName ++ "-" ++ suffix) tier1.Path zone.Path) = (answer, w2) →
        segmentTask.Ensure (fuel + 1) ctx spec state conn =
          some { result :=
                   match answer with
                   | none => .ok actionUpdated
                   | some err => .error (.updating err)
                 state := state
                 conn := { world := w2
                           calls := conn.calls ++ [.segmentsGet ref.ID,
                             .segmentsPatch ref.ID
                               (segmentTask.desired ctx.toHelpers spec gatewayAddr
                                 (spec.FullClusterName ++ "-" ++ suffix) tier1.Path
                                 zone.Path)] } }) := by
  refine ⟨fun hSame => ?_, fun hDiff answer w2 hPatch => ?_⟩
  · have hc := (segment_changed_eq_false ctx.toHelpers spec oldName gatewayAddr
      (spec.FullClusterName ++ "-" ++ suffix) tier1.Path zone.Path old).2 hSame
    simp [segmentTask.Ensure, hRef, hTier1, hZone, hCidr, hRandom, Conn.invoke, Conn.draw, hGet,
      hName, hc]
  · have hc : segmentTask.changed ctx.toHelpers oldName old
        (segmentTask.desired ctx.toHelpers spec gatewayAddr
          (spec.FullClusterName ++ "-" ++ suffix) tier1.Path zone.Path)
        spec.FullClusterName gatewayAddr tier1.Path zone.Path = true := by
      rw [← Bool.not_eq_false]
      exact fun hf => hDiff ((segment_changed_eq_false ctx.toHelpers spec oldName gatewayAddr
        (spec.FullClusterName ++ "-" ++ suffix) tier1.Path zone.Path old).1 hf)
    cases answer <;>
      simp [segmentTask.Ensure, hRef, hTier1, hZone, hCidr, hRandom, Conn.invoke, Conn.draw,
        hGet, hName, hc, hPatch]

/-- Witness for C7: the segment read back has drifted and the `Patch` is refused; `Ensure`
issues the `Get` and one `Patch`, returns an updating failure and keeps the state. -/
theorem segment_compare_and_patch_witness :
    (segmentTask.Ensure 1 driftedContext sampleSpec staleState stubConn).map
        (fun run => (run.result, run.state, run.conn.calls.map Call.isWrite)) =
      some (.error (.updating (.other "unavailable")), staleState, [false, true]) := by
  rw [(segment_compare_and_patch driftedContext sampleSpec staleState stubConn _ _ _ _ _ _ 0
    rfl rfl rfl rfl rfl _ _ _ rfl rfl).2
      (by
        rintro ⟨⟨rest, hRest⟩, -⟩
        have hp := (hasPrefix_iff "renamed" sampleSpec.FullClusterName).2 ⟨rest, hRest⟩
        exact absurd hp (by decide))
      _ _ rfl]
  rfl

/-- C7 as stated fails where the `Patch` fails: the segment read back has drifted
(its display name is "renamed"), `Ensure` issues the `Get` and the `Patch`, and
returns an updating failure, not `Updated`. -/
theorem segment_patch_failure_is_not_updated :
    staleState.SegmentRef = some { ID := "seg", Path := "/infra/segments/seg" } ∧
    staleState.Tier1GatewayRef = some { ID := "gw", Path := "/infra/tier-1s/gw" } ∧
    staleState.TransportZoneRef = some { ID := "tz", Path := "/infra/transport-zones/tz" } ∧
    driftedContext.cidrHostAndPrefix sampleSpec.WorkersNetwork 1 = .ok "10.250.0.1/16" ∧
    (driftedContext.segmentsGet () "seg").1.toOption.bind (fun old => old.DisplayName) =
      some "renamed" ∧
    (segmentTask.Ensure 1 driftedContext sampleSpec staleState stubConn).map
        (fun run => (run.result, run.conn.calls.map Call.isPatch)) =
      some (.error (.updating (.other "unavailable")), [false, true]) :=
  ⟨by decide, by decide, by decide, rfl, by decide, by decide⟩

/-- C8 (SNAT rule), as amended. With `SNATIPAddress = a` and `Tier1GatewayRef` set, the
desired rule has translated network `a` followed by "/32" and the workers CIDR as
source network. With `SNATRuleRef` set too, when `Get` succeeds with a rule `old` that
carries a display name, `Ensure` returns `Unchanged` after the `Get` alone exactly when
the display name is the full cluster name, the action is SNAT, enabled and logging
are true, the sequence number is 100, source and translated network are the desired
ones, there is no destination network and the tags compare equal; otherwise it
issues exactly one `Patch` of the desired rule and returns `Updated` when that `Patch`
succeeds, an updating failure when it fails. The state is unchanged in each case. -/
theorem snat_rule_compare_and_patch {σ : Type} (ctx : EnsurerContext σ) (spec : NSXTInfraSpec)
    (state : NSXTInfraState) (conn : Conn σ) (tier1 : Reference) (address : String)
    (fuel : Nat) (hAddress : state.SNATIPAddress = some address)
    (hTier1 : state.Tier1GatewayRef = some tier1) :
    ((snatRuleTask.desired ctx.toHelpers spec address).TranslatedNetwork =
        some (address ++ "/32") ∧
     (snatRuleTask.desired ctx.toHelpers spec address).SourceNetwork =
        some spec.WorkersNetwork) ∧
    (∀ (ref : Reference) (old : PolicyNatRule) (oldName : String) (w1 : σ),
      state.SNATRuleRef = some ref →
      ctx.natRulesGet conn.world tier1.ID PolicyNat_NAT_TYPE_USER ref.ID = (.ok old, w1) →
      old.DisplayName = some oldName →
      ((oldName = spec.FullClusterName ∧
        old.Action = PolicyNatRule_ACTION_SNAT ∧
        old.Enabled = some true ∧
        old.Logging = some true ∧
        old.SequenceNumber = some 100 ∧
        old.SourceNetwork = some spec.WorkersNetwork ∧
        old.TranslatedNetwork = some (address ++ "/32") ∧
        old.DestinationNetwork = none ∧
        ctx.equalTags old.Tags spec.CreateTags = true) →
        snatRuleTask.Ensure (fuel + 1) ctx spec state conn =
          some { result := .ok actionUnchanged, state := state
                 conn := { world := w1
                           calls := conn.calls ++
                             [.natRulesGet tier1.ID PolicyNat_NAT_TYPE_USER ref.ID] } }) ∧
      (¬ (oldName = spec.FullClusterName ∧
        old.Action = PolicyNatRule_ACTION_SNAT ∧
        old.Enabled = some true ∧
        old.Logging = some true ∧
        old.SequenceNumber = some 100 ∧
        old.SourceNetwork = some spec.WorkersNetwork ∧
        old.TranslatedNetwork = some (address ++ "/32") ∧
        old.DestinationNetwork = none ∧
        ctx.equalTags old.Tags spec.CreateTags = true) →
        ∀ (answer : Option ApiError) (w2 : σ),
          ctx.natRulesPatch w1 tier1.ID PolicyNat_NAT_TYPE_USER ref.ID
            (snatRuleTask.desired ctx.toHelpers spec address) = (answer, w2) →
          snatRuleTask.Ensure (fuel + 1) ctx spec state conn =
            some { result :=
                     match answer with
                     | none => .ok actionUpdated
                     | some err => .error (.updating err)
                   state := state
                   conn := { world := w2
                             calls := conn.calls ++
                               [.natRulesGet tier1.ID PolicyNat_NAT_TYPE_USER ref.ID,
                                .natRulesPatch tier1.ID PolicyNat_NAT_TYPE_USER ref.ID
                                  (snatRuleTask.desired ctx.toHelpers spec address)] } })) := by
  refine ⟨⟨rfl, rfl⟩, fun ref old oldName w1 hRef hGet hName =>
    ⟨fun hSame => ?_, fun hDiff answer w2 hPatch => ?_⟩⟩
  · have hc := (snat_rule_changed_eq_false ctx.toHelpers spec oldName address old).2 hSame
    simp [snatRuleTask.Ensure, hRef, hTier1, hAddress, Conn.invoke, hGet, hName, hc]
  · have hc : snatRuleTask.changed ctx.toHelpers oldName old
        (snatRuleTask.desired ctx.toHelpers spec address) spec.FullClusterName
        spec.WorkersNetwork (address ++ "/32") = true := by
      rw [← Bool.not_eq_false]
      exact fun hf =>
        hDiff ((snat_rule_changed_eq_false ctx.toHelpers spec oldName address old).1 hf)
    cases answer <;>
      simp [snatRuleTask.Ensure, hRef, hTier1, hAddress, Conn.invoke, hGet, hName, hc, hPatch]

/-- Witness for C8: the rule read back has drifted and the `Patch` is refused; `Ensure`
issues the `Get` and one `Patch`, returns an updating failure and keeps the state. -/
theorem snat_rule_compare_and_patch_witness :
    (snatRuleTask.Ensure 1 driftedContext sampleSpec staleState stubConn).map
        (fun run => (run.result, run.state, run.conn.calls.map Call.isWrite)) =
      some (.error (.updating (.other "unavailable")), staleState, [false, true]) := by
  rw [((snat_rule_compare_and_patch driftedContext sampleSpec staleState stubConn _ _ 0
    rfl rfl).2 _ _ _ _ rfl rfl rfl).2 (by decide) _ _ rfl]
  rfl

/-- C8 as stated fails where the `Patch` fails: the rule read back has drifted (its
display name is "renamed", its action DNAT), `Ensure` issues the `Get` and the
`Patch`, and returns an updating failure, not `Updated`. -/
theorem snat_rule_patch_failure_is_not_updated :
    staleState.SNATIPAddress = some "192.0.2.7" ∧
    staleState.Tier1GatewayRef = some { ID := "gw", Path := "/infra/tier-1s/gw" } ∧
    staleState.SNATRuleRef =
      some { ID := "rule", Path := "/infra/tier-1s/gw/nat/USER/nat-rules/rule" } ∧
    (driftedContext.natRulesGet () "gw" PolicyNat_NAT_TYPE_USER "rule").1.toOption.bind
        (fun old => old.DisplayName) = some "renamed" ∧
    (snatRuleTask.Ensure 1 driftedContext sampleSpec staleState stubConn).map
        (fun run => (run.result, run.conn.calls.map Call.isPatch)) =
      some (.error (.updating (.other "unavailable")), [false, true]) := by
  decide

/-- C9 (locale-service creation). With `LocaleServiceRef` nil and `Tier1GatewayRef` and
`EdgeClusterRef` set, `Ensure` issues exactly one call, a `Patch` addressed to
`(Tier1GatewayRef.ID, defaultPolicyLocaleServiceID)`, and no `Update`; when the `Patch`
succeeds it returns `Created` and sets `LocaleServiceRef` to a Reference with the
tier-1 gateway's ID; when the `Patch` fails it returns a creating failure and the
state, with its nil `LocaleServiceRef`, is as before. -/
theorem locale_service_creation_is_a_patch {σ : Type} (ctx : EnsurerContext σ)
    (spec : NSXTInfraSpec) (state : NSXTInfraState) (conn : Conn σ) (tier1 edge : Reference)
    (fuel : Nat) (hNil : state.LocaleServiceRef = none)
    (hTier1 : state.Tier1GatewayRef = some tier1) (hEdge : state.EdgeClusterRef = some edge) :
    (∀ w1, ctx.localeServicesPatch conn.world tier1.ID ctx.defaultPolicyLocaleServiceID
        (tier1GatewayLocaleServiceTask.desired ctx.toHelpers spec edge.Path) = (none, w1) →
      tier1GatewayLocaleServiceTask.Ensure (fuel + 1) ctx spec state conn =
        some { result := .ok actionCreated
               state := { state with LocaleServiceRef := some { ID := tier1.ID, Path := "" } }
               conn := { world := w1
                         calls := conn.calls ++
                           [.localeServicesPatch tier1.ID ctx.defaultPolicyLocaleServiceID
                             (tier1GatewayLocaleServiceTask.desired ctx.toHelpers spec
                               edge.Path)] } }) ∧
    (∀ err w1, ctx.localeServicesPatch conn.world tier1.ID ctx.defaultPolicyLocaleServiceID
        (tier1GatewayLocaleServiceTask.desired ctx.toHelpers spec edge.Path) = (some err, w1) →
      tier1GatewayLocaleServiceTask.Ensure (fuel + 1) ctx spec state conn =
        some { result := .error (.creating err)
               state := state
               conn := { world := w1
                         calls := conn.calls ++
                           [.localeServicesPatch tier1.ID ctx.defaultPolicyLocaleServiceID
                             (tier1GatewayLocaleServiceTask.desired ctx.toHelpers spec
                               edge.Path)] } }) := by
  constructor
  · intro w1 hPatch
    simp [tier1GatewayLocaleServiceTask.Ensure, hNil, hTier1, hEdge, Conn.invoke, hPatch]
  · intro err w1 hPatch
    simp [tier1GatewayLocaleServiceTask.Ensure, hNil, hTier1, hEdge, Conn.invoke, hPatch]

/-- Witness for C9: on the store the one `Patch` succeeds and gives `Created` with the
gateway's ID; on the unavailable catalogue it fails and `LocaleServiceRef` stays nil. -/
theorem locale_service_creation_is_a_patch_witness :
    (tier1GatewayLocaleServiceTask.Ensure 1 (storeContext sampleHelpers) sampleSpec
        { staleState with LocaleServiceRef := none } sampleConn).map
        (fun run => (run.result, run.state.LocaleServiceRef, run.conn.calls.map Call.isPatch)) =
      some (.ok actionCreated, some { ID := "gw", Path := "" }, [true]) ∧
    (tier1GatewayLocaleServiceTask.Ensure 1 (stubContext sampleHelpers) sampleSpec
        { staleState with LocaleServiceRef := none } stubConn).map
        (fun run => (run.result, run.state.LocaleServiceRef, run.conn.calls.map Call.isPatch)) =
      some (.error (.creating (.other "unavailable")), none, [true]) := by
  constructor
  · rw [(locale_service_creation_is_a_patch (storeContext sampleHelpers) sampleSpec
      { staleState with LocaleServiceRef := none } sampleConn _ _ 0 rfl rfl rfl).1 _ rfl]
    rfl
  · rw [(locale_service_creation_is_a_patch (stubContext sampleHelpers) sampleSpec
      { staleState with LocaleServiceRef := none } stubConn _ _ 0 rfl rfl rfl).2 _ _ rfl]
    rfl

/-- C10 (the SNAT allocation is never updated). With `SNATIPAddressAllocRef` and
`SNATIPPoolRef` set, when `Get` of the allocation succeeds `Ensure` returns
`Unchanged` whatever object `Get` returned, has issued that `Get` only and leaves the
state as it was; and on every input the calls `Ensure` adds to the log contain no
`Patch`. -/
theorem snat_allocation_is_never_updated {σ : Type} (ctx : EnsurerContext σ)
    (spec : NSXTInfraSpec) (state : NSXTInfraState) (conn : Conn σ) :
    (∀ (ref pool : Reference) (obj : IpAddressAllocation) (w1 : σ),
      state.SNATIPAddressAllocRef = some ref → state.SNATIPPoolRef = some pool →
      ctx.ipAllocationsGet conn.world pool.ID ref.ID = (.ok obj, w1) →
      snatIPAddressAllocationTask.Ensure ctx spec state conn =
        { result := .ok actionUnchanged
          state := state
          conn := { world := w1
                    calls := conn.calls ++ [.ipAllocationsGet pool.ID ref.ID] } }) ∧
    (∃ new, (snatIPAddressAllocationTask.Ensure ctx spec state conn).conn.calls =
        conn.calls ++ new ∧ ∀ call ∈ new, call.isPatch = false) := by
  constructor
  · intro ref pool obj w1 hRef hPool hGet
    simp [snatIPAddressAllocationTask.Ensure, hRef, hPool, Conn.invoke, hGet]
  · have hCreate : ∀ (st : NSXTInfraState) (c : Conn σ),
        ∃ new, (snatIPAddressAllocationTask.create ctx
          (snatIPAddressAllocationTask.desired ctx.toHelpers spec) st c).conn.calls =
            c.calls ++ new ∧ ∀ call ∈ new, call.isPatch = false := by
      intro st c
      unfold snatIPAddressAllocationTask.create
      simp only [Conn.draw, Conn.invoke]
      cases hPool : st.SNATIPPoolRef with
      | none => exact ⟨[], by simp, by simp⟩
      | some pool =>
        refine ⟨[.ipAllocationsUpdate pool.ID (ctx.generateID c.world "snatippool").1
          (snatIPAddressAllocationTask.desired ctx.toHelpers spec)], ?_, by simp [Call.isPatch]⟩
        simp only []
        rcases ctx.ipAllocationsUpdate (ctx.generateID c.world "snatippool").2 pool.ID
          (ctx.generateID c.world "snatippool").1
          (snatIPAddressAllocationTask.desired ctx.toHelpers spec) with ⟨answer, w2⟩
        cases answer with
        | error err => rfl
        | ok created => cases hId : created.Id <;> cases hPath : created.Path <;> simp [hId, hPath]
    unfold snatIPAddressAllocationTask.Ensure
    cases hRef : state.SNATIPAddressAllocRef with
    | none => exact hCreate state conn
    | some ref =>
      cases hPool : state.SNATIPPoolRef with
      | none => exact ⟨[], by simp, by simp⟩
      | some pool =>
        simp only [Conn.invoke]
        rcases ctx.ipAllocationsGet conn.world pool.ID ref.ID with ⟨answer, w1⟩
        cases answer with
        | ok obj => exact ⟨[.ipAllocationsGet pool.ID ref.ID], rfl, by simp [Call.isPatch]⟩
        | error err =>
          cases hNF : isNotFoundError err
          · exact ⟨[.ipAllocationsGet pool.ID ref.ID], by simp [hNF], by simp [Call.isPatch]⟩
          · obtain ⟨new, hNew, hNo⟩ := hCreate state
              { world := w1, calls := conn.calls ++ [.ipAllocationsGet pool.ID ref.ID] }
            refine ⟨.ipAllocationsGet pool.ID ref.ID :: new, ?_, ?_⟩
            · simp only [hNF, Bool.not_true]
              simpa using hNew
            · intro call hMem
              rcases List.mem_cons.mp hMem with h | h
              · subst h; rfl
              · exact hNo call h

/-- Witness for C10: `Get` returns an allocation with no field set, and `Ensure` returns
`Unchanged` after that `Get` alone. -/
theorem snat_allocation_is_never_updated_witness :
    snatIPAddressAllocationTask.Ensure
        ({ stubContext sampleHelpers with
           ipAllocationsGet := fun w _ _ =>
             (.ok { DisplayName := none, Description := none, Tags := [], Id := none,
                    Path := none }, w) } : EnsurerContext Unit)
        sampleSpec staleState stubConn =
      { result := .ok actionUnchanged, state := staleState
        conn := { world := (), calls := [.ipAllocationsGet "pool" "alloc"] } } :=
  (snat_allocation_is_never_updated _ sampleSpec staleState stubConn).1 _ _ _ _ rfl rfl rfl

/-- C11 (the `EnsureDeleted` contract). For each of the five owning tasks: with the
task's Reference nil, `EnsureDeleted` returns `(false, nil)`, issues no call and leaves
the state as it is; with the Reference set (and, for the SNAT allocation and the SNAT
rule, the parent Reference the `Delete` is addressed under) and a `Delete` that
succeeds, it returns `(true, nil)` after that one `Delete` and clears the Reference
together with `SegmentName` (segment) or `SNATIPAddress` (allocation), and a repeated
`EnsureDeleted` on the result returns `(false, nil)`; with a `Delete` that fails it
returns an error after that one `Delete` and leaves the whole state as it is. -/
theorem ensure_deleted_contract {σ : Type} (ctx : EnsurerContext σ) (state : NSXTInfraState)
    (conn : Conn σ) :
    ((state.Tier1GatewayRef = none →
        tier1GatewayTask.EnsureDeleted ctx state conn =
          { result := .ok false, state := state, conn := conn }) ∧
     (∀ ref w1, state.Tier1GatewayRef = some ref →
        ctx.tier1sDelete conn.world ref.ID = (none, w1) →
        tier1GatewayTask.EnsureDeleted ctx state conn =
          { result := .ok true, state := { state with Tier1GatewayRef := none }
            conn := { world := w1, calls := conn.calls ++ [.tier1sDelete ref.ID] } } ∧
        ∀ conn2, tier1GatewayTask.EnsureDeleted ctx { state with Tier1GatewayRef := none }
          conn2 = { result := .ok false, state := { state with Tier1GatewayRef := none }
                    conn := conn2 }) ∧
     (∀ ref err w1, state.Tier1GatewayRef = some ref →
        ctx.tier1sDelete conn.world ref.ID = (some err, w1) →
        tier1GatewayTask.EnsureDeleted ctx state conn =
          { result := .error (.api (ctx.nicerVAPIError err)), state := state
            conn := { world := w1, calls := conn.calls ++ [.tier1sDelete ref.ID] } })) ∧
    ((state.LocaleServiceRef = none →
        tier1GatewayLocaleServiceTask.EnsureDeleted ctx state conn =
          { result := .ok false, state := state, conn := conn }) ∧
     (∀ ref w1, state.LocaleServiceRef = some ref →
        ctx.localeServicesDelete conn.world ref.ID ctx.defaultPolicyLocaleServiceID =
          (none, w1) →
        tier1GatewayLocaleServiceTask.EnsureDeleted ctx state conn =
          { result := .ok true, state := { state with LocaleServiceRef := none }
            conn := { world := w1
                      calls := conn.calls ++
                        [.localeServicesDelete ref.ID ctx.defaultPolicyLocaleServiceID] } } ∧
        ∀ conn2, tier1GatewayLocaleServiceTask.EnsureDeleted ctx
          { state with LocaleServiceRef := none } conn2 =
            { result := .ok false, state := { state with LocaleServiceRef := none }
              conn := conn2 }) ∧
     (∀ ref err w1, state.LocaleServiceRef = some ref →
        ctx.localeServicesDelete conn.world ref.ID ctx.defaultPolicyLocaleServiceID =
          (some err, w1) →
        tier1GatewayLocaleServiceTask.EnsureDeleted ctx state conn =
          { result := .error (.api (ctx.nicerVAPIError err)), state := state
            conn := { world := w1
                      calls := conn.calls ++
                        [.localeServicesDelete ref.ID ctx.defaultPolicyLocaleServiceID] } })) ∧
    ((state.SegmentRef = none →
        segmentTask.EnsureDeleted ctx state conn =
          { result := .ok false, state := state, conn := conn }) ∧
     (∀ ref w1, state.SegmentRef = some ref →
        ctx.segmentsDelete conn.world ref.ID = (none, w1) →
        segmentTask.EnsureDeleted ctx state conn =
          { result := .ok true
            state := { state with SegmentRef := none, SegmentName := none }
            conn := { world := w1, calls := conn.calls ++ [.segmentsDelete ref.ID] } } ∧
        ∀ conn2, segmentTask.EnsureDeleted ctx
          { state with SegmentRef := none, SegmentName := none } conn2 =
            { result := .ok false
              state := { state with SegmentRef := none, SegmentName := none }
              conn := conn2 }) ∧
     (∀ ref err w1, state.SegmentRef = some ref →
        ctx.segmentsDelete conn.world ref.ID = (some err, w1) →
        segmentTask.EnsureDeleted ctx state conn =
          { result := .error (.api (ctx.nicerVAPIError err)), state := state
            conn := { world := w1, calls := conn.calls ++ [.segmentsDelete ref.ID] } })) ∧
    ((state.SNATIPAddressAllocRef = none →
        snatIPAddressAllocationTask.EnsureDeleted ctx state conn =
          { result := .ok false, state := state, conn := conn }) ∧
     (∀ ref pool w1, state.SNATIPAddressAllocRef = some ref →
        state.SNATIPPoolRef = some pool →
        ctx.ipAllocationsDelete conn.world pool.ID ref.ID = (none, w1) →
        snatIPAddressAllocationTask.EnsureDeleted ctx state conn =
          { result := .ok true
            state := { state with SNATIPAddressAllocRef := none, SNATIPAddress := none }
            conn := { world := w1
                      calls := conn.calls ++ [.ipAllocationsDelete pool.ID ref.ID] } } ∧
        ∀ conn2, snatIPAddressAllocationTask.EnsureDeleted ctx
          { state with SNATIPAddressAllocRef := none, SNATIPAddress := none } conn2 =
            { result := .ok false
              state := { state with SNATIPAddressAllocRef := none, SNATIPAddress := none }
              conn := conn2 }) ∧
     (∀ ref pool err w1, state.SNATIPAddressAllocRef = some ref →
        state.SNATIPPoolRef = some pool →
        ctx.ipAllocationsDelete conn.world pool.ID ref.ID = (some err, w1) →
        ∃ taskError, snatIPAddressAllocationTask.EnsureDeleted ctx state conn =
          { result := .error taskError, state := state
            conn := { world := w1
                      calls := conn.calls ++ [.ipAllocationsDelete pool.ID ref.ID] } })) ∧
    ((state.SNATRuleRef = none →
        snatRuleTask.EnsureDeleted ctx state conn =
          { result := .ok false, state := state, conn := conn }) ∧
     (∀ ref tier1 w1, state.SNATRuleRef = some ref → state.Tier1GatewayRef = some tier1 →
        ctx.natRulesDelete conn.world tier1.ID PolicyNat_NAT_TYPE_USER ref.ID = (none, w1) →
        snatRuleTask.EnsureDeleted ctx state conn =
          { result := .ok true, state := { state with SNATRuleRef := none }
            conn := { world := w1
                      calls := conn.calls ++
                        [.natRulesDelete tier1.ID PolicyNat_NAT_TYPE_USER ref.ID] } } ∧
        ∀ conn2, snatRuleTask.EnsureDeleted ctx { state with SNATRuleRef := none } conn2 =
          { result := .ok false, state := { state with SNATRuleRef := none }
            conn := conn2 }) ∧
     (∀ ref tier1 err w1, state.SNATRuleRef = some ref → state.Tier1GatewayRef = some tier1 →
        ctx.natRulesDelete conn.world tier1.ID PolicyNat_NAT_TYPE_USER ref.ID =
          (some err, w1) →
        ∃ taskError, snatRuleTask.EnsureDeleted ctx state conn =
          { result := .error taskError, state := state
            conn := { world := w1
                      calls := conn.calls ++
                        [.natRulesDelete tier1.ID PolicyNat_NAT_TYPE_USER ref.ID] } })) := by
  refine ⟨⟨?_, ?_, ?_⟩, ⟨?_, ?_, ?_⟩, ⟨?_, ?_, ?_⟩, ⟨?_, ?_, ?_⟩, ⟨?_, ?_, ?_⟩⟩
  · intro hNil
    simp [tier1GatewayTask.EnsureDeleted, hNil]
  · intro ref w1 hRef hDelete
    exact ⟨by simp [tier1GatewayTask.EnsureDeleted, hRef, Conn.invoke, hDelete],
      fun conn2 => by simp [tier1GatewayTask.EnsureDeleted]⟩
  · intro ref err w1 hRef hDelete
    simp [tier1GatewayTask.EnsureDeleted, hRef, Conn.invoke, hDelete]
  · intro hNil
    simp [tier1GatewayLocaleServiceTask.EnsureDeleted, hNil]
  · intro ref w1 hRef hDelete
    exact ⟨by simp [tier1GatewayLocaleServiceTask.EnsureDeleted, hRef, Conn.invoke, hDelete],
      fun conn2 => by simp [tier1GatewayLocaleServiceTask.EnsureDeleted]⟩
  · intro ref err w1 hRef hDelete
    simp [tier1GatewayLocaleServiceTask.EnsureDeleted, hRef, Conn.invoke, hDelete]
  · intro hNil
    simp [segmentTask.EnsureDeleted, hNil]
  · intro ref w1 hRef hDelete
    exact ⟨by simp [segmentTask.EnsureDeleted, hRef, Conn.invoke, hDelete],
      fun conn2 => by simp [segmentTask.EnsureDeleted]⟩
  · intro ref err w1 hRef hDelete
    simp [segmentTask.EnsureDeleted, hRef, Conn.invoke, hDelete]
  · intro hNil
    simp [snatIPAddressAllocationTask.EnsureDeleted, hNil]
  · intro ref pool w1 hRef hPool hDelete
    exact ⟨by simp [snatIPAddressAllocationTask.EnsureDeleted, hRef, hPool, Conn.invoke,
        hDelete],
      fun conn2 => by simp [snatIPAddressAllocationTask.EnsureDeleted]⟩
  · intro ref pool err w1 hRef hPool hDelete
    exact ⟨.api err, by simp [snatIPAddressAllocationTask.EnsureDeleted, hRef, hPool, Conn.invoke,
      hDelete]⟩
  · intro hNil
    simp [snatRuleTask.EnsureDeleted, hNil]
  · intro ref tier1 w1 hRef hTier1 hDelete
    exact ⟨by simp [snatRuleTask.EnsureDeleted, hRef, hTier1, Conn.invoke, hDelete],
      fun conn2 => by simp [snatRuleTask.EnsureDeleted]⟩
  · intro ref tier1 err w1 hRef hTier1 hDelete
    exact ⟨.api err, by simp [snatRuleTask.EnsureDeleted, hRef, hTier1, Conn.invoke, hDelete]⟩

/-- Witness for C11: from the state with every slot set, the SNAT allocation is
deleted on the catalogue whose `Delete` succeeds, and its Reference and the address
are cleared; on the unavailable catalogue the deletion fails and the state stays;
from the empty state nothing is called. -/
theorem ensure_deleted_contract_witness :
    ((snatIPAddressAllocationTask.EnsureDeleted deletingContext staleState stubConn).result,
      (snatIPAddressAllocationTask.EnsureDeleted deletingContext staleState
        stubConn).state.SNATIPAddressAllocRef,
      (snatIPAddressAllocationTask.EnsureDeleted deletingContext staleState
        stubConn).state.SNATIPAddress) = (.ok true, none, none) ∧
    (tier1GatewayTask.EnsureDeleted (stubContext sampleHelpers) staleState stubConn).state =
      staleState ∧
    (segmentTask.EnsureDeleted (stubContext sampleHelpers) emptyState stubConn).result =
      .ok false := by
  refine ⟨?_, ?_, ?_⟩
  · rw [((ensure_deleted_contract deletingContext staleState stubConn).2.2.2.1.2.1 _ _ _
      rfl rfl rfl).1]
  · rw [(ensure_deleted_contract (stubContext sampleHelpers) staleState stubConn).1.2.2 _ _ _
      rfl rfl]
  · rw [(ensure_deleted_contract (stubContext sampleHelpers) emptyState stubConn).2.2.1.1 rfl]

/-- C12 (`SetRecoveredReference`), what the code does: for the tier-1 gateway, the
segment, the SNAT allocation and the SNAT rule, after `SetRecoveredReference` the
task's `Reference` is `ref` (and `SegmentName` is `name` for the segment) and every
other slot is as before. The locale-service task does not read `ref`: with
`Tier1GatewayRef` set it records the Reference made of the tier-1 ID and the empty
path, every other slot as before; with `Tier1GatewayRef` nil it dereferences nil. -/
theorem set_recovered_reference_splices (state : NSXTInfraState) (ref : Option Reference)
    (name : Option String) :
    (tier1GatewayTask.Reference (tier1GatewayTask.SetRecoveredReference state ref name) = ref ∧
     tier1GatewayTask.SetRecoveredReference state ref name =
       { state with Tier1GatewayRef := ref }) ∧
    (segmentTask.Reference (segmentTask.SetRecoveredReference state ref name) = ref ∧
     (segmentTask.SetRecoveredReference state ref name).SegmentName = name ∧
     segmentTask.SetRecoveredReference state ref name =
       { state with SegmentRef := ref, SegmentName := name }) ∧
    (snatIPAddressAllocationTask.Reference
        (snatIPAddressAllocationTask.SetRecoveredReference state ref name) = ref ∧
     snatIPAddressAllocationTask.SetRecoveredReference state ref name =
       { state with SNATIPAddressAllocRef := ref }) ∧
    (snatRuleTask.Reference (snatRuleTask.SetRecoveredReference state ref name) = ref ∧
     snatRuleTask.SetRecoveredReference state ref name = { state with SNATRuleRef := ref }) ∧
    (∀ tier1, state.Tier1GatewayRef = some tier1 →
      (tier1GatewayLocaleServiceTask.SetRecoveredReference state ref name).map
          tier1GatewayLocaleServiceTask.Reference =
        some (some { ID := tier1.ID, Path := "" }) ∧
      tier1GatewayLocaleServiceTask.SetRecoveredReference state ref name =
        some { state with LocaleServiceRef := some { ID := tier1.ID, Path := "" } }) ∧
    (state.Tier1GatewayRef = none →
      tier1GatewayLocaleServiceTask.SetRecoveredReference state ref name = none) := by
  refine ⟨⟨rfl, rfl⟩, ⟨rfl, rfl, rfl⟩, ⟨rfl, rfl⟩, ⟨rfl, rfl⟩, ?_, ?_⟩
  · intro tier1 hTier1
    simp [tier1GatewayLocaleServiceTask.SetRecoveredReference, hTier1,
      tier1GatewayLocaleServiceTask.Reference]
  · intro hNil
    simp [tier1GatewayLocaleServiceTask.SetRecoveredReference, hNil]

/-- C12, the locale-service task against the claim: recovering the found Reference
`found` into the state whose tier-1 gateway is "gw" leaves `LocaleServiceRef` at the
Reference made of "gw" and the empty path, not at `found`; and on the empty state the
recovery dereferences the nil `Tier1GatewayRef`. -/
theorem locale_service_recovery_ignores_reference :
    (tier1GatewayLocaleServiceTask.SetRecoveredReference staleState
        (some { ID := "found", Path := "/infra/tier-1s/gw/locale-services/found" }) none).map
        tier1GatewayLocaleServiceTask.Reference = some (some { ID := "gw", Path := "" }) ∧
    (tier1GatewayLocaleServiceTask.SetRecoveredReference staleState
        (some { ID := "found", Path := "/infra/tier-1s/gw/locale-services/found" }) none).map
        tier1GatewayLocaleServiceTask.Reference ≠
      some (some { ID := "found", Path := "/infra/tier-1s/gw/locale-services/found" }) ∧
    tier1GatewayLocaleServiceTask.SetRecoveredReference emptyState
        (some { ID := "found", Path := "/infra/tier-1s/gw/locale-services/found" }) none =
      none := by
  decide

/-- The loop returns the normalised error of the `List` call that fails, on
whatever page that is. -/
theorem pagedLookup_list_error {σ : Type}
    (list : σ → Option String → Except ApiError ListResult × σ)
    (mkCall : Option String → Call) (nicer : ApiError → ApiError)
    (setRef : NSXTInfraState → Reference → NSXTInfraState) (name : String)
    (state : NSXTInfraState) (err : ApiError) (w0 w1 : σ) (fuel : Nat) :
    ∀ (before : List ListResult) (cursor : Option String) (total count : Int) (w : σ)
      (calls : List Call),
      Serves list w cursor before w0 →
      (∀ page ∈ before, scanItems name page.Results = .absent) →
      continues cursor total count before →
      list w0 (cursorAfter cursor before) = (.error err, w1) →
      pagedLookup list mkCall nicer setRef name (fuel + (before.length + 1)) cursor total count
          state { world := w, calls := calls } =
        some { result := .error (.api (nicer err)), state := state
               conn := { world := w1
                         calls := calls ++ (requests cursor before).map mkCall ++
                           [mkCall (cursorAfter cursor before)] } } := by
  intro before
  induction before with
  | nil =>
    intro cursor total count w calls hServes _ _ hList
    cases hServes
    show pagedLookup list mkCall nicer setRef name (fuel + 1) cursor total count state _ = _
    simp only [cursorAfter] at hList
    simp [pagedLookup, Conn.invoke, hList, requests, cursorAfter]
  | cons page rest ih =>
    intro cursor total count w calls hServes hAbsent hContinues hList
    obtain ⟨w2, hPage, hRest⟩ := hServes
    obtain ⟨total1, hTotal, hBelow, hGoes⟩ := hContinues
    have hScan := hAbsent page (List.mem_cons_self _ _)
    show pagedLookup list mkCall nicer setRef name ((fuel + (rest.length + 1)) + 1) cursor total
      count state _ = _
    rw [pagedLookup_step list mkCall nicer setRef name page state _ cursor total total1 count w w2
      calls hPage hScan hTotal hBelow]
    rw [ih page.Cursor total1 _ w2 _ hRest (fun p hp => hAbsent p (List.mem_cons_of_mem _ hp))
      hGoes hList]
    simp [requests, cursorAfter]

/-- C14 (error normalisation), what the code does. The four lookups return the
normalised form `nicerVAPIError err` of the error `err` of the `List` call that
fails (tier-0 gateway and SNAT pool: on whatever page), and so do `EnsureDeleted`
of the tier-1 gateway, the locale service and the segment for the error of their
`Delete`. `EnsureDeleted` of the SNAT allocation and of the SNAT rule return the
error of their `Delete` as the catalogue gave it. -/
theorem snat_delete_errors_are_returned_raw {σ : Type} (ctx : EnsurerContext σ)
    (spec : NSXTInfraSpec) (state : NSXTInfraState) (conn : Conn σ) :
    (∀ (before : List ListResult) (err : ApiError) (w0 w1 : σ),
      Serves ctx.tier0sList conn.world none before w0 →
      (∀ page ∈ before, scanItems spec.Tier0GatewayName page.Results = .absent) →
      continues none 0 0 before →
      ctx.tier0sList w0 (cursorAfter none before) = (.error err, w1) →
      ∀ fuel, lookupTier0GatewayTask.Ensure (fuel + (before.length + 1)) ctx spec state conn =
        some { result := .error (.api (ctx.nicerVAPIError err)), state := state
               conn := { world := w1
                         calls := conn.calls ++ (requests none before).map Call.tier0sList ++
                           [.tier0sList (cursorAfter none before)] } }) ∧
    (∀ (before : List ListResult) (err : ApiError) (w0 w1 : σ),
      Serves ctx.ipPoolsList conn.world none before w0 →
      (∀ page ∈ before, scanItems spec.SNATIPPoolName page.Results = .absent) →
      continues none 0 0 before →
      ctx.ipPoolsList w0 (cursorAfter none before) = (.error err, w1) →
      ∀ fuel, lookupSNATIPPoolTask.Ensure (fuel + (before.length + 1)) ctx spec state conn =
        some { result := .error (.api (ctx.nicerVAPIError err)), state := state
               conn := { world := w1
                         calls := conn.calls ++ (requests none before).map Call.ipPoolsList ++
                           [.ipPoolsList (cursorAfter none before)] } }) ∧
    (∀ err w1,
      ctx.edgeClustersList conn.world ctx.defaultSite ctx.policyEnforcementPoint =
        (.error err, w1) →
      lookupEdgeClusterTask.Ensure ctx spec state conn =
        { result := .error (.api (ctx.nicerVAPIError err)), state := state
          conn := { world := w1
                    calls := conn.calls ++
                      [.edgeClustersList ctx.defaultSite ctx.policyEnforcementPoint] } }) ∧
    (∀ err w1,
      ctx.transportZonesList conn.world ctx.defaultSite ctx.policyEnforcementPoint =
        (.error err, w1) →
      lookupTransportZoneTask.Ensure ctx spec state conn =
        { result := .error (.api (ctx.nicerVAPIError err)), state := state
          conn := { world := w1
                    calls := conn.calls ++
                      [.transportZonesList ctx.defaultSite ctx.policyEnforcementPoint] } }) ∧
    (∀ ref err w1, state.Tier1GatewayRef = some ref →
      ctx.tier1sDelete conn.world ref.ID = (some err, w1) →
      (tier1GatewayTask.EnsureDeleted ctx state conn).result =
        .error (.api (ctx.nicerVAPIError err))) ∧
    (∀ ref err w1, state.LocaleServiceRef = some ref →
      ctx.localeServicesDelete conn.world ref.ID ctx.defaultPolicyLocaleServiceID =
        (some err, w1) →
      (tier1GatewayLocaleServiceTask.EnsureDeleted ctx state conn).result =
        .error (.api (ctx.nicerVAPIError err))) ∧
    (∀ ref err w1, state.SegmentRef = some ref →
      ctx.segmentsDelete conn.world ref.ID = (some err, w1) →
      (segmentTask.EnsureDeleted ctx state conn).result =
        .error (.api (ctx.nicerVAPIError err))) ∧
    (∀ ref pool err w1, state.SNATIPAddressAllocRef = some ref →
      state.SNATIPPoolRef = some pool →
      ctx.ipAllocationsDelete conn.world pool.ID ref.ID = (some err, w1) →
      (snatIPAddressAllocationTask.EnsureDeleted ctx state conn).result = .error (.api err)) ∧
    (∀ ref tier1 err w1, state.SNATRuleRef = some ref → state.Tier1GatewayRef = some tier1 →
      ctx.natRulesDelete conn.world tier1.ID PolicyNat_NAT_TYPE_USER ref.ID = (some err, w1) →
      (snatRuleTask.EnsureDeleted ctx state conn).result = .error (.api err)) := by
  refine ⟨?_, ?_, ?_, ?_, ?_, ?_, ?_, ?_, ?_⟩
  · intro before err w0 w1 hServes hAbsent hContinues hList fuel
    exact pagedLookup_list_error ctx.tier0sList Call.tier0sList ctx.nicerVAPIError _ _ state err
      w0 w1 fuel before none 0 0 conn.world conn.calls hServes hAbsent hContinues hList
  · intro before err w0 w1 hServes hAbsent hContinues hList fuel
    exact pagedLookup_list_error ctx.ipPoolsList Call.ipPoolsList ctx.nicerVAPIError _ _ state
      err w0 w1 fuel before none 0 0 conn.world conn.calls hServes hAbsent hContinues hList
  · intro err w1 hList
    simp [lookupEdgeClusterTask.Ensure, singleLookup, Conn.invoke, hList]
  · intro err w1 hList
    simp [lookupTransportZoneTask.Ensure, singleLookup, Conn.invoke, hList]
  · intro ref err w1 hRef hDelete
    simp [tier1GatewayTask.EnsureDeleted, hRef, Conn.invoke, hDelete]
  · intro ref err w1 hRef hDelete
    simp [tier1GatewayLocaleServiceTask.EnsureDeleted, hRef, Conn.invoke, hDelete]
  · intro ref err w1 hRef hDelete
    simp [segmentTask.EnsureDeleted, hRef, Conn.invoke, hDelete]
  · intro ref pool err w1 hRef hPool hDelete
    simp [snatIPAddressAllocationTask.EnsureDeleted, hRef, hPool, Conn.invoke, hDelete]
  · intro ref tier1 err w1 hRef hTier1 hDelete
    simp [snatRuleTask.EnsureDeleted, hRef, hTier1, Conn.invoke, hDelete]

/-- Witness for C14: with the normalisation step that marks the message, on the
unavailable catalogue and the state with every slot set, `EnsureDeleted` of the tier-1
gateway returns the marked error, `EnsureDeleted` of the SNAT allocation and of the
SNAT rule return the unmarked one, which is not its normalised form. -/
theorem snat_delete_errors_are_returned_raw_witness :
    (tier1GatewayTask.EnsureDeleted (stubContext markingHelpers) staleState stubConn).result =
      .error (.api (.other "nicer: unavailable")) ∧
    (snatIPAddressAllocationTask.EnsureDeleted (stubContext markingHelpers) staleState
      stubConn).result = .error (.api (.other "unavailable")) ∧
    (snatRuleTask.EnsureDeleted (stubContext markingHelpers) staleState stubConn).result =
      .error (.api (.other "unavailable")) ∧
    (stubContext markingHelpers).nicerVAPIError (.other "unavailable") ≠ .other "unavailable" := by
  have h := snat_delete_errors_are_returned_raw (stubContext markingHelpers) sampleSpec
    staleState stubConn
  exact ⟨h.2.2.2.2.1 _ _ _ rfl rfl, h.2.2.2.2.2.2.2.1 _ _ _ _ rfl rfl rfl,
    h.2.2.2.2.2.2.2.2 _ _ _ _ rfl rfl rfl, by decide⟩

/-- C15 (not-found on deletion), what the code does: no `EnsureDeleted` tells a
not-found answer from any other error. For each of the five owning tasks, with the
Reference set (and the parent Reference the `Delete` is addressed under) and a `Delete`
that answers not-found, `EnsureDeleted` returns an error after that one `Delete` and
leaves the state as it is, the Reference still set. -/
theorem not_found_on_delete_is_an_error {σ : Type} (ctx : EnsurerContext σ)
    (state : NSXTInfraState) (conn : Conn σ) :
    (∀ ref err w1, state.Tier1GatewayRef = some ref →
      ctx.tier1sDelete conn.world ref.ID = (some err, w1) → isNotFoundError err = true →
      ∃ taskError, tier1GatewayTask.EnsureDeleted ctx state conn =
        { result := .error taskError, state := state
          conn := { world := w1, calls := conn.calls ++ [.tier1sDelete ref.ID] } } ∧
        tier1GatewayTask.Reference (tier1GatewayTask.EnsureDeleted ctx state conn).state =
          some ref) ∧
    (∀ ref err w1, state.LocaleServiceRef = some ref →
      ctx.localeServicesDelete conn.world ref.ID ctx.defaultPolicyLocaleServiceID =
        (some err, w1) → isNotFoundError err = true →
      ∃ taskError, tier1GatewayLocaleServiceTask.EnsureDeleted ctx state conn =
        { result := .error taskError, state := state
          conn := { world := w1
                    calls := conn.calls ++
                      [.localeServicesDelete ref.ID ctx.defaultPolicyLocaleServiceID] } } ∧
        tier1GatewayLocaleServiceTask.Reference
          (tier1GatewayLocaleServiceTask.EnsureDeleted ctx state conn).state = some ref) ∧
    (∀ ref err w1, state.SegmentRef = some ref →
      ctx.segmentsDelete conn.world ref.ID = (some err, w1) → isNotFoundError err = true →
      ∃ taskError, segmentTask.EnsureDeleted ctx state conn =
        { result := .error taskError, state := state
          conn := { world := w1, calls := conn.calls ++ [.segmentsDelete ref.ID] } } ∧
        segmentTask.Reference (segmentTask.EnsureDeleted ctx state conn).state = some ref) ∧
    (∀ ref pool err w1, state.SNATIPAddressAllocRef = some ref →
      state.SNATIPPoolRef = some pool →
      ctx.ipAllocationsDelete conn.world pool.ID ref.ID = (some err, w1) →
      isNotFoundError err = true →
      ∃ taskError, snatIPAddressAllocationTask.EnsureDeleted ctx state conn =
        { result := .error taskError, state := state
          conn := { world := w1
                    calls := conn.calls ++ [.ipAllocationsDelete pool.ID ref.ID] } } ∧
        snatIPAddressAllocationTask.Reference
          (snatIPAddressAllocationTask.EnsureDeleted ctx state conn).state = some ref) ∧
    (∀ ref tier1 err w1, state.SNATRuleRef = some ref → state.Tier1GatewayRef = some tier1 →
      ctx.natRulesDelete conn.world tier1.ID PolicyNat_NAT_TYPE_USER ref.ID = (some err, w1) →
      isNotFoundError err = true →
      ∃ taskError, snatRuleTask.EnsureDeleted ctx state conn =
        { result := .error taskError, state := state
          conn := { world := w1
                    calls := conn.calls ++
                      [.natRulesDelete tier1.ID PolicyNat_NAT_TYPE_USER ref.ID] } } ∧
        snatRuleTask.Reference (snatRuleTask.EnsureDeleted ctx state conn).state =
          some ref) := by
  refine ⟨?_, ?_, ?_, ?_, ?_⟩
  · intro ref err w1 hRef hDelete _
    exact ⟨.api (ctx.nicerVAPIError err),
      by simp [tier1GatewayTask.EnsureDeleted, hRef, Conn.invoke, hDelete],
      by simp [tier1GatewayTask.EnsureDeleted, tier1GatewayTask.Reference, hRef, Conn.invoke,
        hDelete]⟩
  · intro ref err w1 hRef hDelete _
    exact ⟨.api (ctx.nicerVAPIError err),
      by simp [tier1GatewayLocaleServiceTask.EnsureDeleted, hRef, Conn.invoke, hDelete],
      by simp [tier1GatewayLocaleServiceTask.EnsureDeleted,
        tier1GatewayLocaleServiceTask.Reference, hRef, Conn.invoke, hDelete]⟩
  · intro ref err w1 hRef hDelete _
    exact ⟨.api (ctx.nicerVAPIError err),
      by simp [segmentTask.EnsureDeleted, hRef, Conn.invoke, hDelete],
      by simp [segmentTask.EnsureDeleted, segmentTask.Reference, hRef, Conn.invoke, hDelete]⟩
  · intro ref pool err w1 hRef hPool hDelete _
    exact ⟨.api err,
      by simp [snatIPAddressAllocationTask.EnsureDeleted, hRef, hPool, Conn.invoke, hDelete],
      by simp [snatIPAddressAllocationTask.EnsureDeleted, snatIPAddressAllocationTask.Reference,
        hRef, hPool, Conn.invoke, hDelete]⟩
  · intro ref tier1 err w1 hRef hTier1 hDelete _
    exact ⟨.api err,
      by simp [snatRuleTask.EnsureDeleted, hRef, hTier1, Conn.invoke, hDelete],
      by simp [snatRuleTask.EnsureDeleted, snatRuleTask.Reference, hRef, hTier1, Conn.invoke,
        hDelete]⟩

/-- C15, the code against the claim: on the storing catalogue that holds none of the
objects the state points at, every `Delete` answers not-found, and each of the five
`EnsureDeleted` returns that not-found error and leaves its Reference set. -/
theorem delete_of_absent_object_fails :
    ((tier1GatewayTask.EnsureDeleted (storeContext sampleHelpers) staleState sampleConn).result =
        .error (.api (.notFound "gw")) ∧
      tier1GatewayTask.Reference
        (tier1GatewayTask.EnsureDeleted (storeContext sampleHelpers) staleState
          sampleConn).state = some { ID := "gw", Path := "/infra/tier-1s/gw" }) ∧
    ((tier1GatewayLocaleServiceTask.EnsureDeleted (storeContext sampleHelpers) staleState
        sampleConn).result = .error (.api (.notFound "default")) ∧
      tier1GatewayLocaleServiceTask.Reference
        (tier1GatewayLocaleServiceTask.EnsureDeleted (storeContext sampleHelpers) staleState
          sampleConn).state = some { ID := "gw", Path := "" }) ∧
    ((segmentTask.EnsureDeleted (storeContext sampleHelpers) staleState sampleConn).result =
        .error (.api (.notFound "seg")) ∧
      segmentTask.Reference
        (segmentTask.EnsureDeleted (storeContext sampleHelpers) staleState sampleConn).state =
          some { ID := "seg", Path := "/infra/segments/seg" }) ∧
    ((snatIPAddressAllocationTask.EnsureDeleted (storeContext sampleHelpers) staleState
        sampleConn).result = .error (.api (.notFound "alloc")) ∧
      snatIPAddressAllocationTask.Reference
        (snatIPAddressAllocationTask.EnsureDeleted (storeContext sampleHelpers) staleState
          sampleConn).state = some { ID := "alloc", Path := "/infra/ip-pools/pool/alloc" }) ∧
    ((snatRuleTask.EnsureDeleted (storeContext sampleHelpers) staleState sampleConn).result =
        .error (.api (.notFound "rule")) ∧
      snatRuleTask.Reference
        (snatRuleTask.EnsureDeleted (storeContext sampleHelpers) staleState sampleConn).state =
          some { ID := "rule", Path := "/infra/tier-1s/gw/nat/USER/nat-rules/rule" }) := by
  refine ⟨⟨rfl, rfl⟩, ⟨rfl, rfl⟩, ⟨rfl, rfl⟩, ⟨rfl, rfl⟩, ⟨rfl, rfl⟩⟩

/-- Witness for C15: on the storing catalogue that holds no tier-1 gateway,
`EnsureDeleted` of the tier-1 gateway returns an error after the one `Delete` and
keeps the Reference of the state with every slot set. -/
theorem not_found_on_delete_is_an_error_witness :
    ∃ taskError,
      tier1GatewayTask.EnsureDeleted (storeContext sampleHelpers) staleState sampleConn =
        { result := .error taskError, state := staleState
          conn := { world := sampleStore, calls := [.tier1sDelete "gw"] } } ∧
      tier1GatewayTask.Reference
        (tier1GatewayTask.EnsureDeleted (storeContext sampleHelpers) staleState
          sampleConn).state = some { ID := "gw", Path := "/infra/tier-1s/gw" } :=
  (not_found_on_delete_is_an_error (storeContext sampleHelpers) staleState sampleConn).1
    { ID := "gw", Path := "/infra/tier-1s/gw" } (.notFound "gw") sampleStore rfl rfl rfl

/-- C17 (teardown in reverse creation order). From a state in which the five owned
References and `SNATIPPoolRef` are set, against a catalogue on which the five `Delete`
calls succeed one after the other, running `EnsureDeleted` in the order SNAT rule,
SNAT allocation, segment, locale service, tier-1 gateway returns true five times
without a nil dereference; the `Delete` calls are issued in that order, the SNAT rule
under the ID of the tier-1 gateway and the allocation under the ID of the pool; the
final state has the five owned References, `SegmentName` and `SNATIPAddress` nil and
every other slot, the four lookup References among them, as before. -/
theorem teardown_in_reverse_order {σ : Type} (ctx : EnsurerContext σ) (state : NSXTInfraState)
    (conn : Conn σ) (rule alloc segment locale tier1 pool : Reference) (w1 w2 w3 w4 w5 : σ)
    (hRule : state.SNATRuleRef = some rule) (hAlloc : state.SNATIPAddressAllocRef = some alloc)
    (hSegment : state.SegmentRef = some segment) (hLocale : state.LocaleServiceRef = some locale)
    (hTier1 : state.Tier1GatewayRef = some tier1) (hPool : state.SNATIPPoolRef = some pool)
    (hDeleteRule : ctx.natRulesDelete conn.world tier1.ID PolicyNat_NAT_TYPE_USER rule.ID =
      (none, w1))
    (hDeleteAlloc : ctx.ipAllocationsDelete w1 pool.ID alloc.ID = (none, w2))
    (hDeleteSegment : ctx.segmentsDelete w2 segment.ID = (none, w3))
    (hDeleteLocale : ctx.localeServicesDelete w3 locale.ID ctx.defaultPolicyLocaleServiceID =
      (none, w4))
    (hDeleteTier1 : ctx.tier1sDelete w4 tier1.ID = (none, w5)) :
    ∃ run, runTasks (deleteTasks ctx) [] state conn = some run ∧
      run.result = .ok [true, true, true, true, true] ∧
      run.conn = { world := w5
                   calls := conn.calls ++
                     [.natRulesDelete tier1.ID PolicyNat_NAT_TYPE_USER rule.ID,
                      .ipAllocationsDelete pool.ID alloc.ID,
                      .segmentsDelete segment.ID,
                      .localeServicesDelete locale.ID ctx.defaultPolicyLocaleServiceID,
                      .tier1sDelete tier1.ID] } ∧
      run.state = { state with
                    SNATRuleRef := none, SNATIPAddressAllocRef := none, SNATIPAddress := none
                    SegmentRef := none, SegmentName := none, LocaleServiceRef := none
                    Tier1GatewayRef := none } ∧
      (run.state.Tier1GatewayRef = none ∧ run.state.LocaleServiceRef = none ∧
        run.state.SegmentRef = none ∧ run.state.SNATIPAddressAllocRef = none ∧
        run.state.SNATRuleRef = none ∧ run.state.SegmentName = none ∧
        run.state.SNATIPAddress = none) ∧
      (run.state.Tier0GatewayRef = state.Tier0GatewayRef ∧
        run.state.EdgeClusterRef = state.EdgeClusterRef ∧
        run.state.TransportZoneRef = state.TransportZoneRef ∧
        run.state.SNATIPPoolRef = state.SNATIPPoolRef) := by
  refine ⟨{ result := .ok [true, true, true, true, true]
            state := { state with
                       SNATRuleRef := none, SNATIPAddressAllocRef := none, SNATIPAddress := none
                       SegmentRef := none, SegmentName := none, LocaleServiceRef := none
                       Tier1GatewayRef := none }
            conn := { world := w5
                      calls := conn.calls ++
                        [.natRulesDelete tier1.ID PolicyNat_NAT_TYPE_USER rule.ID,
                         .ipAllocationsDelete pool.ID alloc.ID,
                         .segmentsDelete segment.ID,
                         .localeServicesDelete locale.ID ctx.defaultPolicyLocaleServiceID,
                         .tier1sDelete tier1.ID] } },
    ?_, rfl, rfl, rfl, ⟨rfl, rfl, rfl, rfl, rfl, rfl, rfl⟩, rfl, rfl, rfl, rfl⟩
  simp [runTasks, deleteTasks, snatRuleTask.EnsureDeleted, snatIPAddressAllocationTask.EnsureDeleted,
    segmentTask.EnsureDeleted, tier1GatewayLocaleServiceTask.EnsureDeleted,
    tier1GatewayTask.EnsureDeleted, hRule, hAlloc, hSegment, hLocale, hTier1, hPool, Conn.invoke,
    hDeleteRule, hDeleteAlloc, hDeleteSegment, hDeleteLocale, hDeleteTier1]

/-- Witness for C17: the teardown of the state with every slot set, on the catalogue
whose `Delete` calls succeed. -/
theorem teardown_in_reverse_order_witness :
    ∃ run, runTasks (deleteTasks deletingContext) [] staleState stubConn = some run ∧
      run.result = .ok [true, true, true, true, true] ∧
      run.conn = { world := ()
                   calls := [.natRulesDelete "gw" "USER" "rule", .ipAllocationsDelete "pool" "alloc",
                             .segmentsDelete "seg", .localeServicesDelete "gw" "default",
                             .tier1sDelete "gw"] } ∧
      run.state = { emptyState with
                    Tier0GatewayRef := some { ID := "t0", Path := "/infra/tier-0s/t0" }
                    EdgeClusterRef := some { ID := "ec", Path := "/infra/edge-clusters/ec" }
                    TransportZoneRef := some { ID := "tz", Path := "/infra/transport-zones/tz" }
                    SNATIPPoolRef := some { ID := "pool", Path := "/infra/ip-pools/pool" } } := by
  obtain ⟨run, hRun, hResult, hConn, hState, _, _⟩ :=
    teardown_in_reverse_order deletingContext staleState stubConn _ _ _ _ _ _ () () () () ()
      rfl rfl rfl rfl rfl rfl rfl rfl rfl rfl rfl
  exact ⟨run, hRun, hResult, hConn, hState⟩

/-- C18 (stale Reference after a failed re-creation), what the code does: when the
task's own Reference is set, `Get` answers not-found and the create-or-replace call
that follows fails, `Ensure` returns a creating failure after the `Get` and the one
`Update`. The tier-1 gateway, the segment and the SNAT rule task have cleared their
Reference by then; the SNAT allocation task has not: it leaves the whole state as it
was, the Reference to the absent allocation included. -/
theorem allocation_keeps_stale_reference {σ : Type} (ctx : EnsurerContext σ)
    (spec : NSXTInfraSpec) (state : NSXTInfraState) (conn : Conn σ) :
    (∀ (ref tier0 : Reference) (err err2 : ApiError) (w1 w2 w3 : σ) (id : String),
      state.Tier1GatewayRef = some ref → state.Tier0GatewayRef = some tier0 →
      ctx.tier1sGet conn.world ref.ID = (.error err, w1) → isNotFoundError err = true →
      ctx.generateID w1 "tier1gw" = (id, w2) →
      ctx.tier1sUpdate w2 id (tier1GatewayTask.desired ctx.toHelpers spec tier0.Path) =
        (.error err2, w3) →
      ∀ fuel, tier1GatewayTask.Ensure (fuel + 2) ctx spec state conn =
        some { result := .error (.creating err2)
               state := { state with Tier1GatewayRef := none }
               conn := { world := w3
                         calls := conn.calls ++ [.tier1sGet ref.ID,
                           .tier1sUpdate id
                             (tier1GatewayTask.desired ctx.toHelpers spec tier0.Path)] } }) ∧
    (∀ (ref tier1 zone : Reference) (gatewayAddr suffix0 suffix : String) (err err2 : ApiError)
        (w0 w1 w2 w3 w4 : σ) (id : String),
      state.SegmentRef = some ref → state.Tier1GatewayRef = some tier1 →
      state.TransportZoneRef = some zone →
      ctx.cidrHostAndPrefix spec.WorkersNetwork 1 = .ok gatewayAddr →
      ctx.RandomString conn.world 8 = (suffix0, w0) →
      ctx.segmentsGet w0 ref.ID = (.error err, w1) → isNotFoundError err = true →
      ctx.RandomString w1 8 = (suffix, w2) →
      ctx.generateID w2 "segment" = (id, w3) →
      ctx.segmentsUpdate w3 id (segmentTask.desired ctx.toHelpers spec gatewayAddr
          (spec.FullClusterName ++ "-" ++ suffix) tier1.Path zone.Path) = (.error err2, w4) →
      ∀ fuel, segmentTask.Ensure (fuel + 2) ctx spec state conn =
        some { result := .error (.creating err2)
               state := { state with SegmentRef := none }
               conn := { world := w4
                         calls := conn.calls ++ [.segmentsGet ref.ID,
                           .segmentsUpdate id (segmentTask.desired ctx.toHelpers spec gatewayAddr
                             (spec.FullClusterName ++ "-" ++ suffix) tier1.Path zone.Path)] } }) ∧
    (∀ (ref tier1 : Reference) (address : String) (err err2 : ApiError) (w1 w2 w3 : σ)
        (id : String),
      state.SNATRuleRef = some ref → state.Tier1GatewayRef = some tier1 →
      state.SNATIPAddress = some address →
      ctx.natRulesGet conn.world tier1.ID PolicyNat_NAT_TYPE_USER ref.ID = (.error err, w1) →
      isNotFoundError err = true →
      ctx.generateID w1 "snatrule" = (id, w2) →
      ctx.natRulesUpdate w2 tier1.ID PolicyNat_NAT_TYPE_USER id
        (snatRuleTask.desired ctx.toHelpers spec address) = (.error err2, w3) →
      ∀ fuel, snatRuleTask.Ensure (fuel + 2) ctx spec state conn =
        some { result := .error (.creating err2)
               state := { state with SNATRuleRef := none }
               conn := { world := w3
                         calls := conn.calls ++ [.natRulesGet tier1.ID PolicyNat_NAT_TYPE_USER ref.ID,
                           .natRulesUpdate tier1.ID PolicyNat_NAT_TYPE_USER id
                             (snatRuleTask.desired ctx.toHelpers spec address)] } }) ∧
    (∀ (ref pool : Reference) (err err2 : ApiError) (w1 w2 w3 : σ) (id : String),
      state.SNATIPAddressAllocRef = some ref → state.SNATIPPoolRef = some pool →
      ctx.ipAllocationsGet conn.world pool.ID ref.ID = (.error err, w1) →
      isNotFoundError err = true →
      ctx.generateID w1 "snatippool" = (id, w2) →
      ctx.ipAllocationsUpdate w2 pool.ID id
        (snatIPAddressAllocationTask.desired ctx.toHelpers spec) = (.error err2, w3) →
      snatIPAddressAllocationTask.Ensure ctx spec state conn =
        { result := .error (.creating err2)
          state := state
          conn := { world := w3
                    calls := conn.calls ++ [.ipAllocationsGet pool.ID ref.ID,
                      .ipAllocationsUpdate pool.ID id
                        (snatIPAddressAllocationTask.desired ctx.toHelpers spec)] } } ∧
      snatIPAddressAllocationTask.Reference
        (snatIPAddressAllocationTask.Ensure ctx spec state conn).state = some ref) := by
  refine ⟨?_, ?_, ?_, ?_⟩
  · intro ref tier0 err err2 w1 w2 w3 id hRef hT0 hGet hNF hId hUpd fuel
    simp [tier1GatewayTask.Ensure, hRef, hT0, Conn.invoke, Conn.draw, hGet, hNF, hId, hUpd]
  · intro ref tier1 zone gatewayAddr suffix0 suffix err err2 w0 w1 w2 w3 w4 id
      hRef hT1 hTZ hCidr hR0 hGet hNF hR hId hUpd fuel
    simp [segmentTask.Ensure, hRef, hT1, hTZ, hCidr, hR0, Conn.invoke, Conn.draw, hGet, hNF, hR,
      hId, hUpd]
  · intro ref tier1 address err err2 w1 w2 w3 id hRef hT1 hAddr hGet hNF hId hUpd fuel
    simp [snatRuleTask.Ensure, hRef, hT1, hAddr, Conn.invoke, Conn.draw, hGet, hNF, hId, hUpd]
  · intro ref pool err err2 w1 w2 w3 id hRef hPool hGet hNF hId hUpd
    have hRun : snatIPAddressAllocationTask.Ensure ctx spec state conn =
        { result := .error (.creating err2)
          state := state
          conn := { world := w3
                    calls := conn.calls ++ [.ipAllocationsGet pool.ID ref.ID,
                      .ipAllocationsUpdate pool.ID id
                        (snatIPAddressAllocationTask.desired ctx.toHelpers spec)] } } := by
      simp [snatIPAddressAllocationTask.Ensure, snatIPAddressAllocationTask.create, hRef, hPool,
        Conn.invoke, Conn.draw, hGet, hNF, hId, hUpd]
    exact ⟨hRun, by rw [hRun]; exact hRef⟩

/-- Witness for C18: on the catalogue from which every object is gone and on which
nothing can be written, from the state with every slot set, the tier-1 gateway task
returns the creating failure with its Reference nil, the SNAT allocation task returns
the creating failure with its Reference still pointing at the absent allocation. -/
theorem allocation_keeps_stale_reference_witness :
    (tier1GatewayTask.Ensure 2 goneContext sampleSpec staleState stubConn).map
        (fun run => (run.result, tier1GatewayTask.Reference run.state)) =
      some (.error (.creating (.other "unavailable")), none) ∧
    ((snatIPAddressAllocationTask.Ensure goneContext sampleSpec staleState stubConn).result,
      snatIPAddressAllocationTask.Reference
        (snatIPAddressAllocationTask.Ensure goneContext sampleSpec staleState stubConn).state) =
      (.error (.creating (.other "unavailable")),
        some { ID := "alloc", Path := "/infra/ip-pools/pool/alloc" }) := by
  have h := allocation_keeps_stale_reference goneContext sampleSpec staleState stubConn
  refine ⟨?_, ?_⟩
  · rw [h.1 _ _ _ _ _ _ _ _ rfl rfl rfl rfl rfl rfl 0]
    rfl
  · rw [(h.2.2.2 _ _ _ _ _ _ _ _ rfl rfl rfl rfl rfl rfl).1]
    rfl

/-- The paginated loop changes nothing but the slot it assigns, and issues
only the calls `mkCall` makes. -/
theorem pagedLookup_frame {σ : Type}
    (list : σ → Option String → Except ApiError ListResult × σ)
    (mkCall : Option String → Call) (nicer : ApiError → ApiError)
    (setRef : NSXTInfraState → Reference → NSXTInfraState) (name : String)
    (state : NSXTInfraState) :
    ∀ (fuel : Nat) (cursor : Option String) (total count : Int) (conn : Conn σ) (run : Run σ Action),
      pagedLookup list mkCall nicer setRef name fuel cursor total count state conn = some run →
      (run.state = state ∨ ∃ ref, run.state = setRef state ref) ∧
      ∃ cursors : List (Option String), run.conn.calls = conn.calls ++ cursors.map mkCall := by
  intro fuel
  induction fuel with
  | zero => intro cursor total count conn run h; simp [pagedLookup] at h
  | succ n ih =>
    intro cursor total count conn run h
    rcases hList : list conn.world cursor with ⟨answer, w1⟩
    cases answer with
    | error err =>
      simp only [pagedLookup, Conn.invoke, hList] at h
      cases h
      exact ⟨Or.inl rfl, [cursor], rfl⟩
    | ok result =>
      cases hScan : scanItems name result.Results with
      | found ref =>
        simp only [pagedLookup, Conn.invoke, hList, hScan] at h
        cases h
        exact ⟨Or.inr ⟨ref, rfl⟩, [cursor], rfl⟩
      | panic =>
        simp only [pagedLookup, Conn.invoke, hList, hScan] at h
        cases h
        exact ⟨Or.inl rfl, [cursor], rfl⟩
      | absent =>
        cases hTotal : (if cursor = none then result.ResultCount else some total) with
        | none =>
          simp only [pagedLookup, Conn.invoke, hList, hScan, hTotal] at h
          cases h
          exact ⟨Or.inl rfl, [cursor], rfl⟩
        | some total1 =>
          simp only [pagedLookup, Conn.invoke, hList, hScan, hTotal] at h
          split at h
          · cases h
            exact ⟨Or.inl rfl, [cursor], rfl⟩
          · obtain ⟨hState, cursors, hCalls⟩ := ih _ _ _ _ _ h
            refine ⟨hState, cursor :: cursors, ?_⟩
            rw [hCalls]
            simp

/-- The single-page lookup changes nothing but the slot it assigns. -/
theorem singleLookup_frame {σ : Type} (answer : Except ApiError ListResult × Conn σ)
    (nicer : ApiError → ApiError) (setRef : NSXTInfraState → Reference → NSXTInfraState)
    (name : String) (state : NSXTInfraState) :
    ((singleLookup answer nicer setRef name state).state = state ∨
      ∃ ref, (singleLookup answer nicer setRef name state).state = setRef state ref) ∧
    (singleLookup answer nicer setRef name state).conn = answer.2 := by
  rcases answer with ⟨result, conn1⟩
  cases result with
  | error err => exact ⟨Or.inl rfl, rfl⟩
  | ok result =>
    cases hScan : scanItems name result.Results with
    | found ref => simp only [singleLookup, hScan]; exact ⟨Or.inr ⟨ref, rfl⟩, trivial⟩
    | panic => simp [singleLookup, hScan]
    | absent => simp [singleLookup, hScan]

/-- `tier1GatewayTask.Ensure` changes no slot but `Tier1GatewayRef`. -/
theorem tier1_ensure_frame {σ : Type} (ctx : EnsurerContext σ) (spec : NSXTInfraSpec) :
    ∀ (fuel : Nat) (state : NSXTInfraState) (conn : Conn σ) (run : Run σ Action),
      tier1GatewayTask.Ensure fuel ctx spec state conn = some run →
      run.state = { state with Tier1GatewayRef := run.state.Tier1GatewayRef } := by
  intro fuel
  induction fuel with
  | zero => intro state conn run h; simp [tier1GatewayTask.Ensure] at h
  | succ n ih =>
    intro state conn run h
    simp only [tier1GatewayTask.Ensure, Conn.invoke, Conn.draw] at h
    repeat' split at h
    all_goals first
      | (cases h; rfl)
      | (have hRest := ih _ _ _ h; exact hRest)

/-- `tier1GatewayLocaleServiceTask.Ensure` changes no slot but `LocaleServiceRef`
and `Tier1GatewayRef`. -/
theorem locale_service_ensure_frame {σ : Type} (ctx : EnsurerContext σ) (spec : NSXTInfraSpec) :
    ∀ (fuel : Nat) (state : NSXTInfraState) (conn : Conn σ) (run : Run σ Action),
      tier1GatewayLocaleServiceTask.Ensure fuel ctx spec state conn = some run →
      run.state = { state with
                    LocaleServiceRef := run.state.LocaleServiceRef
                    Tier1GatewayRef := run.state.Tier1GatewayRef } := by
  intro fuel
  induction fuel with
  | zero => intro state conn run h; simp [tier1GatewayLocaleServiceTask.Ensure] at h
  | succ n ih =>
    intro state conn run h
    simp only [tier1GatewayLocaleServiceTask.Ensure, Conn.invoke, Conn.draw] at h
    repeat' split at h
    all_goals first
      | (cases h; rfl)
      | (have hRest := ih _ _ _ h; exact hRest)

/-- `segmentTask.Ensure` changes no slot but `SegmentRef` and `SegmentName`. -/
theorem segment_ensure_frame {σ : Type} (ctx : EnsurerContext σ) (spec : NSXTInfraSpec) :
    ∀ (fuel : Nat) (state : NSXTInfraState) (conn : Conn σ) (run : Run σ Action),
      segmentTask.Ensure fuel ctx spec state conn = some run →
      run.state = { state with
                    SegmentRef := run.state.SegmentRef, SegmentName := run.state.SegmentName } := by
  intro fuel
  induction fuel with
  | zero => intro state conn run h; simp [segmentTask.Ensure] at h
  | succ n ih =>
    intro state conn run h
    simp only [segmentTask.Ensure, Conn.invoke, Conn.draw] at h
    repeat' split at h
    all_goals first
      | (cases h; rfl)
      | (have hRest := ih _ _ _ h; exact hRest)

/-- `snatRuleTask.Ensure` changes no slot but `SNATRuleRef`. -/
theorem snat_rule_ensure_frame {σ : Type} (ctx : EnsurerContext σ) (spec : NSXTInfraSpec) :
    ∀ (fuel : Nat) (state : NSXTInfraState) (conn : Conn σ) (run : Run σ Action),
      snatRuleTask.Ensure fuel ctx spec state conn = some run →
      run.state = { state with SNATRuleRef := run.state.SNATRuleRef } := by
  intro fuel
  induction fuel with
  | zero => intro state conn run h; simp [snatRuleTask.Ensure] at h
  | succ n ih =>
    intro state conn run h
    simp only [snatRuleTask.Ensure, Conn.invoke, Conn.draw] at h
    repeat' split at h
    all_goals first
      | (cases h; rfl)
      | (have hRest := ih _ _ _ h; exact hRest)

/-- `snatIPAddressAllocationTask.Ensure` changes no slot but
`SNATIPAddressAllocRef`. -/
theorem allocation_ensure_frame {σ : Type} (ctx : EnsurerContext σ) (spec : NSXTInfraSpec)
    (state : NSXTInfraState) (conn : Conn σ) :
    (snatIPAddressAllocationTask.Ensure ctx spec state conn).state =
      { state with
        SNATIPAddressAllocRef :=
          (snatIPAddressAllocationTask.Ensure ctx spec state conn).state.SNATIPAddressAllocRef } := by
  simp only [snatIPAddressAllocationTask.Ensure, snatIPAddressAllocationTask.create, Conn.invoke,
    Conn.draw]
  repeat' split
  all_goals rfl

/-- `snatIPAddressRealizationTask.Ensure` changes no slot but `SNATIPAddress`. -/
theorem realization_ensure_frame {σ : Type} (ctx : EnsurerContext σ) (spec : NSXTInfraSpec)
    (state : NSXTInfraState) (conn : Conn σ) :
    (snatIPAddressRealizationTask.Ensure ctx spec state conn).state =
      { state with
        SNATIPAddress :=
          (snatIPAddressRealizationTask.Ensure ctx spec state conn).state.SNATIPAddress } := by
  simp only [snatIPAddressRealizationTask.Ensure, Conn.invoke]
  repeat' split
  all_goals rfl

/-- With `LocaleServiceRef` set and `Tier1GatewayRef` nil, whatever
`tier1GatewayLocaleServiceTask.Ensure` returns, it returns with the state as it
is: the creation is not reached, and no other branch assigns to the state. -/
theorem locale_service_ensure_after_not_found {σ : Type} (ctx : EnsurerContext σ)
    (spec : NSXTInfraSpec) (ref : Reference) :
    ∀ (fuel : Nat) (state : NSXTInfraState) (conn : Conn σ) (run : Run σ Action),
      state.LocaleServiceRef = some ref → state.Tier1GatewayRef = none →
      tier1GatewayLocaleServiceTask.Ensure fuel ctx spec state conn = some run →
      run.state = state := by
  intro fuel
  induction fuel with
  | zero => intro state conn run _ _ h; simp [tier1GatewayLocaleServiceTask.Ensure] at h
  | succ n ih =>
    intro state conn run hRef hNil h
    simp only [tier1GatewayLocaleServiceTask.Ensure, Conn.invoke, Conn.draw, hRef] at h
    repeat' split at h
    all_goals first
      | (cases h; rfl)
      | (have hRest := ih _ _ _ rfl rfl h
         rw [hRest]
         cases state
         simp_all)

/-- C13 (Reference ownership), what the code does. Every operation but one changes
no slot other than its own Reference (with `SegmentName` for the segment task and
`SNATIPAddress` for the realization and for the deletion of the allocation), and the
lookups issue only `List` calls. The exception is `Ensure` of the locale-service task:
it changes no slot but `LocaleServiceRef` and `Tier1GatewayRef`, and whenever its `Get`
answers not-found, whatever it returns afterwards, it returns with `Tier1GatewayRef`,
the Reference of the tier-1 gateway task, nil and its own Reference as it was. -/
theorem locale_service_ensure_clears_tier1_reference {σ : Type} (ctx : EnsurerContext σ)
    (spec : NSXTInfraSpec) (state : NSXTInfraState) (conn : Conn σ) :
    ((∀ fuel run, lookupTier0GatewayTask.Ensure fuel ctx spec state conn = some run →
        run.state = { state with Tier0GatewayRef := run.state.Tier0GatewayRef } ∧
        ∃ extra, run.conn.calls = conn.calls ++ extra ∧ ∀ call ∈ extra, call.isList = true) ∧
     ((lookupEdgeClusterTask.Ensure ctx spec state conn).state =
        { state with
          EdgeClusterRef := (lookupEdgeClusterTask.Ensure ctx spec state conn).state.EdgeClusterRef } ∧
      (lookupEdgeClusterTask.Ensure ctx spec state conn).conn.calls =
        conn.calls ++ [.edgeClustersList ctx.defaultSite ctx.policyEnforcementPoint]) ∧
     ((lookupTransportZoneTask.Ensure ctx spec state conn).state =
        { state with
          TransportZoneRef :=
            (lookupTransportZoneTask.Ensure ctx spec state conn).state.TransportZoneRef } ∧
      (lookupTransportZoneTask.Ensure ctx spec state conn).conn.calls =
        conn.calls ++ [.transportZonesList ctx.defaultSite ctx.policyEnforcementPoint]) ∧
     (∀ fuel run, lookupSNATIPPoolTask.Ensure fuel ctx spec state conn = some run →
        run.state = { state with SNATIPPoolRef := run.state.SNATIPPoolRef } ∧
        ∃ extra, run.conn.calls = conn.calls ++ extra ∧ ∀ call ∈ extra, call.isList = true)) ∧
    ((∀ fuel run, tier1GatewayTask.Ensure fuel ctx spec state conn = some run →
        run.state = { state with Tier1GatewayRef := run.state.Tier1GatewayRef }) ∧
     (∀ fuel run, segmentTask.Ensure fuel ctx spec state conn = some run →
        run.state = { state with
                      SegmentRef := run.state.SegmentRef
                      SegmentName := run.state.SegmentName }) ∧
     (snatIPAddressAllocationTask.Ensure ctx spec state conn).state =
        { state with
          SNATIPAddressAllocRef :=
            (snatIPAddressAllocationTask.Ensure ctx spec state conn).state.SNATIPAddressAllocRef } ∧
     (snatIPAddressRealizationTask.Ensure ctx spec state conn).state =
        { state with
          SNATIPAddress :=
            (snatIPAddressRealizationTask.Ensure ctx spec state conn).state.SNATIPAddress } ∧
     (∀ fuel run, snatRuleTask.Ensure fuel ctx spec state conn = some run →
        run.state = { state with SNATRuleRef := run.state.SNATRuleRef })) ∧
    ((tier1GatewayTask.EnsureDeleted ctx state conn).state =
        { state with
          Tier1GatewayRef := (tier1GatewayTask.EnsureDeleted ctx state conn).state.Tier1GatewayRef } ∧
     (tier1GatewayLocaleServiceTask.EnsureDeleted ctx state conn).state =
        { state with
          LocaleServiceRef :=
            (tier1GatewayLocaleServiceTask.EnsureDeleted ctx state conn).state.LocaleServiceRef } ∧
     (segmentTask.EnsureDeleted ctx state conn).state =
        { state with
          SegmentRef := (segmentTask.EnsureDeleted ctx state conn).state.SegmentRef
          SegmentName := (segmentTask.EnsureDeleted ctx state conn).state.SegmentName } ∧
     (snatIPAddressAllocationTask.EnsureDeleted ctx state conn).state =
        { state with
          SNATIPAddressAllocRef :=
            (snatIPAddressAllocationTask.EnsureDeleted ctx state conn).state.SNATIPAddressAllocRef
          SNATIPAddress :=
            (snatIPAddressAllocationTask.EnsureDeleted ctx state conn).state.SNATIPAddress } ∧
     (snatRuleTask.EnsureDeleted ctx state conn).state =
        { state with
          SNATRuleRef := (snatRuleTask.EnsureDeleted ctx state conn).state.SNATRuleRef }) ∧
    ((∀ fuel run, tier1GatewayLocaleServiceTask.Ensure fuel ctx spec state conn = some run →
        run.state = { state with
                      LocaleServiceRef := run.state.LocaleServiceRef
                      Tier1GatewayRef := run.state.Tier1GatewayRef }) ∧
     (∀ ref edge err w1 fuel run, state.LocaleServiceRef = some ref →
        state.EdgeClusterRef = some edge →
        ctx.localeServicesGet conn.world ref.ID ctx.defaultPolicyLocaleServiceID =
          (.error err, w1) →
        isNotFoundError err = true →
        tier1GatewayLocaleServiceTask.Ensure fuel ctx spec state conn = some run →
        tier1GatewayTask.Reference run.state = none ∧
        tier1GatewayLocaleServiceTask.Reference run.state = some ref ∧
        run.state = { state with Tier1GatewayRef := none })) := by
  refine ⟨⟨?_, ?_, ?_, ?_⟩, ⟨?_, ?_, ?_, ?_, ?_⟩, ⟨?_, ?_, ?_, ?_, ?_⟩, ?_, ?_⟩
  · intro fuel run h
    obtain ⟨hState, cursors, hCalls⟩ := pagedLookup_frame _ _ _ _ _ state fuel _ _ _ conn run h
    refine ⟨?_, cursors.map Call.tier0sList, hCalls, ?_⟩
    · rcases hState with hSame | ⟨ref, hSet⟩
      · rw [hSame]
      · rw [hSet]
    · intro call hCall
      obtain ⟨cursor, _, rfl⟩ := List.mem_map.mp hCall
      rfl
  · obtain ⟨hState, hConn⟩ := singleLookup_frame
      (conn.invoke (.edgeClustersList ctx.defaultSite ctx.policyEnforcementPoint)
        (ctx.edgeClustersList conn.world ctx.defaultSite ctx.policyEnforcementPoint))
      ctx.nicerVAPIError (fun st ref => { st with EdgeClusterRef := some ref })
      spec.EdgeClusterName state
    refine ⟨?_, ?_⟩
    · rcases hState with hSame | ⟨ref, hSet⟩
      · simp only [lookupEdgeClusterTask.Ensure]
        rw [hSame]
      · simp only [lookupEdgeClusterTask.Ensure]
        rw [hSet]
    · simp only [lookupEdgeClusterTask.Ensure]
      rw [hConn]
      rfl
  · obtain ⟨hState, hConn⟩ := singleLookup_frame
      (conn.invoke (.transportZonesList ctx.defaultSite ctx.policyEnforcementPoint)
        (ctx.transportZonesList conn.world ctx.defaultSite ctx.policyEnforcementPoint))
      ctx.nicerVAPIError (fun st ref => { st with TransportZoneRef := some ref })
      spec.TransportZoneName state
    refine ⟨?_, ?_⟩
    · rcases hState with hSame | ⟨ref, hSet⟩
      · simp only [lookupTransportZoneTask.Ensure]
        rw [hSame]
      · simp only [lookupTransportZoneTask.Ensure]
        rw [hSet]
    · simp only [lookupTransportZoneTask.Ensure]
      rw [hConn]
      rfl
  · intro fuel run h
    obtain ⟨hState, cursors, hCalls⟩ := pagedLookup_frame _ _ _ _ _ state fuel _ _ _ conn run h
    refine ⟨?_, cursors.map Call.ipPoolsList, hCalls, ?_⟩
    · rcases hState with hSame | ⟨ref, hSet⟩
      · rw [hSame]
      · rw [hSet]
    · intro call hCall
      obtain ⟨cursor, _, rfl⟩ := List.mem_map.mp hCall
      rfl
  · exact fun fuel run h => tier1_ensure_frame ctx spec fuel state conn run h
  · exact fun fuel run h => segment_ensure_frame ctx spec fuel state conn run h
  · exact allocation_ensure_frame ctx spec state conn
  · exact realization_ensure_frame ctx spec state conn
  · exact fun fuel run h => snat_rule_ensure_frame ctx spec fuel state conn run h
  · simp only [tier1GatewayTask.EnsureDeleted, Conn.invoke]
    repeat' split
    all_goals rfl
  · simp only [tier1GatewayLocaleServiceTask.EnsureDeleted, Conn.invoke]
    repeat' split
    all_goals rfl
  · simp only [segmentTask.EnsureDeleted, Conn.invoke]
    repeat' split
    all_goals rfl
  · simp only [snatIPAddressAllocationTask.EnsureDeleted, Conn.invoke]
    repeat' split
    all_goals rfl
  · simp only [snatRuleTask.EnsureDeleted, Conn.invoke]
    repeat' split
    all_goals rfl
  · exact fun fuel run h => locale_service_ensure_frame ctx spec fuel state conn run h
  · intro ref edge err w1 fuel run hRef hEdge hGet hNF h
    cases fuel with
    | zero => simp [tier1GatewayLocaleServiceTask.Ensure] at h
    | succ n =>
      simp only [tier1GatewayLocaleServiceTask.Ensure, hRef, hEdge, Conn.invoke, hGet, hNF,
        if_true] at h
      have hRest := locale_service_ensure_after_not_found ctx spec ref n _ _ run rfl rfl h
      rw [hRest]
      refine ⟨rfl, rfl, ?_⟩
      cases state
      simp_all

/-- Witness for C13: on the catalogue whose locale service comes and goes, from the
state with every slot set, `Ensure` of the locale-service task returns `Unchanged`
after two `Get` calls, and the Reference of the tier-1 gateway, set before, is nil
afterwards. -/
theorem locale_service_ensure_clears_tier1_reference_witness :
    tier1GatewayTask.Reference staleState = some { ID := "gw", Path := "/infra/tier-1s/gw" } ∧
    ∃ run, tier1GatewayLocaleServiceTask.Ensure 2 localeServiceFlappingContext sampleSpec
        staleState { world := 0, calls := [] } = some run ∧
      run.result = .ok actionUnchanged ∧
      run.conn.calls = [.localeServicesGet "gw" "default", .localeServicesGet "gw" "default"] ∧
      tier1GatewayTask.Reference run.state = none ∧
      tier1GatewayLocaleServiceTask.Reference run.state = some { ID := "gw", Path := "" } ∧
      run.state = { staleState with Tier1GatewayRef := none } := by
  refine ⟨rfl, _, rfl, by decide, by decide, ?_⟩
  exact (locale_service_ensure_clears_tier1_reference localeServiceFlappingContext sampleSpec
    staleState { world := 0, calls := [] }).2.2.2.2 _ _ _ _ 2 _ rfl rfl rfl rfl rfl

/-- C19 (segment name tracking), what the code does on the `Updated` path: with
`SegmentRef` set, a `Get` that returns a segment which differs from the desired one
and a `Patch` that succeeds, `Ensure` returns `Updated`; the object it has patched
the remote segment with carries the display name made of the cluster name and the
random suffix drawn in this call, and the state, `SegmentName` included, is as
before. -/
theorem segment_update_leaves_segment_name {σ : Type} (ctx : EnsurerContext σ)
    (spec : NSXTInfraSpec) (state : NSXTInfraState) (conn : Conn σ)
    (ref tier1 zone : Reference) (gatewayAddr suffix oldName : String) (old : Segment)
    (w0 w1 w2 : σ)
    (hRef : state.SegmentRef = some ref) (hTier1 : state.Tier1GatewayRef = some tier1)
    (hZone : state.TransportZoneRef = some zone)
    (hCidr : ctx.cidrHostAndPrefix spec.WorkersNetwork 1 = .ok gatewayAddr)
    (hRandom : ctx.RandomString conn.world 8 = (suffix, w0))
    (hGet : ctx.segmentsGet w0 ref.ID = (.ok old, w1))
    (hName : old.DisplayName = some oldName)
    (hChanged : segmentTask.changed ctx.toHelpers oldName old
      (segmentTask.desired ctx.toHelpers spec gatewayAddr (spec.FullClusterName ++ "-" ++ suffix)
        tier1.Path zone.Path)
      spec.FullClusterName gatewayAddr tier1.Path zone.Path = true)
    (hPatch : ctx.segmentsPatch w1 ref.ID
      (segmentTask.desired ctx.toHelpers spec gatewayAddr (spec.FullClusterName ++ "-" ++ suffix)
        tier1.Path zone.Path) = (none, w2)) :
    (segmentTask.desired ctx.toHelpers spec gatewayAddr (spec.FullClusterName ++ "-" ++ suffix)
      tier1.Path zone.Path).DisplayName = some (spec.FullClusterName ++ "-" ++ suffix) ∧
    ∀ fuel, segmentTask.Ensure (fuel + 1) ctx spec state conn =
      some { result := .ok actionUpdated
             state := state
             conn := { world := w2
                       calls := conn.calls ++ [.segmentsGet ref.ID,
                         .segmentsPatch ref.ID
                           (segmentTask.desired ctx.toHelpers spec gatewayAddr
                             (spec.FullClusterName ++ "-" ++ suffix) tier1.Path zone.Path)] } } := by
  refine ⟨rfl, fun fuel => ?_⟩
  simp [segmentTask.Ensure, hRef, hTier1, hZone, hCidr, hRandom, Conn.invoke, Conn.draw, hGet,
    hName, hChanged, hPatch]

/-- Witness for C19: the state records the segment "seg" under the name the store holds
it under; the store holds it attached to another tier-1 gateway. `Ensure` returns
`Updated`; afterwards the store holds the segment under a fresh name, the state still
records the old one. -/
theorem segment_update_leaves_segment_name_witness :
    staleState.SegmentName = some "shoot--foo--bar-old" ∧
    ((storeContext sampleHelpers).segmentsGet movedSegmentStore "seg").1.toOption.bind
      (fun segment => segment.DisplayName) = some "shoot--foo--bar-old" ∧
    ∃ run, segmentTask.Ensure 1 (storeContext sampleHelpers) sampleSpec staleState
        { world := movedSegmentStore, calls := [] } = some run ∧
      run.result = .ok actionUpdated ∧
      segmentTask.Reference run.state = some { ID := "seg", Path := "/infra/segments/seg" } ∧
      run.state.SegmentName = some "shoot--foo--bar-old" ∧
      ((storeContext sampleHelpers).segmentsGet run.conn.world "seg").1.toOption.bind
        (fun segment => segment.DisplayName) = some "shoot--foo--bar-aaaaaaaa" := by
  refine ⟨rfl, by decide, _,
    (segment_update_leaves_segment_name (storeContext sampleHelpers) sampleSpec staleState
      { world := movedSegmentStore, calls := [] } _ _ _ _ _ _ _ _ _ _ rfl rfl rfl rfl rfl rfl rfl
      (by decide) rfl).2 0, rfl, rfl, rfl, by decide⟩

set_option maxHeartbeats 1000000 in
/-- C16 (full pipeline). Against the storing catalogue, in which the four shared
objects named by the spec are listed (with ID and Path), with a workers network that
has a gateway address and a tag comparison that accepts the desired tags against
themselves: the ten `Ensure` operations, run in the creation order from the empty
state, return `Found` for the lookups and the realization and `Created` for the five
owned objects, with no error and no nil dereference. They issue the four `List` calls,
one create-or-replace (for the locale service, one `Patch`) per owned object with the
desired object under the ID the catalogue hands out, and the realization; afterwards
the store holds the initial objects and those five, and the state holds the
References of the listed shared objects, the References under which the five objects
are stored, the display name the segment is stored under and the realized address.
The same sequence run again on the resulting state returns `Found` and `Unchanged`,
leaves the state as it is and issues ten calls, four `List`, five `Get` under the
recorded References and the realization, none of which is a `Patch`, a
create-or-replace or a `Delete`; the store is as before but for the random source. -/
theorem full_pipeline_on_storing_catalogue (h : Helpers) (spec : NSXTInfraSpec) (conn : Conn Store)
    (gatewayAddr : String) (tier0 edge zone pool : Reference)
    (hTags : h.equalTags spec.CreateTags spec.CreateTags = true)
    (hCidr : h.cidrHostAndPrefix spec.WorkersNetwork 1 = .ok gatewayAddr)
    (hTier0 : scanItems spec.Tier0GatewayName conn.world.tier0s = .found tier0)
    (hEdge : scanItems spec.EdgeClusterName conn.world.edgeClusters = .found edge)
    (hZone : scanItems spec.TransportZoneName conn.world.transportZones = .found zone)
    (hPool : scanItems spec.SNATIPPoolName conn.world.ipPools = .found pool) (fuel : Nat) :
    ∃ tier1Id suffix segmentId allocId ruleId allocPath : String,
      tier1Id = "tier1gw-" ++ Store.token conn.world 8 ∧
      suffix = Store.token { conn.world with counter := conn.world.counter + 1 } 8 ∧
      segmentId =
        "segment-" ++ Store.token { conn.world with counter := conn.world.counter + 2 } 8 ∧
      allocId =
        "snatippool-" ++ Store.token { conn.world with counter := conn.world.counter + 3 } 8 ∧
      ruleId =
        "snatrule-" ++ Store.token { conn.world with counter := conn.world.counter + 4 } 8 ∧
      allocPath = "/infra/ip-pools/" ++ pool.ID ++ "/ip-allocations/" ++ allocId ∧
      ∃ run1, runTasks (ensureTasks (fuel + 1) (storeContext h) spec) [] emptyState conn =
          some run1 ∧
        run1.result = .ok [actionFound, actionFound, actionFound, actionFound, actionCreated,
          actionCreated, actionCreated, actionCreated, actionFound, actionCreated] ∧
        (run1.state.Tier0GatewayRef = some tier0 ∧ run1.state.EdgeClusterRef = some edge ∧
          run1.state.TransportZoneRef = some zone ∧ run1.state.SNATIPPoolRef = some pool ∧
          run1.state.Tier1GatewayRef.isSome = true ∧ run1.state.LocaleServiceRef.isSome = true ∧
          run1.state.SegmentRef.isSome = true ∧ run1.state.SNATIPAddressAllocRef.isSome = true ∧
          run1.state.SNATRuleRef.isSome = true ∧ run1.state.SegmentName.isSome = true ∧
          run1.state.SNATIPAddress = some conn.world.snatAddress) ∧
        run1.state =
          { SegmentName := some (spec.FullClusterName ++ "-" ++ suffix)
            SNATIPAddress := some conn.world.snatAddress
            Tier0GatewayRef := some tier0
            EdgeClusterRef := some edge
            TransportZoneRef := some zone
            SNATIPPoolRef := some pool
            Tier1GatewayRef := some { ID := tier1Id, Path := "/infra/tier-1s/" ++ tier1Id }
            LocaleServiceRef := some { ID := tier1Id, Path := "" }
            SegmentRef := some { ID := segmentId, Path := "/infra/segments/" ++ segmentId }
            SNATIPAddressAllocRef := some { ID := allocId, Path := allocPath }
            SNATRuleRef :=
              some { ID := ruleId
                     Path := "/infra/tier-1s/" ++ tier1Id ++ "/nat/" ++ PolicyNat_NAT_TYPE_USER ++
                       "/nat-rules/" ++ ruleId } } ∧
        run1.conn.calls = conn.calls ++
          [.tier0sList none,
           .edgeClustersList h.defaultSite h.policyEnforcementPoint,
           .transportZonesList h.defaultSite h.policyEnforcementPoint,
           .ipPoolsList none,
           .tier1sUpdate tier1Id (tier1GatewayTask.desired h spec tier0.Path),
           .localeServicesPatch tier1Id h.defaultPolicyLocaleServiceID
             (tier1GatewayLocaleServiceTask.desired h spec edge.Path),
           .segmentsUpdate segmentId
             (segmentTask.desired h spec gatewayAddr (spec.FullClusterName ++ "-" ++ suffix)
               ("/infra/tier-1s/" ++ tier1Id) zone.Path),
           .ipAllocationsUpdate pool.ID allocId (snatIPAddressAllocationTask.desired h spec),
           .realizedIPAddress allocPath,
           .natRulesUpdate tier1Id PolicyNat_NAT_TYPE_USER ruleId
             (snatRuleTask.desired h spec conn.world.snatAddress)] ∧
        run1.conn.world =
          { conn.world with
            tier1s :=
              (tier1Id, { tier1GatewayTask.desired h spec tier0.Path with
                          Id := some tier1Id, Path := some ("/infra/tier-1s/" ++ tier1Id) }) ::
                conn.world.tier1s
            localeServices :=
              ((tier1Id, h.defaultPolicyLocaleServiceID),
                { tier1GatewayLocaleServiceTask.desired h spec edge.Path with
                  Id := some h.defaultPolicyLocaleServiceID
                  Path := some ("/infra/tier-1s/" ++ tier1Id ++ "/locale-services/" ++
                    h.defaultPolicyLocaleServiceID) }) :: conn.world.localeServices
            segments :=
              (segmentId,
                { segmentTask.desired h spec gatewayAddr (spec.FullClusterName ++ "-" ++ suffix)
                    ("/infra/tier-1s/" ++ tier1Id) zone.Path with
                  Id := some segmentId, Path := some ("/infra/segments/" ++ segmentId) }) ::
                conn.world.segments
            ipAllocations :=
              ((pool.ID, allocId),
                { snatIPAddressAllocationTask.desired h spec with
                  Id := some allocId, Path := some allocPath }) :: conn.world.ipAllocations
            natRules :=
              ((tier1Id, PolicyNat_NAT_TYPE_USER, ruleId),
                { snatRuleTask.desired h spec conn.world.snatAddress with
                  Id := some ruleId
                  Path := some ("/infra/tier-1s/" ++ tier1Id ++ "/nat/" ++
                    PolicyNat_NAT_TYPE_USER ++ "/nat-rules/" ++ ruleId) }) ::
                conn.world.natRules
            counter := conn.world.counter + 5 } ∧
        ∃ run2, runTasks (ensureTasks (fuel + 1) (storeContext h) spec) [] run1.state
            run1.conn = some run2 ∧
          run2.result = .ok [actionFound, actionFound, actionFound, actionFound,
            actionUnchanged, actionUnchanged, actionUnchanged, actionUnchanged, actionFound,
            actionUnchanged] ∧
          run2.state = run1.state ∧
          (∃ extra, run2.conn.calls = run1.conn.calls ++ extra ∧ extra.length = 10 ∧
            ∀ call ∈ extra, call.isWrite = false) ∧
          run2.conn.calls = run1.conn.calls ++
            [.tier0sList none,
             .edgeClustersList h.defaultSite h.policyEnforcementPoint,
             .transportZonesList h.defaultSite h.policyEnforcementPoint,
             .ipPoolsList none,
             .tier1sGet tier1Id,
             .localeServicesGet tier1Id h.defaultPolicyLocaleServiceID,
             .segmentsGet segmentId,
             .ipAllocationsGet pool.ID allocId,
             .realizedIPAddress allocPath,
             .natRulesGet tier1Id PolicyNat_NAT_TYPE_USER ruleId] ∧
          run2.conn.world =
            { run1.conn.world with counter := run1.conn.world.counter + 1 } := by
  have hPfx : ∀ suffix, HasPrefix (spec.FullClusterName ++ "-" ++ suffix) spec.FullClusterName =
      true := fun suffix => (hasPrefix_iff _ _).2 ⟨"-" ++ suffix, by rw [String.append_assoc]⟩
  simp [runTasks, ensureTasks, lookupTier0GatewayTask.Ensure, lookupEdgeClusterTask.Ensure,
    lookupTransportZoneTask.Ensure, lookupSNATIPPoolTask.Ensure, pagedLookup, singleLookup,
    tier1GatewayTask.Ensure, tier1GatewayLocaleServiceTask.Ensure, segmentTask.Ensure,
    snatIPAddressAllocationTask.Ensure, snatIPAddressAllocationTask.create,
    snatIPAddressRealizationTask.Ensure, snatRuleTask.Ensure, storeContext, Store.page,
    Store.get, emptyState, Conn.invoke, Conn.draw, hCidr, hTier0, hEdge, hZone, hPool,
    tier1GatewayTask.changed, tier1GatewayTask.desired, tier1GatewayLocaleServiceTask.changed,
    tier1GatewayLocaleServiceTask.desired, segmentTask.changed, segmentTask.desired,
    segmentTask.subnetsChanged, snatRuleTask.changed, snatRuleTask.desired,
    snatIPAddressAllocationTask.desired, differs, equalStrings,
    hTags, hPfx, Call.isWrite, Call.isPatch, Call.isUpdate, Call.isDelete, Store.token,
    Nat.add_assoc, PolicyNat_NAT_TYPE_USER]

/-- Witness for C16: the pipeline on the store that lists the four shared objects of
the sample spec and holds nothing else. The first run records the References under
which the store hands the five objects out and writes five times; the second run
reads them back under those References. -/
theorem full_pipeline_on_storing_catalogue_witness :
    ∃ run1, runTasks (ensureTasks 1 (storeContext sampleHelpers) sampleSpec) [] emptyState
        sampleConn = some run1 ∧
      run1.result = .ok [actionFound, actionFound, actionFound, actionFound, actionCreated,
        actionCreated, actionCreated, actionCreated, actionFound, actionCreated] ∧
      run1.state =
        { SegmentName := some "shoot--foo--bar-bbbbbbbb"
          SNATIPAddress := some "192.0.2.7"
          Tier0GatewayRef := some { ID := "t0", Path := "/infra/tier-0s/t0" }
          EdgeClusterRef := some { ID := "ec", Path := "/infra/edge-clusters/ec" }
          TransportZoneRef := some { ID := "tz", Path := "/infra/transport-zones/tz" }
          SNATIPPoolRef := some { ID := "pool", Path := "/infra/ip-pools/pool" }
          Tier1GatewayRef :=
            some { ID := "tier1gw-aaaaaaaa", Path := "/infra/tier-1s/tier1gw-aaaaaaaa" }
          LocaleServiceRef := some { ID := "tier1gw-aaaaaaaa", Path := "" }
          SegmentRef :=
            some { ID := "segment-cccccccc", Path := "/infra/segments/segment-cccccccc" }
          SNATIPAddressAllocRef :=
            some { ID := "snatippool-dddddddd"
                   Path := "/infra/ip-pools/pool/ip-allocations/snatippool-dddddddd" }
          SNATRuleRef :=
            some { ID := "snatrule-eeeeeeee"
                   Path := "/infra/tier-1s/tier1gw-aaaaaaaa/nat/USER/nat-rules/snatrule-eeeeeeee" } } ∧
      run1.conn.calls.map Call.isWrite =
        [false, false, false, false, true, true, true, true, false, true] ∧
      (run1.conn.world.tier1s.map (fun entry => entry.1),
        run1.conn.world.localeServices.map (fun entry => entry.1),
        run1.conn.world.segments.map (fun entry => entry.1),
        run1.conn.world.ipAllocations.map (fun entry => entry.1),
        run1.conn.world.natRules.map (fun entry => entry.1)) =
        (["tier1gw-aaaaaaaa"], [("tier1gw-aaaaaaaa", "default")], ["segment-cccccccc"],
          [("pool", "snatippool-dddddddd")], [("tier1gw-aaaaaaaa", "USER", "snatrule-eeeeeeee")]) ∧
      ∃ run2, runTasks (ensureTasks 1 (storeContext sampleHelpers) sampleSpec) [] run1.state
          run1.conn = some run2 ∧
        run2.result = .ok [actionFound, actionFound, actionFound, actionFound, actionUnchanged,
          actionUnchanged, actionUnchanged, actionUnchanged, actionFound, actionUnchanged] ∧
        run2.state = run1.state ∧
        run2.conn.calls = run1.conn.calls ++
          [.tier0sList none, .edgeClustersList "default" "default",
           .transportZonesList "default" "default", .ipPoolsList none,
           .tier1sGet "tier1gw-aaaaaaaa", .localeServicesGet "tier1gw-aaaaaaaa" "default",
           .segmentsGet "segment-cccccccc", .ipAllocationsGet "pool" "snatippool-dddddddd",
           .realizedIPAddress "/infra/ip-pools/pool/ip-allocations/snatippool-dddddddd",
           .natRulesGet "tier1gw-aaaaaaaa" "USER" "snatrule-eeeeeeee"] := by
  obtain ⟨tier1Id, suffix, segmentId, allocId, ruleId, allocPath, rfl, rfl, rfl, rfl, rfl, rfl,
    run1, hRun1, hResult, _, hState, hCalls, hWorld, run2, hRun2, hResult2, hState2, _, hCalls2,
    _⟩ := full_pipeline_on_storing_catalogue sampleHelpers sampleSpec sampleConn "10.250.0.1/16"
      { ID := "t0", Path := "/infra/tier-0s/t0" } { ID := "ec", Path := "/infra/edge-clusters/ec" }
      { ID := "tz", Path := "/infra/transport-zones/tz" }
      { ID := "pool", Path := "/infra/ip-pools/pool" }
      (by decide) rfl (by decide) (by decide) (by decide) (by decide) 0
  refine ⟨run1, hRun1, hResult, ?_, ?_, ?_, run2, hRun2, hResult2, hState2, ?_⟩
  · rw [hState]
    decide
  · rw [hCalls]
    rfl
  · rw [hWorld]
    rfl
  · rw [hCalls2]
    rfl

end Vsphere
